import Mathlib

/-!
# RenderDoos: resource tables of the render context

A shallow embedding of the handle tables of `render_context` (render_context.h,
render_context.cpp) and of the two backends `render_context_gl`
(render_context_gl.cpp) and `render_context_metal` (render_context_metal.cpp).

Conventions of the embedding

* A table `T _xs[MAX]` is a function `Nat → T`; the code only ever indexes it
  below `MAX`, and the embedding does the same.
* `int32_t` values are `Int`, `uint16_t`/`uint32_t` values are `Nat`; the one
  place where unsigned wrap-around matters (the name hash) reduces modulo `2^32`
  explicitly.
* A pointer to CPU memory (`uint8_t* raw`) is `Option (List Nat)`: `none` is
  `nullptr`, `some bs` is a block holding the bytes `bs`.  `new uint8_t[n]`
  gives a block of `n` bytes whose values are indeterminate; `new_uint8_array`
  stands for it, and only its length is ever used in a statement.
* A C string (`const char*`) is the list of its characters before the
  terminating NUL, each as the value `(uint32_t)(*s)`; `strcmp(a, b) == 0` is
  equality of these lists.
* Fields that only name device objects (`gl_texture_id`, `gl_buffer_id`,
  `metal_texture`, `metal_buffer`, ...) are written by the graphics driver and
  are not part of the embedding; driver calls are taken to succeed
  (`glCheckError` does not throw).
* A value that the driver or the device reports back (`GL_COMPILE_STATUS`,
  `GL_LINK_STATUS`, the pipeline object a device call returns) is a parameter of
  the function that asks for it.  A pipeline object is a record of the settings
  it was built from, with a number that tells one object from another.
* Where the code would index a table outside its bounds or go through a null
  pointer, the function ends with the outcome `out_of_range`.
-/

namespace RenderDoos

/-! ## Constants (render_context.h) -/

def MAX_TEXTURE : Nat := 1024
def MAX_GEOMETRY : Nat := 1024
def MAX_BUFFER_OBJECT : Nat := 2048
def MAX_SHADER : Nat := 1024
def MAX_SHADER_PROGRAM : Nat := 1024
def MAX_FRAMEBUFFER : Nat := 1024
def MAX_RENDERBUFFER : Nat := 1024
def MAX_UNIFORMS : Nat := 1024
def MAX_QUERIES : Nat := 16

def TEX_ALLOCATED : Int := 1
def GEOMETRY_ALLOCATED : Int := 1
def GEOMETRY_VERTEX : Int := 1
def GEOMETRY_INDEX : Int := 2
def COMPUTE_BUFFER : Int := 3

def TEX_USAGE_READ : Int := 1
def TEX_USAGE_WRITE : Int := 2
def TEX_USAGE_RENDER_TARGET : Int := 4

def SHADER_VERTEX : Int := 1
def SHADER_FRAGMENT : Int := 2
def SHADER_COMPUTE : Int := 3

/-! ## Texture formats (types.h) -/

def texture_format_none : Int := 0
def texture_format_rgba8 : Int := 1
def texture_format_bgra8 : Int := 3
def texture_format_depth : Int := 11

/-! ## Records (render_context.h) -/

/-- The record `texture`.  `texture_target` is written by the command-buffer
backend only. -/
structure texture where
  w : Int
  h : Int
  flags : Int
  usage_flags : Int
  format : Int
  texture_target : Int
  deriving DecidableEq, Repr

/-- The record `buffer_object`: `type` 0 = unused; `raw` is the CPU memory. -/
structure buffer_object where
  type : Int
  size : Int
  raw : Option (List Nat)
  deriving DecidableEq, Repr

/-- The record `geometry_ref`: buffer handle and number of elements. -/
structure geometry_ref where
  buffer : Int
  count : Int
  deriving DecidableEq, Repr

/-- The record `geometry_handle`. -/
structure geometry_handle where
  mode : Int
  vertex_size : Int
  vertex_declaration_type : Int
  locked : Int
  vertex : geometry_ref
  index : geometry_ref
  deriving DecidableEq, Repr

/-- The record `query_handle`. -/
structure query_handle where
  mode : Int
  metal_timestamp : Nat
  deriving DecidableEq, Repr

/-- The record `shader`: `type` 0 = unused. -/
structure shader where
  type : Int
  compiled : Int
  name : Option (List Nat)
  deriving DecidableEq, Repr

/-- The record `shader_program`. -/
structure shader_program where
  vertex_shader_handle : Int
  fragment_shader_handle : Int
  compute_shader_handle : Int
  linked : Int
  deriving DecidableEq, Repr

/-- The record `render_buffer`: `type` 0 = unused, 1 = used. -/
structure render_buffer where
  type : Int
  deriving DecidableEq, Repr

/-- The record `frame_buffer`. -/
structure frame_buffer where
  texture_handle : Int
  render_buffer_handle : Int
  depth_texture_handle : Int
  w : Int
  h : Int
  deriving DecidableEq, Repr

/-- The enumeration `uniform_type::type`. -/
inductive uniform_type where
  | sampler | vec2 | vec3 | vec4 | uvec2 | uvec3 | uvec4 | mat3 | mat4 | integer | real
  deriving DecidableEq, Repr

/-- The value of each enumerator of `uniform_type::type`. -/
def uniform_type.toNat : uniform_type → Nat
  | .sampler => 0 | .vec2 => 1 | .vec3 => 2 | .vec4 => 3 | .uvec2 => 4 | .uvec3 => 5
  | .uvec4 => 6 | .mat3 => 7 | .mat4 => 8 | .integer => 9 | .real => 10

/-- The record `uniform_value`. -/
structure uniform_value where
  name : Option (List Nat)
  raw : Option (List Nat)
  size : Int
  num : Nat
  uniform_type : uniform_type
  deriving DecidableEq, Repr

/-- The data members of the class `render_context`. -/
structure render_context where
  _textures : Nat → texture
  _geometry_handles : Nat → geometry_handle
  _buffer_objects : Nat → buffer_object
  _shaders : Nat → shader
  _shader_programs : Nat → shader_program
  _render_buffers : Nat → render_buffer
  _frame_buffers : Nat → frame_buffer
  _uniforms : Nat → uniform_value
  _queries : Nat → query_handle
  _initialized : Bool

/-! ## Loops over a table -/

/-- The loop `for (i = start; i < start + n; ++i) if (p i) return i;`: the first
index at which `p` holds, `none` when the loop runs to its end. -/
def scan (p : Nat → Bool) : Nat → Nat → Option Nat
  | 0, _ => none
  | n + 1, i => if p i then some i else scan p n (i + 1)

/-- The loop `for (int i = start; i < start + n; ++i) f(i);` on a context. -/
def for_each (f : render_context → Int → render_context) :
    Nat → Nat → render_context → render_context
  | 0, _, c => c
  | n + 1, i, c => for_each f n (i + 1) (f c i)

/-- The block `new uint8_t[n]`: `n` bytes of indeterminate value. -/
def new_uint8_array (n : Nat) : List Nat := List.replicate n 0

/-- The call `memcpy(dst, src, n)` on a destination block holding `dst`, for a
source of at least `n` bytes. -/
def memcpy (dst src : List Nat) (n : Nat) : List Nat := src.take n ++ dst.drop n

/-- How a call ends: it returns, it throws `std::runtime_error("Out of memory")`,
an `assert` fails, or it indexes a table outside its bounds or goes through a
null pointer (undefined behaviour; the context is the one at that point). -/
inductive outcome where
  | ok | out_of_memory | assertion_failed | out_of_range
  deriving DecidableEq, Repr

/-- The loop `for (int i = start; i < start + n; ++i) f(i);` for an `f` that can
fail: the loop ends at the first call that does not return. -/
def for_each_checked (f : render_context → Int → outcome × render_context) :
    Nat → Nat → render_context → outcome × render_context
  | 0, _, c => (.ok, c)
  | n + 1, i, c =>
    if (f c i).1 = .ok then for_each_checked f n (i + 1) (f c i).2 else f c i

/-- What `_allocate_buffer_object` (`_allocate_geometry_buffer` in the
command-buffer backend) leaves behind: how it ended, the context, the
`geometry_ref` it was given by reference, and the caller's pointer variable
(`none` when the caller passed `nullptr` for it; otherwise its value, which is
`some i` for the CPU memory of buffer slot `i` and `none` for a null pointer). -/
structure allocation where
  status : outcome
  context : render_context
  ref : geometry_ref
  pointer : Option (Option Nat)

/-- What `geometry_begin` leaves behind: how it ended, the context, and the
caller's two pointer variables. -/
structure begun where
  status : outcome
  context : render_context
  vertex_pointer : Option (Option Nat)
  index_pointer : Option (Option Nat)

/-- What `copy_buffer_object_data` asks of the driver: a copy of `size` bytes from
offset `read_offset` of the device buffer of slot `source` to offset
`write_offset` of the device buffer of slot `destination`. -/
structure buffer_copy where
  source : Nat
  destination : Nat
  read_offset : Nat
  write_offset : Nat
  size : Nat
  deriving DecidableEq, Repr

/-- What `add_program` leaves behind: how it ended, the handle it returns, and
the context. -/
structure program_added where
  status : outcome
  handle : Int
  context : render_context

/-! ## render_context.cpp -/

/-- The record `uniform_declaration` without its key. -/
structure uniform_declaration where
  size_of_entry : Nat
  number_of_entries : Nat
  deriving DecidableEq, Repr

/-- The table `uniform_type_to_declaration`, indexed by the enumerator. -/
def uniform_type_to_declaration : uniform_type → uniform_declaration
  | .sampler => ⟨4, 1⟩
  | .vec2 => ⟨4, 2⟩
  | .vec3 => ⟨4, 3⟩
  | .vec4 => ⟨4, 4⟩
  | .uvec2 => ⟨4, 2⟩
  | .uvec3 => ⟨4, 3⟩
  | .uvec4 => ⟨4, 4⟩
  | .mat3 => ⟨4, 9⟩
  | .mat4 => ⟨4, 16⟩
  | .integer => ⟨4, 1⟩
  | .real => ⟨4, 1⟩

namespace render_context

/-- A context before `init`, with all of its memory zero. -/
def blank : render_context :=
  { _textures := fun _ => ⟨0, 0, 0, 0, 0, 0⟩
    _geometry_handles := fun _ => ⟨0, 0, 0, 0, ⟨0, 0⟩, ⟨0, 0⟩⟩
    _buffer_objects := fun _ => ⟨0, 0, none⟩
    _shaders := fun _ => ⟨0, 0, none⟩
    _shader_programs := fun _ => ⟨0, 0, 0, 0⟩
    _render_buffers := fun _ => ⟨0⟩
    _frame_buffers := fun _ => ⟨0, 0, 0, 0, 0⟩
    _uniforms := fun _ => ⟨none, none, 0, 0, .sampler⟩
    _queries := fun _ => ⟨0, 0⟩
    _initialized := false }

/-- The method `render_context::init`: every loop writes the fields it names and
leaves the other fields of a slot as they were. -/
def init (c : render_context) : render_context :=
  { _textures := fun i =>
      if i < MAX_TEXTURE then { c._textures i with flags := 0 } else c._textures i
    _geometry_handles := fun i =>
      if i < MAX_GEOMETRY then { c._geometry_handles i with mode := 0 }
      else c._geometry_handles i
    _buffer_objects := fun i =>
      if i < MAX_BUFFER_OBJECT then { type := 0, size := 0, raw := none }
      else c._buffer_objects i
    _shaders := fun i =>
      if i < MAX_SHADER then { type := 0, compiled := 0, name := none } else c._shaders i
    _shader_programs := fun i =>
      if i < MAX_SHADER_PROGRAM then
        { linked := 0, vertex_shader_handle := -1, fragment_shader_handle := -1,
          compute_shader_handle := -1 }
      else c._shader_programs i
    _render_buffers := fun i =>
      if i < MAX_RENDERBUFFER then { type := 0 } else c._render_buffers i
    _frame_buffers := fun i =>
      if i < MAX_FRAMEBUFFER then
        { c._frame_buffers i with
          render_buffer_handle := -1, texture_handle := -1, depth_texture_handle := -1 }
      else c._frame_buffers i
    _uniforms := fun i =>
      if i < MAX_UNIFORMS then
        { c._uniforms i with name := none, num := 0, raw := none, size := 0 }
      else c._uniforms i
    _queries := fun i =>
      if i < MAX_QUERIES then { c._queries i with mode := 0 } else c._queries i
    _initialized := true }

/-- The method `render_context::remove_uniform`. -/
def remove_uniform (c : render_context) (handle : Int) : render_context :=
  if handle < 0 ∨ handle ≥ MAX_UNIFORMS then c
  else
    let uni := c._uniforms handle.toNat
    if uni.num = 0 then c
    else
      { c with
        _uniforms := Function.update c._uniforms handle.toNat
          { uni with raw := none, size := 0, num := 0, name := none } }

/-- The method `render_context::set_uniform`; `values` is the memory the source
pointer points to. -/
def set_uniform (c : render_context) (handle : Int) (values : List Nat) : render_context :=
  if handle < 0 ∨ handle ≥ MAX_UNIFORMS then c
  else
    let uni := c._uniforms handle.toNat
    { c with
      _uniforms := Function.update c._uniforms handle.toNat
        { uni with raw := uni.raw.map fun dst => memcpy dst values uni.size.toNat } }

/-- The hash loop of `add_uniform`: `hash = (hash ^ (uint32_t)(*s++)) * 16777619`
in 32-bit unsigned arithmetic, from 2166136261. -/
def add_uniform.hash (name : List Nat) : Nat :=
  name.foldl (fun hash ch => (hash ^^^ ch) * 16777619 % 2 ^ 32) 2166136261

/-- The probe loop of `add_uniform`: at most `n` slots are tried, from `bucket`
on, each step going to `(bucket + 1) % MAX_UNIFORMS`; the result is the first
slot at which `p` holds. -/
def add_uniform.probe (p : Nat → Bool) : Nat → Nat → Option Nat
  | 0, _ => none
  | n + 1, bucket =>
    if p bucket then some bucket else add_uniform.probe p n ((bucket + 1) % MAX_UNIFORMS)

/-- The method `render_context::add_uniform`; `num` is a `uint16_t`. -/
def add_uniform (c : render_context) (name : List Nat) (ty : uniform_type) (num : Nat) :
    Int × render_context :=
  if num ≤ 0 then (-1, c)
  else
    let bucket := add_uniform.hash name % MAX_UNIFORMS
    match add_uniform.probe
        (fun b => (c._uniforms b).num == 0 || (c._uniforms b).name == some name)
        MAX_UNIFORMS bucket with
    | none => (-1, c)
    | some b =>
      let c1 := if (c._uniforms b).num ≠ 0 then remove_uniform c b else c
      let decl := uniform_type_to_declaration ty
      let size := decl.number_of_entries * decl.size_of_entry * num
      (b, { c1 with
            _uniforms := Function.update c1._uniforms b
              { name := some name, raw := some (new_uint8_array size), size := size,
                num := num, uniform_type := ty } })

/-- The shape `add_uniform` gives a uniform slot: every slot in use has a count
that fits `uint16_t`, the size `entries * entry_size * num` of its type, and a
block of that many bytes. -/
def uniforms_sized (c : render_context) : Prop :=
  ∀ i, (c._uniforms i).num ≠ 0 →
    (c._uniforms i).num < 65536 ∧
    (c._uniforms i).size =
      ((uniform_type_to_declaration (c._uniforms i).uniform_type).number_of_entries *
        (uniform_type_to_declaration (c._uniforms i).uniform_type).size_of_entry *
        (c._uniforms i).num : Nat) ∧
    ∃ bytes, (c._uniforms i).raw = some bytes ∧ bytes.length = (c._uniforms i).size.toNat

/-- The number of uniform slots that are in use (`num != 0`). -/
def uniforms_in_use (c : render_context) : Nat :=
  ((List.range MAX_UNIFORMS).filter fun i => (c._uniforms i).num != 0).length

end render_context

/-! ## render_context_gl.cpp -/

namespace render_context_gl

/-- The method `render_context_gl::_add_texture`.  The pixel data and
`bytes_per_channel` only reach the driver (`update_texture` writes no table). -/
def _add_texture (c : render_context) (w h format usage_flags : Int) : Int × render_context :=
  match scan (fun i => (c._textures i).flags == 0) MAX_TEXTURE 0 with
  | some i =>
    (i, { c with
          _textures := Function.update c._textures i
            { c._textures i with
              w := w, h := h, format := format, flags := TEX_ALLOCATED,
              usage_flags := usage_flags } })
  | none => (-1, c)

/-- The two overloads of `render_context_gl::add_texture`; they differ in the
type of the pixel data only. -/
def add_texture (c : render_context) (w h format usage_flags : Int) : Int × render_context :=
  _add_texture c w h format usage_flags

/-- A run of `add_texture` calls, one per entry `(w, h, format, usage_flags)`:
the handles returned, in order, and the context after the last call. -/
def add_textures (c : render_context) : List (Int × Int × Int × Int) → List Int × render_context
  | [] => ([], c)
  | a :: rest =>
    let r := add_texture c a.1 a.2.1 a.2.2.1 a.2.2.2
    let rs := add_textures r.2 rest
    (r.1 :: rs.1, rs.2)

/-- The method `render_context_gl::remove_texture`. -/
def remove_texture (c : render_context) (handle : Int) : render_context :=
  if handle < 0 ∨ handle ≥ MAX_TEXTURE then c
  else
    let tex := c._textures handle.toNat
    if tex.flags = 0 then c
    else { c with _textures := Function.update c._textures handle.toNat { tex with flags := 0 } }

/-- The method `render_context_gl::get_texture`: `none` is `nullptr`, `some t` is
a pointer to the slot, whose content is `t`. -/
def get_texture (c : render_context) (handle : Int) : Option texture :=
  if handle < 0 ∨ handle ≥ MAX_TEXTURE then none else some (c._textures handle.toNat)

/-- The `size` column of `gl_buffer_declaration_table`, indexed by the vertex
declaration type. -/
def gl_buffer_declaration_table_size (vertex_declaration_type : Int) : Int :=
  if vertex_declaration_type = 1 then 32
  else if vertex_declaration_type = 2 then 16
  else if vertex_declaration_type = 3 then 28
  else 0

/-- The method `render_context_gl::add_geometry`; the `memset` zeroes the slot. -/
def add_geometry (c : render_context) (vertex_declaration_type : Int) : Int × render_context :=
  if vertex_declaration_type < 1 ∨ vertex_declaration_type > 3 then (-1, c)
  else
    match scan (fun i => (c._geometry_handles i).mode == 0) MAX_GEOMETRY 0 with
    | some i =>
      (i, { c with
            _geometry_handles := Function.update c._geometry_handles i
              { mode := GEOMETRY_ALLOCATED
                vertex_size := gl_buffer_declaration_table_size vertex_declaration_type
                vertex_declaration_type := vertex_declaration_type
                locked := 0
                vertex := { buffer := -1, count := 0 }
                index := { buffer := -1, count := 0 } } })
    | none => (-1, c)

/-- The method `render_context_gl::add_buffer_object`. -/
def add_buffer_object (c : render_context) (size : Int) : Int × render_context :=
  if size ≤ 0 then (-1, c)
  else
    match scan (fun i => (c._buffer_objects i).size == 0) MAX_BUFFER_OBJECT 0 with
    | some i =>
      (i, { c with
            _buffer_objects := Function.update c._buffer_objects i
              { c._buffer_objects i with size := size, type := COMPUTE_BUFFER } })
    | none => (-1, c)

/-- The method `render_context_gl::_remove_buffer_object`; `ref` is passed by
reference, its new value is the second component. -/
def _remove_buffer_object (c : render_context) (ref : geometry_ref) :
    render_context × geometry_ref :=
  if ref.buffer < 0 ∨ ref.buffer ≥ MAX_BUFFER_OBJECT then (c, ref)
  else
    ({ c with
       _buffer_objects := Function.update c._buffer_objects ref.buffer.toNat
         { c._buffer_objects ref.buffer.toNat with size := 0, raw := none, type := 0 } },
     { ref with count := 0 })

/-- The method `render_context_gl::remove_geometry`.  When the assertion fails
the context is the one at the time of the abort. -/
def remove_geometry (c : render_context) (handle : Int) : outcome × render_context :=
  if handle < 0 ∨ handle ≥ MAX_GEOMETRY then (.ok, c)
  else
    let geo := c._geometry_handles handle.toNat
    if geo.mode = 0 then (.ok, c)
    else if ¬ geo.locked = 0 then (.assertion_failed, c)
    else
      let r1 := _remove_buffer_object c geo.vertex
      let r2 := _remove_buffer_object r1.1 geo.index
      (.ok, { r2.1 with
              _geometry_handles := Function.update c._geometry_handles handle.toNat
                { geo with mode := 0, vertex := r1.2, index := r2.2 } })

/-- The method `render_context_gl::_allocate_buffer_object`. -/
def _allocate_buffer_object (c : render_context) (ref : geometry_ref)
    (tuple_size count type : Int) (pointer : Option (Option Nat)) : allocation :=
  if ¬ (type = GEOMETRY_VERTEX ∨ type = GEOMETRY_INDEX) then
    ⟨.assertion_failed, c, ref, pointer⟩
  else
    let found : Option (render_context × geometry_ref) :=
      if ref.buffer < 0 then
        match scan (fun i => (c._buffer_objects i).size == 0) MAX_BUFFER_OBJECT 0 with
        | some i =>
          some ({ c with
                  _buffer_objects := Function.update c._buffer_objects i
                    { c._buffer_objects i with type := 0 } },
                { ref with buffer := i })
        | none => none
      else some (c, ref)
    match found with
    | none => ⟨.out_of_memory, c, ref, pointer⟩
    | some (c1, ref1) =>
      let buf := c1._buffer_objects ref1.buffer.toNat
      let size := tuple_size * count
      let r : render_context × geometry_ref :=
        if buf.size < size ∨ buf.type ≠ type then
          ({ c1 with
             _buffer_objects := Function.update c1._buffer_objects ref1.buffer.toNat
               { raw := some (new_uint8_array size.toNat), size := size, type := type } },
           { ref1 with count := count })
        else (c1, ref1)
      let buf2 := r.1._buffer_objects ref1.buffer.toNat
      ⟨.ok, r.1, r.2,
        pointer.map fun _ => if buf2.raw.isSome then some ref1.buffer.toNat else none⟩

/-- The method `render_context_gl::geometry_begin`.  `vertex_pointer` and
`index_pointer` are `none` when the caller passes `nullptr`, otherwise the
current value of the caller's variable. -/
def geometry_begin (c : render_context) (handle : Int)
    (number_of_vertices number_of_indices : Int)
    (vertex_pointer index_pointer : Option (Option Nat)) (update : Int) : begun :=
  if handle < 0 ∨ handle ≥ MAX_GEOMETRY then ⟨.ok, c, vertex_pointer, index_pointer⟩
  else
    let gh := c._geometry_handles handle.toNat
    if gh.mode = 0 then ⟨.ok, c, vertex_pointer, index_pointer⟩
    else
      let vp : Option (Option Nat) := vertex_pointer.map fun _ => none
      let ip : Option (Option Nat) := index_pointer.map fun _ => none
      -- vertices
      let v : outcome × render_context × geometry_handle × Option (Option Nat) :=
        if update.land GEOMETRY_VERTEX ≠ 0 ∧ ¬ gh.locked.land GEOMETRY_VERTEX ≠ 0 then
          let gh1 := { gh with locked := gh.locked.lor GEOMETRY_VERTEX }
          let a := _allocate_buffer_object c gh1.vertex gh1.vertex_size number_of_vertices
            GEOMETRY_VERTEX vp
          (a.status, a.context, { gh1 with vertex := a.ref }, a.pointer)
        else (.ok, c, gh, vp)
      let store (c2 : render_context) (g : geometry_handle) : render_context :=
        { c2 with _geometry_handles := Function.update c2._geometry_handles handle.toNat g }
      if v.1 ≠ .ok then ⟨v.1, store v.2.1 v.2.2.1, v.2.2.2, ip⟩
      else
        let gh2 := v.2.2.1
        -- indices
        if update.land GEOMETRY_INDEX ≠ 0 ∧ ¬ gh2.locked.land GEOMETRY_INDEX ≠ 0 then
          let gh3 := { gh2 with locked := gh2.locked.lor GEOMETRY_INDEX }
          let a := _allocate_buffer_object v.2.1 gh3.index 4 number_of_indices
            GEOMETRY_INDEX ip
          ⟨a.status, store a.context { gh3 with index := a.ref }, v.2.2.2, a.pointer⟩
        else ⟨.ok, store v.2.1 gh2, v.2.2.2, ip⟩

/-- The method `render_context_gl::geometry_end`; `_update_buffer_object` sends
the CPU memory to the driver and writes no table. -/
def geometry_end (c : render_context) (handle : Int) : render_context :=
  if handle < 0 ∨ handle ≥ MAX_GEOMETRY then c
  else
    let gh := c._geometry_handles handle.toNat
    if gh.mode = 0 then c
    else
      let gh1 :=
        if gh.locked.land GEOMETRY_VERTEX ≠ 0 then
          { gh with locked := gh.locked.land (Int.lnot GEOMETRY_VERTEX) }
        else gh
      let gh2 :=
        if gh1.locked.land GEOMETRY_INDEX ≠ 0 then
          { gh1 with locked := gh1.locked.land (Int.lnot GEOMETRY_INDEX) }
        else gh1
      { c with _geometry_handles := Function.update c._geometry_handles handle.toNat gh2 }

/-- The method `render_context_gl::geometry_draw`, seen through the draw call it
issues: `some n` is `glDrawElements(GL_TRIANGLES, n, GL_UNSIGNED_INT, 0)`, `none`
is a return before any draw. -/
def geometry_draw (c : render_context) (handle : Int) : Option Int :=
  if handle < 0 ∨ handle ≥ MAX_GEOMETRY then none
  else
    let gh := c._geometry_handles handle.toNat
    if gh.mode = 0 then none else some gh.index.count

/-- The lock word of every allocated geometry is a mask of the two stream bits
`GEOMETRY_VERTEX` and `GEOMETRY_INDEX`, so it lies in 0..3. -/
def locks_are_masks (c : render_context) : Prop :=
  ∀ i, (c._geometry_handles i).mode ≠ 0 →
    0 ≤ (c._geometry_handles i).locked ∧ (c._geometry_handles i).locked < 4

/-- The method `render_context_gl::remove_buffer_object`: after the range check
the three fields are written whatever the slot holds. -/
def remove_buffer_object (c : render_context) (handle : Int) : render_context :=
  if handle < 0 ∨ handle ≥ MAX_BUFFER_OBJECT then c
  else
    let buf := c._buffer_objects handle.toNat
    { c with
      _buffer_objects := Function.update c._buffer_objects handle.toNat
        { buf with size := 0, raw := none, type := 0 } }

/-- The method `render_context_gl::add_render_buffer`. -/
def add_render_buffer (c : render_context) : Int × render_context :=
  match scan (fun i => (c._render_buffers i).type == 0) MAX_RENDERBUFFER 0 with
  | some i =>
    (i, { c with
          _render_buffers := Function.update c._render_buffers i
            { c._render_buffers i with type := 1 } })
  | none => (-1, c)

/-- The method `render_context_gl::remove_render_buffer`. -/
def remove_render_buffer (c : render_context) (handle : Int) : render_context :=
  if handle < 0 ∨ handle ≥ MAX_RENDERBUFFER then c
  else
    let rb := c._render_buffers handle.toNat
    if rb.type = 0 then c
    else
      { c with
        _render_buffers := Function.update c._render_buffers handle.toNat { rb with type := 0 } }

/-- The method `render_context_gl::add_frame_buffer`, for a frame buffer object
the driver reports complete.  The slot is written before the three handle
checks, so a failed call leaves what it wrote. -/
def add_frame_buffer (c : render_context) (w h : Int) (make_depth_texture : Bool) :
    Int × render_context :=
  match scan (fun i => decide ((c._frame_buffers i).texture_handle < 0)) MAX_FRAMEBUFFER 0 with
  | none => (-1, c)
  | some i =>
    let t := add_texture c w h texture_format_rgba8
      (TEX_USAGE_RENDER_TARGET.lor TEX_USAGE_READ)
    let fb1 := { c._frame_buffers i with w := w, h := h, texture_handle := t.1 }
    let r : render_context × frame_buffer :=
      if make_depth_texture then
        let d := add_texture t.2 w h texture_format_depth TEX_USAGE_RENDER_TARGET
        (d.2, { fb1 with depth_texture_handle := d.1 })
      else
        let rb := add_render_buffer t.2
        (rb.2, { fb1 with render_buffer_handle := rb.1 })
    let c2 := { r.1 with _frame_buffers := Function.update r.1._frame_buffers i r.2 }
    if r.2.texture_handle < 0 then (-1, c2)
    else if make_depth_texture = true ∧ r.2.depth_texture_handle < 0 then (-1, c2)
    else if make_depth_texture = false ∧ r.2.render_buffer_handle < 0 then (-1, c2)
    else (i, c2)

/-- The method `render_context_gl::remove_frame_buffer`. -/
def remove_frame_buffer (c : render_context) (handle : Int) : render_context :=
  if handle < 0 ∨ handle ≥ MAX_FRAMEBUFFER then c
  else
    let fb := c._frame_buffers handle.toNat
    if fb.texture_handle < 0 then c
    else
      let c1 := remove_texture c fb.texture_handle
      let c2 := remove_render_buffer c1 fb.render_buffer_handle
      { c2 with
        _frame_buffers := Function.update c2._frame_buffers handle.toNat
          { fb with texture_handle := -1, render_buffer_handle := -1 } }

/-- The method `render_context_gl::add_shader` with `_compile_shader`.  The source
text only reaches the driver; `compile_status` is the `GL_COMPILE_STATUS` the
driver reports for it.  When that is 0 and the driver has an info log the call
throws after the slot has been written: the context is the same. -/
def add_shader (c : render_context) (type : Int) (name : List Nat) (compile_status : Int) :
    Int × render_context :=
  if type < SHADER_VERTEX ∨ type > SHADER_COMPUTE then (-1, c)
  else
    match scan (fun i => (c._shaders i).name == some name || (c._shaders i).type == 0)
        MAX_SHADER 0 with
    | none => (-1, c)
    | some i =>
      if (c._shaders i).name = some name then (i, c)
      else
        (i, { c with
              _shaders := Function.update c._shaders i
                { type := type, name := some name, compiled := compile_status } })

/-- The method `render_context_gl::remove_shader`. -/
def remove_shader (c : render_context) (handle : Int) : render_context :=
  if handle < 0 ∨ handle ≥ MAX_SHADER then c
  else
    let sh := c._shaders handle.toNat
    if sh.type = 0 then c
    else
      { c with
        _shaders := Function.update c._shaders handle.toNat
          { sh with type := 0, compiled := 0, name := none } }

/-- The method `render_context_gl::add_program`; `link_status` is the
`GL_LINK_STATUS` the driver reports when the program is linked.  In the branch
without a compute shader the code forms `&_shaders[vertex_shader_handle]` and
`&_shaders[fragment_shader_handle]` whatever their sign. -/
def add_program (c : render_context)
    (vertex_shader_handle fragment_shader_handle compute_shader_handle : Int)
    (link_status : Int) : program_added :=
  if (vertex_shader_handle < 0 ∨ fragment_shader_handle < 0) ∧ compute_shader_handle < -1 then
    ⟨.ok, -1, c⟩
  else if vertex_shader_handle ≥ MAX_SHADER ∨ fragment_shader_handle ≥ MAX_SHADER
      ∨ compute_shader_handle ≥ MAX_SHADER then ⟨.ok, -1, c⟩
  else
    match scan
        (fun i =>
          decide ((c._shader_programs i).vertex_shader_handle = vertex_shader_handle
            ∧ (c._shader_programs i).fragment_shader_handle = fragment_shader_handle
            ∧ (c._shader_programs i).compute_shader_handle = compute_shader_handle)
          || decide ((c._shader_programs i).vertex_shader_handle < 0
            ∧ (c._shader_programs i).fragment_shader_handle < 0
            ∧ (c._shader_programs i).compute_shader_handle < 0))
        MAX_SHADER_PROGRAM 0 with
    | none => ⟨.ok, -1, c⟩
    | some i =>
      let sh := c._shader_programs i
      if sh.vertex_shader_handle = vertex_shader_handle
          ∧ sh.fragment_shader_handle = fragment_shader_handle
          ∧ sh.compute_shader_handle = compute_shader_handle then ⟨.ok, i, c⟩
      else
        let sh1 := { sh with
          vertex_shader_handle := vertex_shader_handle
          fragment_shader_handle := fragment_shader_handle
          compute_shader_handle := compute_shader_handle }
        let store (p : shader_program) : render_context :=
          { c with _shader_programs := Function.update c._shader_programs i p }
        if compute_shader_handle ≥ 0 then
          if (c._shaders compute_shader_handle.toNat).compiled ≠ 0 then
            ⟨.ok, i, store { sh1 with linked := link_status }⟩
          else ⟨.ok, i, store sh1⟩
        else if vertex_shader_handle < 0 ∨ fragment_shader_handle < 0 then
          ⟨.out_of_range, i, store sh1⟩
        else if (c._shaders vertex_shader_handle.toNat).compiled ≠ 0
            ∧ (c._shaders fragment_shader_handle.toNat).compiled ≠ 0 then
          ⟨.ok, i, store { sh1 with linked := link_status }⟩
        else ⟨.ok, i, store sh1⟩

/-- The method `render_context_gl::remove_program`; the shaders are read for the
driver's `glDetachShader` only. -/
def remove_program (c : render_context) (handle : Int) : render_context :=
  if handle < 0 ∨ handle ≥ MAX_SHADER_PROGRAM then c
  else
    let sh := c._shader_programs handle.toNat
    if sh.linked = 0 then c
    else
      { c with
        _shader_programs := Function.update c._shader_programs handle.toNat
          { sh with
            vertex_shader_handle := -1, fragment_shader_handle := -1,
            compute_shader_handle := -1, linked := 0 } }

/-- The method `render_context_gl::bind_program`, seen through the driver call it
issues: `some p` is `glUseProgram` on the program object of slot `p`, `none` is a
return before it. -/
def bind_program (c : render_context) (handle : Int) : Option Nat :=
  if handle < 0 ∨ handle ≥ MAX_SHADER_PROGRAM then none
  else if (c._shader_programs handle.toNat).linked = 0 then none
  else some handle.toNat

/-- The method `render_context_gl::bind_uniform`, seen through the driver calls
it issues: `some (p, u)` is the look-up of the name of uniform slot `u` in the
program object of slot `p`, followed by the upload of its value; `none` is a
return before any driver call. -/
def bind_uniform (c : render_context) (program_handle uniform_handle : Int) :
    Option (Nat × uniform_value) :=
  if program_handle < 0 ∨ program_handle ≥ MAX_SHADER_PROGRAM then none
  else if (c._shader_programs program_handle.toNat).linked = 0 then none
  else if uniform_handle < 0 ∨ uniform_handle ≥ MAX_UNIFORMS then none
  else some (program_handle.toNat, c._uniforms uniform_handle.toNat)

/-- The method `render_context_gl::add_query`. -/
def add_query (c : render_context) : Int × render_context :=
  match scan (fun i => (c._queries i).mode == 0) MAX_QUERIES 0 with
  | some i =>
    (i, { c with _queries := Function.update c._queries i { c._queries i with mode := 1 } })
  | none => (-1, c)

/-- The method `render_context_gl::remove_query`. -/
def remove_query (c : render_context) (handle : Int) : render_context :=
  if handle < 0 ∨ handle ≥ MAX_QUERIES then c
  else
    let q := c._queries handle.toNat
    if q.mode = 0 then c
    else { c with _queries := Function.update c._queries handle.toNat { q with mode := 0 } }

/-- The method `render_context::destroy`, its virtual calls bound to the methods
of `render_context_gl`.  A failed assertion in `remove_geometry` ends it. -/
def destroy (c : render_context) : outcome × render_context :=
  let c1 := for_each remove_texture MAX_TEXTURE 0 c
  let g := for_each_checked remove_geometry MAX_GEOMETRY 0 c1
  if g.1 ≠ .ok then g
  else
    let c3 := for_each remove_frame_buffer MAX_FRAMEBUFFER 0 g.2
    let c4 := for_each remove_render_buffer MAX_RENDERBUFFER 0 c3
    let c5 := for_each remove_program MAX_SHADER_PROGRAM 0 c4
    let c6 := for_each remove_shader MAX_SHADER 0 c5
    let c7 := for_each render_context.remove_uniform MAX_UNIFORMS 0 c6
    let c8 := for_each remove_buffer_object MAX_BUFFER_OBJECT 0 c7
    let c9 := for_each remove_query MAX_QUERIES 0 c8
    (.ok, { c9 with _initialized := false })

/-- The method `render_context_gl::copy_buffer_object_data`, seen through the
driver call it issues (`none` is a return before it).  The two offsets and the
size are `uint32_t`.  Of the two slots the code reads `gl_buffer_id` only, so the
tables do not enter; the slot `&_buffer_objects[destination_handle]` is formed
with no test on `destination_handle`. -/
def copy_buffer_object_data (source_handle destination_handle : Int)
    (read_offset write_offset size : Nat) : outcome × Option buffer_copy :=
  if source_handle < 0 ∨ source_handle ≥ MAX_BUFFER_OBJECT then (.ok, none)
  else if (read_offset : Int) < 0 ∨ read_offset ≥ MAX_BUFFER_OBJECT then (.ok, none)
  else if destination_handle < 0 ∨ destination_handle ≥ MAX_BUFFER_OBJECT then
    (.out_of_range, none)
  else
    (.ok, some ⟨source_handle.toNat, destination_handle.toNat, read_offset, write_offset, size⟩)

end render_context_gl

/-- The data members of the class `render_context_gl`: the inherited tables and
the `std::mutex _semaphore`, of which `true` means locked. -/
structure render_context_gl extends render_context where
  _semaphore : Bool

namespace render_context_gl

/-- The method `render_context_gl::frame_begin`, which is `_semaphore.lock()`:
`none` when the mutex is locked already, as the call then does not return. -/
def frame_begin (g : render_context_gl) : Option render_context_gl :=
  if g._semaphore then none else some { g with _semaphore := true }

/-- The method `render_context_gl::frame_end`, which is `_semaphore.unlock()`. -/
def frame_end (g : render_context_gl) : render_context_gl :=
  { g with _semaphore := false }

end render_context_gl

/-! ## render_context_metal.cpp

A method that reads and writes inherited members only is given on
`render_context`; a method that touches a member of `render_context_metal` itself
is given on `render_context_metal`. -/

def MAX_PIPELINESTATE_CACHE : Nat := 1024

def TEX_WRAP_REPEAT : Int := 1
def TEX_FILTER_LINEAR : Int := 8
def CLEAR_COLOR : Int := 1
def CLEAR_DEPTH : Int := 2

/-- The record `renderpass_descriptor` (render_context.h) without its `float`
member `clear_depth`. -/
structure renderpass_descriptor where
  frame_buffer_handle : Int
  frame_buffer_channel : Int
  frame_buffer_flags : Int
  w : Int
  h : Int
  clear_flags : Int
  clear_color : Nat
  depth_texture_handle : Int
  compute_shader : Bool
  deriving DecidableEq, Repr

/-- A device object `MTL::RenderPipelineState`: `object` tells one object from
another (the address `newRenderPipelineState` returns), the other fields are the
blending settings of the descriptor it was built from. -/
structure render_pipeline_state where
  object : Nat
  blending_enabled : Bool
  blend_operation : Int
  source_blend_factor : Int
  destination_blend_factor : Int
  deriving DecidableEq, Repr

/-- A device object `MTL::ComputePipelineState`; `object` tells one object from
another. -/
structure compute_pipeline_state where
  object : Nat
  deriving DecidableEq, Repr

/-- The record `RenderPipelineStateCache`; `p_pipeline` is `none` for `nullptr`. -/
structure RenderPipelineStateCache where
  p_pipeline : Option render_pipeline_state
  vertex_shader_handle : Int
  fragment_shader_handle : Int
  color_pixel_format : Int
  depth_pixel_format : Int
  deriving DecidableEq, Repr

/-- The record `ComputePipelineStateCache`; `p_pipeline` is `none` for `nullptr`. -/
structure ComputePipelineStateCache where
  p_pipeline : Option compute_pipeline_state
  compute_shader_handle : Int
  deriving DecidableEq, Repr

/-- The data members of the class `render_context_metal`.  Of a pointer to a
device object (`mp_command_buffer`, `mp_render_command_encoder`,
`mp_compute_command_encoder`) only whether it is non-null is kept; `_semaphore`
is the value of the dispatch semaphore.  The enumerations `blending_type` and
`blending_equation_type` are declared in a header that is not part of the sources
at hand; their values are integers here. -/
structure render_context_metal extends render_context where
  mp_command_buffer : Bool
  mp_render_command_encoder : Bool
  mp_compute_command_encoder : Bool
  _semaphore : Nat
  _raw_uniforms : List Nat
  m_current_renderpass_descriptor : renderpass_descriptor
  _enable_blending : Bool
  _blending_source : Int
  _blending_destination : Int
  _blending_func : Int
  m_pipeline_state_cache : Nat → RenderPipelineStateCache
  m_compute_pipeline_state_cache : Nat → ComputePipelineStateCache

/-- What a pipeline look-up leaves behind: how it ended, the pointer it returns
(`none` for `nullptr`), and the context. -/
structure render_pipeline_found where
  status : outcome
  pipeline : Option render_pipeline_state
  context : render_context_metal

/-- What a compute pipeline look-up leaves behind. -/
structure compute_pipeline_found where
  status : outcome
  pipeline : Option compute_pipeline_state
  context : render_context_metal

/-- What `render_context_metal::bind_program` leaves behind: how it ended, the
pipeline it sets on the render or on the compute encoder (`none` when it sets
none), and the context. -/
structure program_bound where
  status : outcome
  render_pipeline : Option render_pipeline_state
  compute_pipeline : Option compute_pipeline_state
  context : render_context_metal

/-- The record `uniform_alignment` without its key. -/
structure uniform_alignment where
  size : Nat
  align : Nat
  deriving DecidableEq, Repr

/-- The table `uniform_type_to_alignment`, indexed by the enumerator. -/
def uniform_type_to_alignment : uniform_type → uniform_alignment
  | .sampler => ⟨4, 4⟩
  | .vec2 => ⟨8, 8⟩
  | .vec3 => ⟨16, 16⟩
  | .vec4 => ⟨16, 16⟩
  | .uvec2 => ⟨8, 8⟩
  | .uvec3 => ⟨16, 16⟩
  | .uvec4 => ⟨16, 16⟩
  | .mat3 => ⟨48, 16⟩
  | .mat4 => ⟨64, 16⟩
  | .integer => ⟨4, 4⟩
  | .real => ⟨4, 4⟩

namespace render_context_metal

/-- The method `render_context_metal::_add_texture`; `TEX_TARGET_2D` is a
constant of a header that is not part of the sources at hand. -/
def _add_texture (TEX_TARGET_2D : Int) (c : render_context) (w h format usage_flags : Int) :
    Int × render_context :=
  match scan (fun i => (c._textures i).flags == 0) MAX_TEXTURE 0 with
  | some i =>
    (i, { c with
          _textures := Function.update c._textures i
            { w := w, h := h, format := format, flags := TEX_ALLOCATED,
              texture_target := TEX_TARGET_2D, usage_flags := usage_flags } })
  | none => (-1, c)

/-- The two overloads of `render_context_metal::add_texture`. -/
def add_texture (TEX_TARGET_2D : Int) (c : render_context) (w h format usage_flags : Int) :
    Int × render_context :=
  _add_texture TEX_TARGET_2D c w h format usage_flags

/-- The method `render_context_metal::remove_texture`. -/
def remove_texture (c : render_context) (handle : Int) : render_context :=
  if handle < 0 ∨ handle ≥ MAX_TEXTURE then c
  else
    let tex := c._textures handle.toNat
    if tex.flags = 0 then c
    else { c with _textures := Function.update c._textures handle.toNat { tex with flags := 0 } }

/-- The method `render_context_metal::get_texture`. -/
def get_texture (c : render_context) (handle : Int) : Option texture :=
  if handle < 0 ∨ handle ≥ MAX_TEXTURE then none else some (c._textures handle.toNat)

/-- The method `render_context_metal::_remove_geometry_buffer`. -/
def _remove_geometry_buffer (c : render_context) (ref : geometry_ref) :
    render_context × geometry_ref :=
  if ref.buffer < 0 ∨ ref.buffer ≥ MAX_BUFFER_OBJECT then (c, ref)
  else
    ({ c with
       _buffer_objects := Function.update c._buffer_objects ref.buffer.toNat
         { c._buffer_objects ref.buffer.toNat with size := 0, raw := none, type := 0 } },
     { ref with count := 0 })

/-- The method `render_context_metal::remove_geometry`. -/
def remove_geometry (c : render_context) (handle : Int) : outcome × render_context :=
  if handle < 0 ∨ handle ≥ MAX_GEOMETRY then (.ok, c)
  else
    let geo := c._geometry_handles handle.toNat
    if geo.mode = 0 then (.ok, c)
    else if ¬ geo.locked = 0 then (.assertion_failed, c)
    else
      let r1 := _remove_geometry_buffer c geo.vertex
      let r2 := _remove_geometry_buffer r1.1 geo.index
      (.ok, { r2.1 with
              _geometry_handles := Function.update c._geometry_handles handle.toNat
                { geo with mode := 0, vertex := r1.2, index := r2.2 } })

/-- The method `render_context_metal::_allocate_geometry_buffer`. -/
def _allocate_geometry_buffer (c : render_context) (ref : geometry_ref)
    (tuple_size count type : Int) (pointer : Option (Option Nat)) :
    allocation :=
  if ¬ (type = GEOMETRY_VERTEX ∨ type = GEOMETRY_INDEX) then
    ⟨.assertion_failed, c, ref, pointer⟩
  else
    let found : Option (render_context × geometry_ref) :=
      if ref.buffer < 0 then
        match scan (fun i => (c._buffer_objects i).size == 0) MAX_BUFFER_OBJECT 0 with
        | some i =>
          some ({ c with
                  _buffer_objects := Function.update c._buffer_objects i
                    { c._buffer_objects i with type := 0 } },
                { ref with buffer := i })
        | none => none
      else some (c, ref)
    match found with
    | none => ⟨.out_of_memory, c, ref, pointer⟩
    | some (c1, ref1) =>
      let buf := c1._buffer_objects ref1.buffer.toNat
      let size := tuple_size * count
      let r : render_context × geometry_ref :=
        if buf.size < size ∨ buf.type ≠ type then
          ({ c1 with
             _buffer_objects := Function.update c1._buffer_objects ref1.buffer.toNat
               { raw := some (new_uint8_array size.toNat), size := size, type := type } },
           { ref1 with count := count })
        else (c1, ref1)
      let buf2 := r.1._buffer_objects ref1.buffer.toNat
      ⟨.ok, r.1, r.2,
        pointer.map fun _ => if buf2.raw.isSome then some ref1.buffer.toNat else none⟩

/-- The method `render_context_metal::geometry_begin`. -/
def geometry_begin (c : render_context) (handle : Int)
    (number_of_vertices number_of_indices : Int)
    (vertex_pointer index_pointer : Option (Option Nat)) (update : Int) :
    begun :=
  if handle < 0 ∨ handle ≥ MAX_GEOMETRY then ⟨.ok, c, vertex_pointer, index_pointer⟩
  else
    let gh := c._geometry_handles handle.toNat
    if gh.mode = 0 then ⟨.ok, c, vertex_pointer, index_pointer⟩
    else
      let vp : Option (Option Nat) := vertex_pointer.map fun _ => none
      let ip : Option (Option Nat) := index_pointer.map fun _ => none
      -- vertices
      let v : outcome × render_context × geometry_handle × Option (Option Nat) :=
        if update.land GEOMETRY_VERTEX ≠ 0 ∧ ¬ gh.locked.land GEOMETRY_VERTEX ≠ 0 then
          let gh1 := { gh with locked := gh.locked.lor GEOMETRY_VERTEX }
          let a := _allocate_geometry_buffer c gh1.vertex gh1.vertex_size number_of_vertices
            GEOMETRY_VERTEX vp
          (a.status, a.context, { gh1 with vertex := a.ref }, a.pointer)
        else (.ok, c, gh, vp)
      let store (c2 : render_context) (g : geometry_handle) : render_context :=
        { c2 with _geometry_handles := Function.update c2._geometry_handles handle.toNat g }
      if v.1 ≠ .ok then ⟨v.1, store v.2.1 v.2.2.1, v.2.2.2, ip⟩
      else
        let gh2 := v.2.2.1
        -- indices
        if update.land GEOMETRY_INDEX ≠ 0 ∧ ¬ gh2.locked.land GEOMETRY_INDEX ≠ 0 then
          let gh3 := { gh2 with locked := gh2.locked.lor GEOMETRY_INDEX }
          let a := _allocate_geometry_buffer v.2.1 gh3.index 4 number_of_indices
            GEOMETRY_INDEX ip
          ⟨a.status, store a.context { gh3 with index := a.ref }, v.2.2.2, a.pointer⟩
        else ⟨.ok, store v.2.1 gh2, v.2.2.2, ip⟩

/-- The method `render_context_metal::geometry_end`; `_update_geometry_buffer`
creates the device buffer and writes no other field. -/
def geometry_end (c : render_context) (handle : Int) : render_context :=
  if handle < 0 ∨ handle ≥ MAX_GEOMETRY then c
  else
    let gh := c._geometry_handles handle.toNat
    if gh.mode = 0 then c
    else
      let gh1 :=
        if gh.locked.land GEOMETRY_VERTEX ≠ 0 then
          { gh with locked := gh.locked.land (Int.lnot GEOMETRY_VERTEX) }
        else gh
      let gh2 :=
        if gh1.locked.land GEOMETRY_INDEX ≠ 0 then
          { gh1 with locked := gh1.locked.land (Int.lnot GEOMETRY_INDEX) }
        else gh1
      { c with _geometry_handles := Function.update c._geometry_handles handle.toNat gh2 }

/-- The loop `while (_raw_uniforms.size() % alignment) _raw_uniforms.push_back(0);`
run for at most `fuel` iterations. -/
def pad (alignment : Nat) : Nat → List Nat → List Nat
  | 0, raw => raw
  | fuel + 1, raw =>
    if raw.length % alignment ≠ 0 then pad alignment fuel (raw ++ [0]) else raw

/-- The method `render_context_metal::bind_uniform`.  The padding loop gets
`alignment` iterations, which it never uses up (`pad_aligned`).  The second
`for` loop compares its `int32_t` counter, which starts at `uni->size`, with the
`uint32_t` value `size * uni->num`, so the counter is read modulo `2^32`. -/
def bind_uniform (m : render_context_metal) (program_handle uniform_handle : Int) :
    render_context_metal :=
  if program_handle < 0 ∨ program_handle ≥ MAX_SHADER_PROGRAM then m
  else
    let sh := m._shader_programs program_handle.toNat
    if sh.linked = 0 then m
    else if uniform_handle < 0 ∨ uniform_handle ≥ MAX_UNIFORMS then m
    else
      let uni := m._uniforms uniform_handle.toNat
      let alignment := (uniform_type_to_alignment uni.uniform_type).align
      let size := (uniform_type_to_alignment uni.uniform_type).size
      let raw1 := pad alignment alignment m._raw_uniforms
      let raw2 := raw1 ++ (List.range uni.size.toNat).map fun i => (uni.raw.getD []).getD i 0
      let raw3 := raw2 ++ List.replicate (size * uni.num - (uni.size % 2 ^ 32).toNat) 0
      { m with _raw_uniforms := raw3 }

/-- The members that `render_context_metal` adds, as its constructor leaves them,
around the inherited tables `c`: no command buffer and no encoder, the semaphore
created with the value 1, no byte packed, blending off, both caches zeroed, the
descriptor with its default member initialisers (0 stands for the indeterminate
`frame_buffer_channel`).  `one` and `add` are the enumerators
`blending_type::one` and `blending_equation_type::add`. -/
def construct (c : render_context) (one add : Int) : render_context_metal :=
  { torender_context := c
    mp_command_buffer := false
    mp_render_command_encoder := false
    mp_compute_command_encoder := false
    _semaphore := 1
    _raw_uniforms := []
    m_current_renderpass_descriptor :=
      { frame_buffer_handle := -1
        frame_buffer_channel := 0
        frame_buffer_flags := TEX_WRAP_REPEAT.lor TEX_FILTER_LINEAR
        w := -1
        h := -1
        clear_flags := CLEAR_COLOR.lor CLEAR_DEPTH
        clear_color := 0xff000000
        depth_texture_handle := -1
        compute_shader := false }
    _enable_blending := false
    _blending_source := one
    _blending_destination := one
    _blending_func := add
    m_pipeline_state_cache := fun _ => ⟨none, 0, 0, 0, 0⟩
    m_compute_pipeline_state_cache := fun _ => ⟨none, 0⟩ }

/-- A command-buffer context for examples: the tables of `c`, with program slot 0
linked to vertex shader 0 and fragment shader 1, and the packed blob `raw`. -/
def with_linked_program (c : render_context) (raw : List Nat) : render_context_metal :=
  { construct { c with _shader_programs := Function.update c._shader_programs 0 ⟨0, 1, -1, 1⟩ }
      1 0 with
    _raw_uniforms := raw }

/-- The method `render_context_metal::add_render_buffer`. -/
def add_render_buffer (c : render_context) : Int × render_context := (-1, c)

/-- The method `render_context_metal::remove_render_buffer`, whose body is empty. -/
def remove_render_buffer (c : render_context) (_handle : Int) : render_context := c

/-- The method `render_context_metal::add_frame_buffer`.  The slot is written
before the two handle checks, so a failed call leaves what it wrote. -/
def add_frame_buffer (TEX_TARGET_2D : Int) (c : render_context) (w h : Int)
    (make_depth_texture : Bool) : Int × render_context :=
  match scan (fun i => decide ((c._frame_buffers i).texture_handle < 0)) MAX_FRAMEBUFFER 0 with
  | none => (-1, c)
  | some i =>
    let t := add_texture TEX_TARGET_2D c w h texture_format_bgra8
      (TEX_USAGE_RENDER_TARGET.lor TEX_USAGE_READ)
    let fb1 := { c._frame_buffers i with w := w, h := h, texture_handle := t.1 }
    let r : render_context × frame_buffer :=
      if make_depth_texture then
        let d := add_texture TEX_TARGET_2D t.2 w h texture_format_depth TEX_USAGE_RENDER_TARGET
        (d.2, { fb1 with depth_texture_handle := d.1 })
      else
        let rb := add_render_buffer t.2
        (rb.2, { fb1 with render_buffer_handle := rb.1 })
    let c2 := { r.1 with _frame_buffers := Function.update r.1._frame_buffers i r.2 }
    if r.2.texture_handle < 0 then (-1, c2)
    else if make_depth_texture = true ∧ r.2.depth_texture_handle < 0 then (-1, c2)
    else (i, c2)

/-- The method `render_context_metal::remove_frame_buffer`. -/
def remove_frame_buffer (c : render_context) (handle : Int) : render_context :=
  if handle < 0 ∨ handle ≥ MAX_FRAMEBUFFER then c
  else
    let fb := c._frame_buffers handle.toNat
    if fb.texture_handle < 0 then c
    else
      let c1 := remove_texture c fb.texture_handle
      let c2 := remove_render_buffer c1 fb.render_buffer_handle
      { c2 with
        _frame_buffers := Function.update c2._frame_buffers handle.toNat
          { fb with texture_handle := -1, render_buffer_handle := -1 } }

/-- The method `render_context_metal::add_shader`.  The source text and the name
reach the device library only: no field of the slot is given the name, and no
slot is compared with it. -/
def add_shader (c : render_context) (type : Int) (_name : List Nat) : Int × render_context :=
  if type < SHADER_VERTEX ∨ type > SHADER_COMPUTE then (-1, c)
  else
    match scan (fun i => (c._shaders i).type == 0) MAX_SHADER 0 with
    | none => (-1, c)
    | some i =>
      (i, { c with
            _shaders := Function.update c._shaders i
              { c._shaders i with type := type, compiled := 1 } })

/-- A run of `add_shader` calls, one per entry (its type), each with a null
source and the name "s": the context after the last call. -/
def add_shaders (c : render_context) : List Int → render_context
  | [] => c
  | type :: rest => add_shaders (add_shader c type [115]).2 rest

/-- The method `render_context_metal::remove_shader`: the slot, then the loop over
both pipeline caches. -/
def remove_shader (m : render_context_metal) (handle : Int) : render_context_metal :=
  if handle < 0 ∨ handle ≥ MAX_SHADER then m
  else
    let sh := m._shaders handle.toNat
    if sh.type = 0 then m
    else
      { m with
        _shaders := Function.update m._shaders handle.toNat { sh with type := 0, compiled := 0 }
        m_pipeline_state_cache := fun i =>
          let e := m.m_pipeline_state_cache i
          if i < MAX_PIPELINESTATE_CACHE ∧ e.p_pipeline ≠ none
              ∧ (e.fragment_shader_handle = handle ∨ e.vertex_shader_handle = handle) then
            { p_pipeline := none, vertex_shader_handle := 0, fragment_shader_handle := 0,
              color_pixel_format := 0, depth_pixel_format := 0 }
          else e
        m_compute_pipeline_state_cache := fun i =>
          let e := m.m_compute_pipeline_state_cache i
          if i < MAX_PIPELINESTATE_CACHE ∧ e.p_pipeline ≠ none
              ∧ e.compute_shader_handle = handle then
            { p_pipeline := none, compute_shader_handle := 0 }
          else e }

/-- The hash of the pipeline look-ups:
`hash = (hash ^ (uint32_t)(word)) * 16777619` for each word of the key, in 32-bit
unsigned arithmetic, from 2166136261. -/
def _get_render_pipeline_state.hash (key : List Int) : Nat :=
  key.foldl (fun hash word => (hash ^^^ (word % 2 ^ 32).toNat) * 16777619 % 2 ^ 32) 2166136261

/-- The probe loop of the pipeline look-ups: at most `n` entries are tried, from
`bucket` on, each step going to `(bucket + 1) % MAX_PIPELINESTATE_CACHE`; the
result is the first entry at which `p` holds. -/
def _get_render_pipeline_state.probe (p : Nat → Bool) : Nat → Nat → Option Nat
  | 0, _ => none
  | n + 1, bucket =>
    if p bucket then some bucket
    else _get_render_pipeline_state.probe p n ((bucket + 1) % MAX_PIPELINESTATE_CACHE)

/-- The method `render_context_metal::_get_render_pipeline_state`;
`device_pipeline` is the object `newRenderPipelineState` returns when it is
called.  On a miss the code goes through `vs` and `fs`, which are null for a
negative handle and outside the shader table for a handle of `MAX_SHADER` or
more. -/
def _get_render_pipeline_state (m : render_context_metal)
    (vertex_shader_handle fragment_shader_handle color_pixel_format depth_pixel_format : Int)
    (device_pipeline : Nat) : render_pipeline_found :=
  let bucket := _get_render_pipeline_state.hash
    [vertex_shader_handle, fragment_shader_handle, color_pixel_format, depth_pixel_format]
    % MAX_PIPELINESTATE_CACHE
  match _get_render_pipeline_state.probe
      (fun b =>
        (m.m_pipeline_state_cache b).p_pipeline == none
        || decide ((m.m_pipeline_state_cache b).vertex_shader_handle = vertex_shader_handle
          ∧ (m.m_pipeline_state_cache b).fragment_shader_handle = fragment_shader_handle
          ∧ (m.m_pipeline_state_cache b).color_pixel_format = color_pixel_format
          ∧ (m.m_pipeline_state_cache b).depth_pixel_format = depth_pixel_format))
      MAX_PIPELINESTATE_CACHE bucket with
  | none => ⟨.ok, none, m⟩
  | some b =>
    match (m.m_pipeline_state_cache b).p_pipeline with
    | some p => ⟨.ok, some p, m⟩
    | none =>
      if vertex_shader_handle < 0 ∨ vertex_shader_handle ≥ MAX_SHADER
          ∨ fragment_shader_handle < 0 ∨ fragment_shader_handle ≥ MAX_SHADER then
        ⟨.out_of_range, none, m⟩
      else
        let built : render_pipeline_state :=
          { object := device_pipeline
            blending_enabled := m._enable_blending
            blend_operation := m._blending_func
            source_blend_factor := m._blending_source
            destination_blend_factor := m._blending_destination }
        ⟨.ok, some built,
          { m with
            m_pipeline_state_cache := Function.update m.m_pipeline_state_cache b
              { p_pipeline := some built
                vertex_shader_handle := vertex_shader_handle
                fragment_shader_handle := fragment_shader_handle
                color_pixel_format := color_pixel_format
                depth_pixel_format := depth_pixel_format } }⟩

/-- The method `render_context_metal::_get_compute_pipeline_state`;
`device_pipeline` is the object `newComputePipelineState` returns when it is
called. -/
def _get_compute_pipeline_state (m : render_context_metal) (compute_shader_handle : Int)
    (device_pipeline : Nat) : compute_pipeline_found :=
  let bucket := _get_render_pipeline_state.hash [compute_shader_handle]
    % MAX_PIPELINESTATE_CACHE
  match _get_render_pipeline_state.probe
      (fun b =>
        (m.m_compute_pipeline_state_cache b).p_pipeline == none
        || decide ((m.m_compute_pipeline_state_cache b).compute_shader_handle
            = compute_shader_handle))
      MAX_PIPELINESTATE_CACHE bucket with
  | none => ⟨.ok, none, m⟩
  | some b =>
    match (m.m_compute_pipeline_state_cache b).p_pipeline with
    | some p => ⟨.ok, some p, m⟩
    | none =>
      if compute_shader_handle < 0 ∨ compute_shader_handle ≥ MAX_SHADER then
        ⟨.out_of_range, none, m⟩
      else
        ⟨.ok, some ⟨device_pipeline⟩,
          { m with
            m_compute_pipeline_state_cache := Function.update m.m_compute_pipeline_state_cache b
              { p_pipeline := some ⟨device_pipeline⟩
                compute_shader_handle := compute_shader_handle } }⟩

/-- The method `render_context_metal::add_program`.  In the branch without a
compute shader the code forms `&_shaders[vertex_shader_handle]` and
`&_shaders[fragment_shader_handle]` whatever their sign. -/
def add_program (c : render_context)
    (vertex_shader_handle fragment_shader_handle compute_shader_handle : Int) :
    program_added :=
  if (vertex_shader_handle < 0 ∨ fragment_shader_handle < 0) ∧ compute_shader_handle < -1 then
    ⟨.ok, -1, c⟩
  else if vertex_shader_handle ≥ MAX_SHADER ∨ fragment_shader_handle ≥ MAX_SHADER
      ∨ compute_shader_handle ≥ MAX_SHADER then ⟨.ok, -1, c⟩
  else
    match scan
        (fun i =>
          decide ((c._shader_programs i).vertex_shader_handle < 0
            ∧ (c._shader_programs i).fragment_shader_handle < 0
            ∧ (c._shader_programs i).compute_shader_handle < 0))
        MAX_SHADER_PROGRAM 0 with
    | none => ⟨.ok, -1, c⟩
    | some i =>
      let sh1 := { c._shader_programs i with
        vertex_shader_handle := vertex_shader_handle
        fragment_shader_handle := fragment_shader_handle
        compute_shader_handle := compute_shader_handle }
      let store (p : shader_program) : render_context :=
        { c with _shader_programs := Function.update c._shader_programs i p }
      if compute_shader_handle ≥ 0 then
        if (c._shaders compute_shader_handle.toNat).compiled ≠ 0 then
          ⟨.ok, i, store { sh1 with linked := 1 }⟩
        else ⟨.ok, i, store sh1⟩
      else if vertex_shader_handle < 0 ∨ fragment_shader_handle < 0 then
        ⟨.out_of_range, i, store sh1⟩
      else if (c._shaders vertex_shader_handle.toNat).compiled ≠ 0
          ∧ (c._shaders fragment_shader_handle.toNat).compiled ≠ 0 then
        ⟨.ok, i, store { sh1 with linked := 1 }⟩
      else ⟨.ok, i, store sh1⟩

/-- The method `render_context_metal::remove_program`. -/
def remove_program (c : render_context) (handle : Int) : render_context :=
  if handle < 0 ∨ handle ≥ MAX_SHADER_PROGRAM then c
  else
    let sh := c._shader_programs handle.toNat
    if sh.linked = 0 then c
    else
      { c with
        _shader_programs := Function.update c._shader_programs handle.toNat
          { sh with vertex_shader_handle := -1, fragment_shader_handle := -1 } }

/-- The method `render_context_metal::bind_program`; `device_pipeline` is the
object the device returns if a pipeline is built.  `get_frame_buffer` returns
`nullptr` for a handle of `MAX_FRAMEBUFFER` or more, and the code goes through
the pointer it returns. -/
def bind_program (m : render_context_metal) (handle : Int) (device_pipeline : Nat) :
    program_bound :=
  if handle < 0 ∨ handle ≥ MAX_SHADER_PROGRAM then ⟨.ok, none, none, m⟩
  else
    let sh := m._shader_programs handle.toNat
    if sh.linked = 0 then ⟨.ok, none, none, m⟩
    else
      let descr := m.m_current_renderpass_descriptor
      let color_pixel_format := texture_format_bgra8
      let depth : Option Int :=
        if descr.frame_buffer_handle ≥ 0 then
          if descr.frame_buffer_handle ≥ MAX_FRAMEBUFFER then none
          else if (m._frame_buffers descr.frame_buffer_handle.toNat).depth_texture_handle ≥ 0 then
            some texture_format_depth
          else some texture_format_none
        else if descr.depth_texture_handle ≥ 0 then some texture_format_depth
        else some texture_format_none
      match depth with
      | none => ⟨.out_of_range, none, none, m⟩
      | some depth_pixel_format =>
        if sh.compute_shader_handle ≥ 0 then
          let r := _get_compute_pipeline_state m sh.compute_shader_handle device_pipeline
          ⟨r.status, none, r.pipeline, r.context⟩
        else
          let r := _get_render_pipeline_state m sh.vertex_shader_handle
            sh.fragment_shader_handle color_pixel_format depth_pixel_format device_pipeline
          ⟨r.status, r.pipeline, none, r.context⟩

/-- The method `render_context_metal::add_buffer_object`; the data and the buffer
type only reach the device. -/
def add_buffer_object (c : render_context) (size : Int) : Int × render_context :=
  if size ≤ 0 then (-1, c)
  else
    match scan (fun i => (c._buffer_objects i).size == 0) MAX_BUFFER_OBJECT 0 with
    | some i =>
      (i, { c with
            _buffer_objects := Function.update c._buffer_objects i
              { c._buffer_objects i with size := size, type := COMPUTE_BUFFER } })
    | none => (-1, c)

/-- The method `render_context_metal::copy_buffer_object_data`, seen through the
blit it encodes (`none` is a return before it); it reads `metal_buffer` of the
two slots only, and forms `&_buffer_objects[destination_handle]` with no test on
`destination_handle`. -/
def copy_buffer_object_data (source_handle destination_handle : Int)
    (read_offset write_offset size : Nat) : outcome × Option buffer_copy :=
  if source_handle < 0 ∨ source_handle ≥ MAX_BUFFER_OBJECT then (.ok, none)
  else if (read_offset : Int) < 0 ∨ read_offset ≥ MAX_BUFFER_OBJECT then (.ok, none)
  else if destination_handle < 0 ∨ destination_handle ≥ MAX_BUFFER_OBJECT then
    (.out_of_range, none)
  else
    (.ok, some ⟨source_handle.toNat, destination_handle.toNat, read_offset, write_offset, size⟩)

/-- The method `render_context_metal::get_frame_buffer`: `none` is `nullptr`. -/
def get_frame_buffer (c : render_context) (handle : Int) : Option frame_buffer :=
  if handle < 0 ∨ handle ≥ MAX_FRAMEBUFFER then none else some (c._frame_buffers handle.toNat)

/-- The method `render_context_metal::renderpass_begin`.  The encoder the command
buffer hands out is non-null when there is a command buffer.  The code goes
through the pointers `get_frame_buffer` and `get_texture` return without testing
them; `_raw_uniforms.clear()` is its last statement. -/
def renderpass_begin (m : render_context_metal) (descr : renderpass_descriptor) :
    outcome × render_context_metal :=
  let m1 := { m with m_current_renderpass_descriptor := descr }
  if descr.compute_shader then
    (.ok, { m1 with mp_compute_command_encoder := m.mp_command_buffer, _raw_uniforms := [] })
  else
    let attached : Bool :=
      if descr.frame_buffer_handle ≥ 0 then
        match get_frame_buffer m.torender_context descr.frame_buffer_handle with
        | none => false
        | some fb =>
          (get_texture m.torender_context fb.texture_handle).isSome
          && (decide (fb.depth_texture_handle < 0)
            || (get_texture m.torender_context fb.depth_texture_handle).isSome)
      else
        decide (descr.depth_texture_handle < 0)
        || (get_texture m.torender_context descr.depth_texture_handle).isSome
    if attached then
      (.ok, { m1 with mp_render_command_encoder := m.mp_command_buffer, _raw_uniforms := [] })
    else (.out_of_range, m1)

/-- The pointers that `renderpass_begin` goes through for `descr` are non-null:
the pass is a compute pass, or it renders to the screen with no depth texture or
with one whose handle is below `MAX_TEXTURE`, or it renders to a frame buffer
whose handle is below `MAX_FRAMEBUFFER`, whose colour texture handle is in
`[0, MAX_TEXTURE)` and whose depth texture handle is negative or below
`MAX_TEXTURE`. -/
def renderpass_targets_exist (m : render_context_metal) (descr : renderpass_descriptor) :
    Prop :=
  descr.compute_shader = true ∨
  (descr.frame_buffer_handle < 0 ∧ descr.depth_texture_handle < MAX_TEXTURE) ∨
  (0 ≤ descr.frame_buffer_handle ∧ descr.frame_buffer_handle < MAX_FRAMEBUFFER ∧
    0 ≤ (m._frame_buffers descr.frame_buffer_handle.toNat).texture_handle ∧
    (m._frame_buffers descr.frame_buffer_handle.toNat).texture_handle < MAX_TEXTURE ∧
    (m._frame_buffers descr.frame_buffer_handle.toNat).depth_texture_handle < MAX_TEXTURE)

/-- The method `render_context_metal::renderpass_end`. -/
def renderpass_end (m : render_context_metal) : render_context_metal :=
  { m with mp_render_command_encoder := false, mp_compute_command_encoder := false }

/-- What `render_context_metal::geometry_draw` leaves behind: the context, the
bytes it hands to `setVertexBytes` and `setFragmentBytes` (`none` when it returns
before), and the index count and instance count of the draw it encodes (`none`
when it encodes none). -/
structure drawn where
  context : render_context_metal
  uniform_bytes : Option (List Nat)
  draw : Option (Int × Int)

/-- The method `render_context_metal::geometry_draw`.  The padding loop
`while (_raw_uniforms.size() % 16) _raw_uniforms.push_back(0);` gets 16
iterations, which it never uses up (`pad_aligned`). -/
def geometry_draw (m : render_context_metal) (handle instance_count : Int) : drawn :=
  if ¬ m.mp_render_command_encoder then ⟨m, none, none⟩
  else if handle < 0 ∨ handle ≥ MAX_GEOMETRY then ⟨m, none, none⟩
  else
    let gh := m._geometry_handles handle.toNat
    if gh.mode = 0 then ⟨m, none, none⟩
    else
      let raw := pad 16 16 m._raw_uniforms
      ⟨{ m with _raw_uniforms := raw }, some raw,
        if gh.index.buffer ≥ 0 ∧ gh.index.buffer < MAX_BUFFER_OBJECT then
          some (gh.index.count, instance_count)
        else none⟩

/-- The method `render_context_metal::dispatch_compute`; the group counts and
sizes only reach the encoder. -/
def dispatch_compute (m : render_context_metal) : render_context_metal :=
  if m.mp_compute_command_encoder then { m with _raw_uniforms := pad 16 16 m._raw_uniforms }
  else m

/-- The method `render_context_metal::set_blending_enabled`. -/
def set_blending_enabled (m : render_context_metal) (enable : Bool) : render_context_metal :=
  { m with _enable_blending := enable }

/-- The method `render_context_metal::set_blending_function`. -/
def set_blending_function (m : render_context_metal) (source destination : Int) :
    render_context_metal :=
  { m with _blending_source := source, _blending_destination := destination }

/-- The method `render_context_metal::set_blending_equation`. -/
def set_blending_equation (m : render_context_metal) (func : Int) : render_context_metal :=
  { m with _blending_func := func }

/-- A run of `bind_uniform` calls, one per entry `(program, uniform)`. -/
def bind_uniforms (m : render_context_metal) : List (Int × Int) → render_context_metal
  | [] => m
  | call :: rest => bind_uniforms (bind_uniform m call.1 call.2) rest

end render_context_metal

/-! ## Frame pacing

`frame_begin` of the command-buffer backend waits on a dispatch semaphore; the
signal comes from the completed-handler that `frame_begin` attaches to the
command buffer of the frame, which the device calls once, after the command
buffer has been committed and has run.  The command buffers that are committed
and whose handler has not run yet are state of the device, not of the class. -/

/-- A command-buffer context together with the number of committed command
buffers whose completed-handler has not run yet. -/
structure metal_frames where
  context : render_context_metal
  in_flight : Nat

/-- The calls and events of frame pacing: the two methods, and the device calling
the completed-handler of a command buffer in flight. -/
inductive frame_call where
  | frame_begin
  | frame_end (wait_until_completed : Bool)
  | completed
  deriving DecidableEq, Repr

namespace render_context_metal

/-- The method `render_context_metal::frame_begin`: `none` when the semaphore is
0, as `dispatch_semaphore_wait(_semaphore, DISPATCH_TIME_FOREVER)` then does not
return; otherwise the semaphore goes down by one and there is a new command
buffer, with the handler attached. -/
def frame_begin (m : render_context_metal) : Option render_context_metal :=
  if m._semaphore = 0 then none
  else some { m with _semaphore := m._semaphore - 1, mp_command_buffer := true }

/-- The method `render_context_metal::frame_end`: the command buffer, if there is
one, is committed and the pointer is reset.  With `wait_until_completed` the
call returns later; what it leaves behind is the same. -/
def frame_end (s : metal_frames) (_wait_until_completed : Bool) : metal_frames :=
  { context := { s.context with mp_command_buffer := false }
    in_flight := if s.context.mp_command_buffer then s.in_flight + 1 else s.in_flight }

/-- The completed-handler `dispatch_semaphore_signal(_semaphore)` of a command
buffer in flight, called by the device. -/
def completed_handler (s : metal_frames) : metal_frames :=
  if s.in_flight = 0 then s
  else
    { context := { s.context with _semaphore := s.context._semaphore + 1 }
      in_flight := s.in_flight - 1 }

/-- One call or event; `none` when the call does not return. -/
def frame_step (s : metal_frames) : frame_call → Option metal_frames
  | .frame_begin => (frame_begin s.context).map fun m => { s with context := m }
  | .frame_end w => some (frame_end s w)
  | .completed => some (completed_handler s)

/-- A sequence of calls and events, each of which returns. -/
def frame_run (s : metal_frames) : List frame_call → Option metal_frames
  | [] => some s
  | call :: rest =>
    match frame_step s call with
    | none => none
    | some s1 => frame_run s1 rest

/-- The number of frames that are begun and whose command buffer has not
completed: the frame being recorded, and the command buffers in flight. -/
def outstanding (s : metal_frames) : Nat :=
  (if s.context.mp_command_buffer then 1 else 0) + s.in_flight

end render_context_metal

namespace render_context_gl

/-- One call of the direct-state backend (`completed` is no event of this
backend and changes nothing); `none` when the call does not return. -/
def frame_step (g : render_context_gl) : frame_call → Option render_context_gl
  | .frame_begin => frame_begin g
  | .frame_end _ => some (frame_end g)
  | .completed => some g

/-- A sequence of calls, each of which returns. -/
def frame_run (g : render_context_gl) : List frame_call → Option render_context_gl
  | [] => some g
  | call :: rest =>
    match frame_step g call with
    | none => none
    | some g1 => frame_run g1 rest

end render_context_gl

/-! ## float.h, float.cpp, render_engine.cpp

The matrix code in exact arithmetic: a `float` is a rational number.  float.cpp
has each function twice, with and without `RENDERDOOS_SIMD`; the two agree entry
for entry and differ in the order of the additions only, which exact arithmetic
does not see.  The definitions follow the ones without SIMD. -/

/-- The record `float4`: the four entries `f[0]`, ..., `f[3]`. -/
structure float4 where
  f0 : ℚ
  f1 : ℚ
  f2 : ℚ
  f3 : ℚ
  deriving DecidableEq, Repr

/-- The record `float4x4`: the four columns; `f[4 * j + i]` is entry `i` of
`col[j]`. -/
structure float4x4 where
  col0 : float4
  col1 : float4
  col2 : float4
  col3 : float4
  deriving DecidableEq, Repr

namespace float4

/-- The constructor `float4(float f)`. -/
def splat (f : ℚ) : float4 := ⟨f, f, f, f⟩

/-- The unary `operator -`. -/
def neg (a : float4) : float4 := ⟨-a.f0, -a.f1, -a.f2, -a.f3⟩

/-- The binary `operator +`. -/
def add (left right : float4) : float4 :=
  ⟨left.f0 + right.f0, left.f1 + right.f1, left.f2 + right.f2, left.f3 + right.f3⟩

/-- The `operator *` of two `float4`. -/
def mul (left right : float4) : float4 :=
  ⟨left.f0 * right.f0, left.f1 * right.f1, left.f2 * right.f2, left.f3 * right.f3⟩

/-- The `operator *` of a `float4` and a `float`: `left * float4(right)`. -/
def scale (left : float4) (right : ℚ) : float4 := mul left (splat right)

end float4

/-- The function `unpacklo`. -/
def unpacklo (left right : float4) : float4 := ⟨left.f0, right.f0, left.f1, right.f1⟩

/-- The function `unpackhi`. -/
def unpackhi (left right : float4) : float4 := ⟨left.f2, right.f2, left.f3, right.f3⟩

/-- The function `transpose` on four columns; the result is written to the four
reference parameters `r0`, ..., `r3`, here the columns of the result. -/
def transpose (c0 c1 c2 c3 : float4) : float4x4 :=
  let l02 := unpacklo c0 c2
  let h02 := unpackhi c0 c2
  let l13 := unpacklo c1 c3
  let h13 := unpackhi c1 c3
  ⟨unpacklo l02 l13, unpackhi l02 l13, unpacklo h02 h13, unpackhi h02 h13⟩

/-- The function `dot4`. -/
def dot4 (left right : float4) : ℚ :=
  left.f0 * right.f0 + left.f1 * right.f1 + left.f2 * right.f2 + left.f3 * right.f3

/-- The function `get_identity`. -/
def get_identity : float4x4 := ⟨⟨1, 0, 0, 0⟩, ⟨0, 1, 0, 0⟩, ⟨0, 0, 1, 0⟩, ⟨0, 0, 0, 1⟩⟩

/-- The function `invert_orthonormal`; `m[12]`, `m[13]`, `m[14]` are the first
three entries of the last column and `out.f[15]` is the last entry of the last
column. -/
def invert_orthonormal (m : float4x4) : float4x4 :=
  let out := transpose m.col0 m.col1 m.col2 ⟨0, 0, 0, 1⟩
  let col3 := float4.neg
    (float4.add (float4.add (float4.scale out.col0 m.col3.f0) (float4.scale out.col1 m.col3.f1))
      (float4.scale out.col2 m.col3.f2))
  { out with col3 := { col3 with f3 := 1 } }

/-- The function `matrix_matrix_multiply`. -/
def matrix_matrix_multiply (left right : float4x4) : float4x4 :=
  let r := transpose left.col0 left.col1 left.col2 left.col3
  ⟨⟨dot4 r.col0 right.col0, dot4 r.col1 right.col0, dot4 r.col2 right.col0,
      dot4 r.col3 right.col0⟩,
    ⟨dot4 r.col0 right.col1, dot4 r.col1 right.col1, dot4 r.col2 right.col1,
      dot4 r.col3 right.col1⟩,
    ⟨dot4 r.col0 right.col2, dot4 r.col1 right.col2, dot4 r.col2 right.col2,
      dot4 r.col3 right.col2⟩,
    ⟨dot4 r.col0 right.col3, dot4 r.col1 right.col3, dot4 r.col2 right.col3,
      dot4 r.col3 right.col3⟩⟩

/-- The function `frustum`. -/
def frustum (left right bottom top near_plane far_plane : ℚ) : float4x4 :=
  ⟨⟨2 * near_plane / (right - left), 0, 0, 0⟩,
    ⟨0, -2 * near_plane / (top - bottom), 0, 0⟩,
    ⟨(right + left) / (right - left), -(top + bottom) / (top - bottom),
      -(far_plane + near_plane) / (far_plane - near_plane), -1⟩,
    ⟨0, 0, -(2 * far_plane * near_plane) / (far_plane - near_plane), 0⟩⟩

/-- The function `orthographic`. -/
def orthographic (left right bottom top near_plane far_plane : ℚ) : float4x4 :=
  ⟨⟨2 / (right - left), 0, 0, -(right + left) / (right - left)⟩,
    ⟨0, 2 / (top - bottom), 0, -(top + bottom) / (top - bottom)⟩,
    ⟨0, 0, -2 / (far_plane - near_plane), -(far_plane + near_plane) / (far_plane - near_plane)⟩,
    ⟨0, 0, 0, 1⟩⟩

/-- The record `model_view_properties` (render_context.h). -/
structure model_view_properties where
  model_space : float4x4
  camera_space : float4x4
  zoom_x : ℚ
  zoom_y : ℚ
  center_x : ℚ
  center_y : ℚ
  near_clip : ℚ
  far_clip : ℚ
  light_pos : float4
  light_dir : float4
  light_color : Nat
  orthogonal : Int
  viewport_width : Nat
  viewport_height : Nat
  deriving DecidableEq, Repr

namespace model_view_properties

/-- The method `model_view_properties::init`, after the `memset` to zero. -/
def init (vp_width vp_height : Nat) : model_view_properties :=
  { model_space := get_identity
    camera_space := get_identity
    zoom_x := 1
    zoom_y := 1
    center_x := 0
    center_y := 0
    near_clip := 1 / 8
    far_clip := 4096
    light_pos := ⟨0, 0, 0, 0⟩
    light_dir := ⟨0, 0, 0, 0⟩
    light_color := 0
    orthogonal := 0
    viewport_width := vp_width
    viewport_height := vp_height }

/-- The method `model_view_properties::make_projection_matrix`; the result is
written to the reference parameter.  The calls pass `top` for the parameter
`bottom` and `bottom` for the parameter `top`. -/
def make_projection_matrix (p : model_view_properties) : float4x4 :=
  let top := p.zoom_y * p.near_clip
  let right := p.zoom_x * p.near_clip
  let bottom := -top
  let left := -right
  if p.orthogonal ≠ 0 then orthographic left right top bottom p.near_clip p.far_clip
  else frustum left right top bottom p.near_clip p.far_clip

end model_view_properties

/-- The data members of the class `render_engine` that
`set_model_view_properties` writes. -/
structure render_engine where
  _last_projection : float4x4
  _last_camera : float4x4
  _last_view_project : float4x4
  _mv_props : model_view_properties
  deriving DecidableEq, Repr

/-- The method `render_engine::set_model_view_properties`; it reads no member. -/
def render_engine.set_model_view_properties (props : model_view_properties) : render_engine :=
  let projection := props.make_projection_matrix
  let camera := invert_orthonormal props.camera_space
  { _mv_props := props
    _last_projection := projection
    _last_camera := camera
    _last_view_project := matrix_matrix_multiply projection camera }

/-- The entries `f[3]`, `f[7]`, `f[11]`, `f[15]` of a matrix: its last row. -/
def float4x4.last_row (m : float4x4) : float4 := ⟨m.col0.f3, m.col1.f3, m.col2.f3, m.col3.f3⟩

/-! ## Facts about the table loops -/

theorem scan_some {p : Nat → Bool} {n i k : Nat} (h : scan p n i = some k) :
    i ≤ k ∧ k < i + n ∧ p k = true ∧ ∀ j, i ≤ j → j < k → p j = false := by
  induction n generalizing i with
  | zero => simp [scan] at h
  | succ n ih =>
    unfold scan at h
    by_cases hp : p i = true
    · simp only [hp, if_true, Option.some.injEq] at h
      subst h
      exact ⟨le_refl _, by omega, hp, fun j h1 h2 => absurd h2 (by omega)⟩
    · simp only [hp, Bool.false_eq_true, if_false] at h
      obtain ⟨h1, h2, h3, h4⟩ := ih h
      refine ⟨by omega, by omega, h3, fun j hj1 hj2 => ?_⟩
      by_cases hji : j = i
      · subst hji; simpa using hp
      · exact h4 j (by omega) hj2

theorem scan_none {p : Nat → Bool} {n i : Nat} :
    scan p n i = none ↔ ∀ j, i ≤ j → j < i + n → p j = false := by
  induction n generalizing i with
  | zero => simp [scan]; intro j h1 h2; omega
  | succ n ih =>
    unfold scan
    by_cases hp : p i = true
    · simp only [hp, if_true]
      constructor
      · intro h; cases h
      · intro h; have := h i (le_refl _) (by omega); simp [hp] at this
    · simp only [hp, Bool.false_eq_true, if_false]
      rw [ih]
      constructor
      · intro h j h1 h2
        by_cases hji : j = i
        · subst hji; simpa using hp
        · exact h j (by omega) (by omega)
      · intro h j h1 h2
        exact h j (by omega) (by omega)

theorem scan_first {p : Nat → Bool} {n i k : Nat} (h1 : i ≤ k) (h2 : k < i + n)
    (hk : p k = true) (hmin : ∀ j, i ≤ j → j < k → p j = false) : scan p n i = some k := by
  cases h : scan p n i with
  | none => rw [scan_none] at h; rw [h k h1 h2] at hk; cases hk
  | some k2 =>
    obtain ⟨a1, a2, a3, a4⟩ := scan_some h
    rcases Nat.lt_trichotomy k2 k with hlt | heq | hgt
    · rw [hmin k2 a1 hlt] at a3; cases a3
    · rw [heq]
    · rw [a4 k h1 hgt] at hk; cases hk

theorem scan_exists {p : Nat → Bool} {n i : Nat} (h : ∃ j, i ≤ j ∧ j < i + n ∧ p j = true) :
    ∃ k, scan p n i = some k := by
  cases hs : scan p n i with
  | none =>
    obtain ⟨j, h1, h2, h3⟩ := h
    rw [scan_none] at hs
    rw [hs j h1 h2] at h3; cases h3
  | some k => exact ⟨k, rfl⟩

/-! ## Textures -/

theorem gl_add_texture_at (c : render_context) (w h format usage_flags : Int) (k : Nat)
    (hk : scan (fun i => (c._textures i).flags == 0) MAX_TEXTURE 0 = some k) :
    render_context_gl.add_texture c w h format usage_flags =
      ((k : Int), { c with
        _textures := Function.update c._textures k
          { c._textures k with
            w := w, h := h, format := format, flags := TEX_ALLOCATED,
            usage_flags := usage_flags } }) := by
  simp only [render_context_gl.add_texture, render_context_gl._add_texture, hk]

theorem gl_add_texture_first (c : render_context) (i : Nat)
    (hi : i < MAX_TEXTURE) (hf : (c._textures i).flags = 0)
    (hmin : ∀ j, j < i → (c._textures j).flags ≠ 0) :
    scan (fun i => (c._textures i).flags == 0) MAX_TEXTURE 0 = some i :=
  scan_first (Nat.zero_le _) (by omega) (by simp [hf]) (fun j _ hj => by simpa using hmin j hj)

theorem gl_add_texture_full (c : render_context) (w h format usage_flags : Int) :
    (render_context_gl.add_texture c w h format usage_flags).1 = -1 ↔
      ∀ i, i < MAX_TEXTURE → (c._textures i).flags ≠ 0 := by
  cases hs : scan (fun i => (c._textures i).flags == 0) MAX_TEXTURE 0 with
  | none =>
    have h1 : (render_context_gl.add_texture c w h format usage_flags).1 = -1 := by
      simp only [render_context_gl.add_texture, render_context_gl._add_texture, hs]
    rw [scan_none] at hs
    refine ⟨fun _ i hi => ?_, fun _ => h1⟩
    have := hs i (Nat.zero_le _) (by omega)
    simpa using this
  | some k =>
    rw [gl_add_texture_at c w h format usage_flags k hs]
    obtain ⟨_, h2, h3, _⟩ := scan_some hs
    constructor
    · intro h; simp only at h; omega
    · intro h
      exact absurd (by simpa using h3) (h k (by omega))

theorem gl_add_textures_run (calls : List (Int × Int × Int × Int)) :
    ∀ (c : render_context) (n : Nat), n + calls.length ≤ MAX_TEXTURE →
      (∀ i, i < n → (c._textures i).flags ≠ 0) →
      (∀ i, n ≤ i → i < MAX_TEXTURE → (c._textures i).flags = 0) →
      (render_context_gl.add_textures c calls).1 =
          (List.range' n calls.length).map Int.ofNat ∧
        (∀ i, i < n + calls.length →
          ((render_context_gl.add_textures c calls).2._textures i).flags ≠ 0) ∧
        (∀ i, n + calls.length ≤ i → i < MAX_TEXTURE →
          ((render_context_gl.add_textures c calls).2._textures i).flags = 0) := by
  induction calls with
  | nil =>
    intro c n _ h1 h2
    exact ⟨rfl, fun i hi => h1 i (by simpa using hi), fun i hi hlt => h2 i (by simpa using hi) hlt⟩
  | cons a rest ih =>
    intro c n hn h1 h2
    simp only [List.length_cons] at hn
    have hscan := gl_add_texture_first c n (by omega)
      (h2 n (le_refl _) (by omega)) h1
    have hadd := gl_add_texture_at c a.1 a.2.1 a.2.2.1 a.2.2.2 n hscan
    simp only [render_context_gl.add_textures, hadd, List.length_cons, List.range'_succ,
      List.map_cons]
    obtain ⟨r1, r2, r3⟩ := ih
      { c with
        _textures := Function.update c._textures n
          { c._textures n with
            w := a.1, h := a.2.1, format := a.2.2.1, flags := TEX_ALLOCATED,
            usage_flags := a.2.2.2 } }
      (n + 1) (by omega)
      (fun i hi => by
        by_cases e : i = n
        · subst e; simp [TEX_ALLOCATED]
        · simp only [Function.update_noteq e]; exact h1 i (by omega))
      (fun i hi hlt => by
        have e : i ≠ n := by omega
        simp only [Function.update_noteq e]; exact h2 i (by omega) hlt)
    refine ⟨?_, fun i hi => r2 i (by omega), fun i hi hlt => r3 i (by omega) hlt⟩
    rw [r1]; rfl

/-- C2: `add_texture` returns the smallest index whose slot is free, and -1
exactly when all 1024 slots are allocated; so from an empty table 1024 calls
return the distinct handles 0, ..., 1023, the 1025th call returns -1, and after
`remove_texture(k)` the next `add_texture` returns `k`. -/
theorem add_texture_first_free (c : render_context) (w h format usage_flags : Int) :
    (∀ i, i < MAX_TEXTURE → (c._textures i).flags = 0 →
        (∀ j, j < i → (c._textures j).flags ≠ 0) →
        (render_context_gl.add_texture c w h format usage_flags).1 = (i : Int)) ∧
    ((render_context_gl.add_texture c w h format usage_flags).1 = -1 ↔
        ∀ i, i < MAX_TEXTURE → (c._textures i).flags ≠ 0) ∧
    (∀ calls : List (Int × Int × Int × Int),
        (∀ i, i < MAX_TEXTURE → (c._textures i).flags = 0) → calls.length = 1024 →
        (render_context_gl.add_textures c calls).1 = (List.range 1024).map Int.ofNat ∧
        (render_context_gl.add_textures c calls).1.Nodup ∧
        (render_context_gl.add_texture (render_context_gl.add_textures c calls).2
            w h format usage_flags).1 = -1 ∧
        ∀ k : Int, 0 ≤ k → k < 1024 →
          (render_context_gl.add_texture
            (render_context_gl.remove_texture (render_context_gl.add_textures c calls).2 k)
            w h format usage_flags).1 = k) := by
  refine ⟨fun i hi hf hmin => ?_, gl_add_texture_full c w h format usage_flags,
    fun calls hempty hlen => ?_⟩
  · rw [gl_add_texture_at c w h format usage_flags i
      (gl_add_texture_first c i hi hf hmin)]
  · obtain ⟨r1, r2, -⟩ := gl_add_textures_run calls c 0 (by simp [hlen, MAX_TEXTURE])
      (fun i hi => absurd hi (Nat.not_lt_zero _)) (fun i _ hlt => hempty i hlt)
    rw [hlen] at r1 r2
    have hlist : (render_context_gl.add_textures c calls).1 =
        (List.range 1024).map Int.ofNat := by rw [r1, List.range_eq_range']
    refine ⟨hlist, ?_, ?_, fun k hk0 hk1 => ?_⟩
    · rw [hlist]
      exact (List.nodup_range 1024).map (fun a b e => Int.ofNat.inj e)
    · rw [gl_add_texture_full]
      intro i hi
      exact r2 i (by simp only [MAX_TEXTURE] at hi; omega)
    · obtain ⟨n, rfl⟩ := Int.eq_ofNat_of_zero_le hk0
      have hn : n < MAX_TEXTURE := by simp only [MAX_TEXTURE]; omega
      have hrange : ¬ ((n : Int) < 0 ∨ (n : Int) ≥ (MAX_TEXTURE : Nat)) := by
        simp only [MAX_TEXTURE]; omega
      have hflag := r2 n (by omega)
      have hrem : render_context_gl.remove_texture (render_context_gl.add_textures c calls).2 n
          = { (render_context_gl.add_textures c calls).2 with
              _textures := Function.update (render_context_gl.add_textures c calls).2._textures n
                { (render_context_gl.add_textures c calls).2._textures n with flags := 0 } } := by
        simp only [render_context_gl.remove_texture, hrange, if_false, Int.toNat_ofNat, hflag]
      rw [hrem]
      rw [gl_add_texture_at _ w h format usage_flags n
        (gl_add_texture_first _ n hn (by simp) (fun j hj => by
          have e : j ≠ n := by omega
          simp only [Function.update_noteq e]
          exact r2 j (by omega)))]

theorem add_texture_first_free_witness :
    (render_context_gl.add_texture render_context.blank.init 640 480 1 1).1 = ((0 : Nat) : Int) ∧
    ((render_context_gl.add_textures render_context.blank.init
        (List.replicate 1024 (640, 480, 1, 1))).1 = (List.range 1024).map Int.ofNat ∧
      (render_context_gl.add_textures render_context.blank.init
        (List.replicate 1024 (640, 480, 1, 1))).1.Nodup ∧
      (render_context_gl.add_texture (render_context_gl.add_textures render_context.blank.init
        (List.replicate 1024 (640, 480, 1, 1))).2 640 480 1 1).1 = -1 ∧
      ∀ k : Int, 0 ≤ k → k < 1024 →
        (render_context_gl.add_texture
          (render_context_gl.remove_texture
            (render_context_gl.add_textures render_context.blank.init
              (List.replicate 1024 (640, 480, 1, 1))).2 k)
          640 480 1 1).1 = k) :=
  ⟨(add_texture_first_free render_context.blank.init 640 480 1 1).1 0 (by decide) (by decide)
      (fun j hj => absurd hj (Nat.not_lt_zero j)),
    (add_texture_first_free render_context.blank.init 640 480 1 1).2.2
      (List.replicate 1024 (640, 480, 1, 1))
      (fun i hi => by simp [render_context.init, hi])
      (List.length_replicate 1024 _)⟩

/-- C3, as the code has it: for an allocated texture handle `h`, in either
backend, `get_texture(h)` after `remove_texture(h)` is not the null result: it is
the slot itself, with `flags` 0 (free) and its other fields as they were; the
null result is what an out-of-range handle gets. -/
theorem remove_texture_get_texture (c : render_context) (h k : Int)
    (h0 : 0 ≤ h) (h1 : h < 1024) (hal : (c._textures h.toNat).flags ≠ 0)
    (hk : k < 0 ∨ k ≥ 1024) :
    render_context_gl.get_texture (render_context_gl.remove_texture c h) h =
        some { c._textures h.toNat with flags := 0 } ∧
      render_context_metal.get_texture (render_context_metal.remove_texture c h) h =
        some { c._textures h.toNat with flags := 0 } ∧
      render_context_gl.get_texture (render_context_gl.remove_texture c h) k = none ∧
      render_context_metal.get_texture (render_context_metal.remove_texture c h) k = none := by
  have hr : ¬ (h < 0 ∨ h ≥ (MAX_TEXTURE : Nat)) := by simp only [MAX_TEXTURE]; omega
  have hkr : k < 0 ∨ k ≥ (MAX_TEXTURE : Nat) := by simp only [MAX_TEXTURE]; omega
  simp [render_context_gl.get_texture, render_context_gl.remove_texture,
    render_context_metal.get_texture, render_context_metal.remove_texture, hr, hkr, hal]

theorem remove_texture_get_texture_witness :
    render_context_gl.get_texture
        (render_context_gl.remove_texture
          (render_context_gl.add_texture render_context.blank.init 640 480 1 1).2 0) 0 =
        some { (render_context_gl.add_texture render_context.blank.init 640 480 1 1).2._textures
          (0 : Int).toNat with flags := 0 } ∧
      render_context_metal.get_texture
        (render_context_metal.remove_texture
          (render_context_gl.add_texture render_context.blank.init 640 480 1 1).2 0) 0 =
        some { (render_context_gl.add_texture render_context.blank.init 640 480 1 1).2._textures
          (0 : Int).toNat with flags := 0 } ∧
      render_context_gl.get_texture
        (render_context_gl.remove_texture
          (render_context_gl.add_texture render_context.blank.init 640 480 1 1).2 0) (-1) =
        none ∧
      render_context_metal.get_texture
        (render_context_metal.remove_texture
          (render_context_gl.add_texture render_context.blank.init 640 480 1 1).2 0) (-1) =
        none :=
  remove_texture_get_texture (render_context_gl.add_texture render_context.blank.init 640 480 1 1).2
    0 (-1) (by decide) (by decide) (by decide) (by decide)

/-- C3, as stated, fails: after `add_texture` (which returns handle 0) and
`remove_texture(0)`, `get_texture(0)` is a pointer to slot 0, which still holds
the width, height, format and usage flags of the removed texture; it is not the
null result that the out-of-range handle -1 gets. -/
theorem remove_texture_get_texture_not_null :
    (render_context_gl.add_texture render_context.blank.init 640 480 1 1).1 = 0 ∧
      render_context_gl.get_texture
        (render_context_gl.remove_texture
          (render_context_gl.add_texture render_context.blank.init 640 480 1 1).2 0) 0 =
        some ⟨640, 480, 0, 1, 1, 0⟩ ∧
      render_context_gl.get_texture
        (render_context_gl.remove_texture
          (render_context_gl.add_texture render_context.blank.init 640 480 1 1).2 0) (-1) =
        none ∧
      render_context_gl.get_texture
        (render_context_gl.remove_texture
          (render_context_gl.add_texture render_context.blank.init 640 480 1 1).2 0) 0 ≠
        render_context_gl.get_texture
          (render_context_gl.remove_texture
            (render_context_gl.add_texture render_context.blank.init 640 480 1 1).2 0) (-1) := by
  decide

/-! ## Uniforms -/

theorem probe_some {p : Nat → Bool} {n s b : Nat}
    (h : render_context.add_uniform.probe p n s = some b) (hs : s < MAX_UNIFORMS) :
    b < MAX_UNIFORMS ∧ p b = true := by
  induction n generalizing s with
  | zero => simp [render_context.add_uniform.probe] at h
  | succ n ih =>
    unfold render_context.add_uniform.probe at h
    by_cases hp : p s = true
    · simp only [hp, if_true, Option.some.injEq] at h
      subst h; exact ⟨hs, hp⟩
    · simp only [hp, Bool.false_eq_true, if_false] at h
      exact ih h (Nat.mod_lt _ (by decide))

theorem probe_congr_at {p q : Nat → Bool} {n s b : Nat}
    (h : render_context.add_uniform.probe p n s = some b) (hb : q b = true)
    (hq : ∀ j, j ≠ b → q j = p j) : render_context.add_uniform.probe q n s = some b := by
  induction n generalizing s with
  | zero => simp [render_context.add_uniform.probe] at h
  | succ n ih =>
    unfold render_context.add_uniform.probe at h ⊢
    by_cases e : s = b
    · subst e; simp [hb]
    · rw [hq s e]
      by_cases hp : p s = true
      · simp only [hp, if_true, Option.some.injEq] at h
        exact absurd h e
      · simp only [hp, Bool.false_eq_true, if_false] at h ⊢
        exact ih h

theorem hash_bucket_lt (name : List Nat) :
    render_context.add_uniform.hash name % MAX_UNIFORMS < MAX_UNIFORMS :=
  Nat.mod_lt _ (by decide)

theorem remove_uniform_at (c : render_context) (b : Nat) (hlt : b < MAX_UNIFORMS) :
    c.remove_uniform (b : Int) =
      if (c._uniforms b).num = 0 then c
      else
        { c with
          _uniforms := Function.update c._uniforms b
            { c._uniforms b with raw := none, size := 0, num := 0, name := none } } := by
  have hr : ¬ ((b : Int) < 0 ∨ (b : Int) ≥ (MAX_UNIFORMS : Nat)) := by
    simp only [MAX_UNIFORMS] at hlt ⊢; omega
  simp only [render_context.remove_uniform, hr, if_false, Int.toNat_ofNat]

theorem add_uniform_at (c : render_context) (name : List Nat) (ty : uniform_type) (num b : Nat)
    (hnum : 0 < num)
    (hb : render_context.add_uniform.probe
      (fun b => (c._uniforms b).num == 0 || (c._uniforms b).name == some name)
      MAX_UNIFORMS (render_context.add_uniform.hash name % MAX_UNIFORMS) = some b) :
    c.add_uniform name ty num =
      ((b : Int), { c with
        _uniforms := Function.update c._uniforms b
          { name := some name
            raw := some (new_uint8_array
              ((uniform_type_to_declaration ty).number_of_entries *
                (uniform_type_to_declaration ty).size_of_entry * num))
            size := ((uniform_type_to_declaration ty).number_of_entries *
                (uniform_type_to_declaration ty).size_of_entry * num : Nat)
            num := num
            uniform_type := ty } }) := by
  have hlt := (probe_some hb (hash_bucket_lt name)).1
  have hn : ¬ num ≤ 0 := by omega
  simp only [render_context.add_uniform, hn, if_false, hb, remove_uniform_at c b hlt]
  by_cases hu : (c._uniforms b).num = 0
  · simp [hu]
  · simp [hu]

theorem add_uniform_handle (c : render_context) (name : List Nat) (ty : uniform_type)
    (num : Nat) (h0 : 0 ≤ (c.add_uniform name ty num).1) :
    ∃ b : Nat, (c.add_uniform name ty num).1 = ((b : Nat) : Int) ∧ 0 < num ∧
      render_context.add_uniform.probe
        (fun b => (c._uniforms b).num == 0 || (c._uniforms b).name == some name)
        MAX_UNIFORMS (render_context.add_uniform.hash name % MAX_UNIFORMS) = some b := by
  by_cases hn : num ≤ 0
  · simp [render_context.add_uniform, hn] at h0
  · cases hb : render_context.add_uniform.probe
        (fun b => (c._uniforms b).num == 0 || (c._uniforms b).name == some name)
        MAX_UNIFORMS (render_context.add_uniform.hash name % MAX_UNIFORMS) with
    | none => simp [render_context.add_uniform, hn, hb] at h0
    | some b =>
      refine ⟨b, ?_, by omega, rfl⟩
      rw [add_uniform_at c name ty num b (by omega) hb]

theorem uniforms_in_use_congr (c d : render_context)
    (h : ∀ i, ((c._uniforms i).num = 0 ↔ (d._uniforms i).num = 0)) :
    c.uniforms_in_use = d.uniforms_in_use := by
  have hf : ∀ i ∈ List.range MAX_UNIFORMS,
      ((c._uniforms i).num != 0) = ((d._uniforms i).num != 0) := by
    intro i _
    by_cases e : (c._uniforms i).num = 0
    · simp [e, (h i).1 e]
    · have e2 : ¬ (d._uniforms i).num = 0 := fun e3 => e ((h i).2 e3)
      have a1 : ((c._uniforms i).num != 0) = true := by simpa using e
      have a2 : ((d._uniforms i).num != 0) = true := by simpa using e2
      rw [a1, a2]
  unfold render_context.uniforms_in_use
  rw [List.filter_congr hf]

/-- C4: when `add_uniform(name, t1, n1)` returns `h >= 0`, an immediately
following `add_uniform(name, t2, n2)` returns the same `h`, leaves the number of
in-use slots and every other slot unchanged, and leaves slot `h` holding the
name with type `t2`, count `n2` and a new block of
`entries(t2) * entry_size(t2) * n2` bytes. -/
theorem add_uniform_twice (c : render_context) (name : List Nat) (t1 t2 : uniform_type)
    (n1 n2 : Nat) (h1 : 0 < n1) (h2 : 0 < n2) (h0 : 0 ≤ (c.add_uniform name t1 n1).1) :
    ((c.add_uniform name t1 n1).2.add_uniform name t2 n2).1 = (c.add_uniform name t1 n1).1 ∧
    ((c.add_uniform name t1 n1).2.add_uniform name t2 n2).2.uniforms_in_use =
      (c.add_uniform name t1 n1).2.uniforms_in_use ∧
    (∀ j : Nat, (j : Int) ≠ (c.add_uniform name t1 n1).1 →
      ((c.add_uniform name t1 n1).2.add_uniform name t2 n2).2._uniforms j =
        (c.add_uniform name t1 n1).2._uniforms j) ∧
    (((c.add_uniform name t1 n1).2.add_uniform name t2 n2).2._uniforms
        (c.add_uniform name t1 n1).1.toNat).name = some name ∧
    (((c.add_uniform name t1 n1).2.add_uniform name t2 n2).2._uniforms
        (c.add_uniform name t1 n1).1.toNat).uniform_type = t2 ∧
    (((c.add_uniform name t1 n1).2.add_uniform name t2 n2).2._uniforms
        (c.add_uniform name t1 n1).1.toNat).num = n2 ∧
    (((c.add_uniform name t1 n1).2.add_uniform name t2 n2).2._uniforms
        (c.add_uniform name t1 n1).1.toNat).size =
      ((uniform_type_to_declaration t2).number_of_entries *
        (uniform_type_to_declaration t2).size_of_entry * n2 : Nat) ∧
    ∃ bytes, (((c.add_uniform name t1 n1).2.add_uniform name t2 n2).2._uniforms
        (c.add_uniform name t1 n1).1.toNat).raw = some bytes ∧
      bytes.length = (uniform_type_to_declaration t2).number_of_entries *
        (uniform_type_to_declaration t2).size_of_entry * n2 := by
  obtain ⟨b, -, -, hb⟩ := add_uniform_handle c name t1 n1 h0
  rw [add_uniform_at c name t1 n1 b h1 hb]
  have hb2 : render_context.add_uniform.probe
      (fun i => ((Function.update c._uniforms b
          ({ name := some name
             raw := some (new_uint8_array
               ((uniform_type_to_declaration t1).number_of_entries *
                 (uniform_type_to_declaration t1).size_of_entry * n1))
             size := ((uniform_type_to_declaration t1).number_of_entries *
                 (uniform_type_to_declaration t1).size_of_entry * n1 : Nat)
             num := n1
             uniform_type := t1 } : uniform_value)) i).num == 0 ||
        ((Function.update c._uniforms b
          ({ name := some name
             raw := some (new_uint8_array
               ((uniform_type_to_declaration t1).number_of_entries *
                 (uniform_type_to_declaration t1).size_of_entry * n1))
             size := ((uniform_type_to_declaration t1).number_of_entries *
                 (uniform_type_to_declaration t1).size_of_entry * n1 : Nat)
             num := n1
             uniform_type := t1 } : uniform_value)) i).name == some name)
      MAX_UNIFORMS (render_context.add_uniform.hash name % MAX_UNIFORMS) = some b := by
    apply probe_congr_at hb
    · simp
    · intro j hj
      simp only [Function.update_noteq hj]
  rw [add_uniform_at _ name t2 n2 b h2 hb2]
  simp only [Function.update_idem, Int.toNat_ofNat, Function.update_same, true_and]
  refine ⟨?_, fun j hj => ?_, ⟨_, rfl, ?_⟩⟩
  · apply uniforms_in_use_congr
    intro i
    by_cases e : i = b
    · subst e
      simp only [Function.update_same]
      omega
    · simp only [Function.update_noteq e]
  · have e : j ≠ b := fun e => hj (by rw [e])
    simp only [Function.update_noteq e]
  · simp [new_uint8_array]

theorem add_uniform_twice_witness :
    ((render_context.blank.init.add_uniform [88] .real 1).2.add_uniform [88] .vec4 2).1 =
      (render_context.blank.init.add_uniform [88] .real 1).1 ∧
    ((render_context.blank.init.add_uniform [88] .real 1).2.add_uniform [88] .vec4
        2).2.uniforms_in_use =
      (render_context.blank.init.add_uniform [88] .real 1).2.uniforms_in_use ∧
    (∀ j : Nat, (j : Int) ≠ (render_context.blank.init.add_uniform [88] .real 1).1 →
      ((render_context.blank.init.add_uniform [88] .real 1).2.add_uniform [88] .vec4
          2).2._uniforms j =
        (render_context.blank.init.add_uniform [88] .real 1).2._uniforms j) ∧
    (((render_context.blank.init.add_uniform [88] .real 1).2.add_uniform [88] .vec4
        2).2._uniforms
        (render_context.blank.init.add_uniform [88] .real 1).1.toNat).name = some [88] ∧
    (((render_context.blank.init.add_uniform [88] .real 1).2.add_uniform [88] .vec4
        2).2._uniforms
        (render_context.blank.init.add_uniform [88] .real 1).1.toNat).uniform_type = .vec4 ∧
    (((render_context.blank.init.add_uniform [88] .real 1).2.add_uniform [88] .vec4
        2).2._uniforms
        (render_context.blank.init.add_uniform [88] .real 1).1.toNat).num = 2 ∧
    (((render_context.blank.init.add_uniform [88] .real 1).2.add_uniform [88] .vec4
        2).2._uniforms
        (render_context.blank.init.add_uniform [88] .real 1).1.toNat).size =
      ((uniform_type_to_declaration .vec4).number_of_entries *
        (uniform_type_to_declaration .vec4).size_of_entry * 2 : Nat) ∧
    ∃ bytes, (((render_context.blank.init.add_uniform [88] .real 1).2.add_uniform [88] .vec4
        2).2._uniforms
        (render_context.blank.init.add_uniform [88] .real 1).1.toNat).raw = some bytes ∧
      bytes.length = (uniform_type_to_declaration .vec4).number_of_entries *
        (uniform_type_to_declaration .vec4).size_of_entry * 2 :=
  add_uniform_twice render_context.blank.init [88] .real .vec4 1 2 (by decide) (by decide)
    (by decide)

theorem memcpy_whole (dst src : List Nat) (n : Nat) (hd : dst.length = n) :
    memcpy dst src n = src.take n := by
  unfold memcpy
  rw [List.drop_of_length_le (by omega), List.append_nil]

theorem uniforms_sized_init (c : render_context) (i : Nat) (hi : i < MAX_UNIFORMS) :
    (c.init._uniforms i).num = 0 := by
  simp only [render_context.init, hi, if_true]

theorem uniforms_sized_add_uniform (c : render_context) (name : List Nat) (ty : uniform_type)
    (num : Nat) (hnum : num < 65536) (hc : c.uniforms_sized) :
    (c.add_uniform name ty num).2.uniforms_sized := by
  by_cases hn : num ≤ 0
  · simp only [render_context.add_uniform, hn, if_true]; exact hc
  · cases hb : render_context.add_uniform.probe
        (fun b => (c._uniforms b).num == 0 || (c._uniforms b).name == some name)
        MAX_UNIFORMS (render_context.add_uniform.hash name % MAX_UNIFORMS) with
    | none => simp only [render_context.add_uniform, hn, if_false, hb]; exact hc
    | some b =>
      rw [add_uniform_at c name ty num b (by omega) hb]
      intro i hi
      by_cases e : i = b
      · subst e
        dsimp only at hi ⊢
        rw [Function.update_same] at hi ⊢
        refine ⟨hnum, rfl, _, rfl, ?_⟩
        show (List.replicate _ 0).length = Int.toNat (Int.ofNat _)
        rw [List.length_replicate]; rfl
      · dsimp only at hi ⊢
        rw [Function.update_noteq e] at hi ⊢
        exact hc i hi

theorem uniforms_sized_remove_uniform (c : render_context) (handle : Int)
    (hc : c.uniforms_sized) : (c.remove_uniform handle).uniforms_sized := by
  unfold render_context.remove_uniform
  split
  · exact hc
  · dsimp only
    split
    · exact hc
    · intro i hi
      by_cases e : i = handle.toNat
      · subst e
        simp only [Function.update_same] at hi
        exact absurd rfl hi
      · simp only [Function.update_noteq e] at hi ⊢
        exact hc i hi

theorem uniforms_sized_set_uniform (c : render_context) (handle : Int) (values : List Nat)
    (hsrc : (c._uniforms handle.toNat).size.toNat ≤ values.length)
    (hc : c.uniforms_sized) : (c.set_uniform handle values).uniforms_sized := by
  unfold render_context.set_uniform
  split
  · exact hc
  · intro i hi
    by_cases e : i = handle.toNat
    · subst e
      simp only [Function.update_same] at hi ⊢
      obtain ⟨a1, a2, bytes, a3, a4⟩ := hc _ hi
      refine ⟨a1, a2, _, by rw [a3]; rfl, ?_⟩
      show (memcpy bytes values (c._uniforms handle.toNat).size.toNat).length = _
      rw [memcpy_whole bytes values _ a4, List.length_take]
      omega
    · simp only [Function.update_noteq e] at hi ⊢
      exact hc i hi

/-- C5, on the code: the names "b" and "ic" hash to the same bucket 485.  After
`init`, `add_uniform("b")` returns 485 and `add_uniform("ic")` returns 486; after
`remove_uniform(485)` the uniform "ic" is still in use at handle 486, yet
`add_uniform("ic")` returns 485, and then the slots 485 and 486 are both in use
with the name "ic". -/
theorem add_uniform_duplicates_name :
    (render_context.blank.init.add_uniform [98] .real 1).1 = 485 ∧
    ((render_context.blank.init.add_uniform [98] .real 1).2.add_uniform [105, 99] .real 1).1 =
      486 ∧
    ((((render_context.blank.init.add_uniform [98] .real 1).2.add_uniform [105, 99] .real
      1).2.remove_uniform 485)._uniforms 486).name = some [105, 99] ∧
    ((((render_context.blank.init.add_uniform [98] .real 1).2.add_uniform [105, 99] .real
      1).2.remove_uniform 485)._uniforms 486).num = 1 ∧
    ((((render_context.blank.init.add_uniform [98] .real 1).2.add_uniform [105, 99] .real
      1).2.remove_uniform 485).add_uniform [105, 99] .real 1).1 = 485 ∧
    (((((render_context.blank.init.add_uniform [98] .real 1).2.add_uniform [105, 99] .real
      1).2.remove_uniform 485).add_uniform [105, 99] .real 1).2._uniforms 485).name =
      some [105, 99] ∧
    (((((render_context.blank.init.add_uniform [98] .real 1).2.add_uniform [105, 99] .real
      1).2.remove_uniform 485).add_uniform [105, 99] .real 1).2._uniforms 485).num = 1 ∧
    (((((render_context.blank.init.add_uniform [98] .real 1).2.add_uniform [105, 99] .real
      1).2.remove_uniform 485).add_uniform [105, 99] .real 1).2._uniforms 486).name =
      some [105, 99] ∧
    (((((render_context.blank.init.add_uniform [98] .real 1).2.add_uniform [105, 99] .real
      1).2.remove_uniform 485).add_uniform [105, 99] .real 1).2._uniforms 486).num = 1 := by
  decide

/-- C6: for a handle `h` of a slot in use, which owns a block of `size` bytes,
and a source of at least `size` bytes, `set_uniform(h, values)` makes the block equal
to the first `size` bytes of `values`, whatever the declared type; name, type,
count and size of the slot, every other uniform slot and every other table are
unchanged.  For an out-of-range handle the context is unchanged. -/
theorem set_uniform_copies (c : render_context) (h k : Int) (values dst : List Nat)
    (h0 : 0 ≤ h) (h1 : h < 1024)
    (hraw : (c._uniforms h.toNat).raw = some dst)
    (hlen : dst.length = (c._uniforms h.toNat).size.toNat)
    (hsrc : (c._uniforms h.toNat).size.toNat ≤ values.length)
    (hk : k < 0 ∨ k ≥ 1024) :
    ((c.set_uniform h values)._uniforms h.toNat).raw =
        some (values.take (c._uniforms h.toNat).size.toNat) ∧
      (∀ bytes, ((c.set_uniform h values)._uniforms h.toNat).raw = some bytes →
        bytes.length = (c._uniforms h.toNat).size.toNat) ∧
      ((c.set_uniform h values)._uniforms h.toNat).name = (c._uniforms h.toNat).name ∧
      ((c.set_uniform h values)._uniforms h.toNat).uniform_type =
        (c._uniforms h.toNat).uniform_type ∧
      ((c.set_uniform h values)._uniforms h.toNat).num = (c._uniforms h.toNat).num ∧
      ((c.set_uniform h values)._uniforms h.toNat).size = (c._uniforms h.toNat).size ∧
      (∀ j : Nat, j ≠ h.toNat → (c.set_uniform h values)._uniforms j = c._uniforms j) ∧
      (c.set_uniform h values)._textures = c._textures ∧
      (c.set_uniform h values)._geometry_handles = c._geometry_handles ∧
      (c.set_uniform h values)._buffer_objects = c._buffer_objects ∧
      (c.set_uniform h values)._shaders = c._shaders ∧
      (c.set_uniform h values)._shader_programs = c._shader_programs ∧
      (c.set_uniform h values)._render_buffers = c._render_buffers ∧
      (c.set_uniform h values)._frame_buffers = c._frame_buffers ∧
      (c.set_uniform h values)._queries = c._queries ∧
      c.set_uniform k values = c := by
  have hr : ¬ (h < 0 ∨ h ≥ (MAX_UNIFORMS : Nat)) := by simp only [MAX_UNIFORMS]; omega
  have hkr : k < 0 ∨ k ≥ (MAX_UNIFORMS : Nat) := by simp only [MAX_UNIFORMS]; omega
  have hcopy : ((c.set_uniform h values)._uniforms h.toNat).raw =
      some (values.take (c._uniforms h.toNat).size.toNat) := by
    simp only [render_context.set_uniform, hr, if_false, Function.update_same, hraw,
      Option.map_some', memcpy_whole dst values _ hlen]
  refine ⟨hcopy, ?_, ?_, ?_, ?_, ?_, ?_, ?_, ?_, ?_, ?_, ?_, ?_, ?_, ?_, ?_⟩
  · intro bytes hb
    rw [hcopy] at hb
    cases hb
    rw [List.length_take]; omega
  all_goals simp only [render_context.set_uniform, hr, hkr, if_false, if_true,
    Function.update_same]
  intro j hj
  simp only [Function.update_noteq hj]

theorem set_uniform_copies_witness :
    (((render_context.blank.init.add_uniform [88] .real 1).2.set_uniform 551
        [0, 0, 128, 63, 7])._uniforms (551 : Int).toNat).raw =
      some ([0, 0, 128, 63, 7].take
        ((render_context.blank.init.add_uniform [88] .real 1).2._uniforms
          (551 : Int).toNat).size.toNat) ∧
    (render_context.blank.init.add_uniform [88] .real 1).2.set_uniform (-1) [0, 0, 128, 63, 7] =
      (render_context.blank.init.add_uniform [88] .real 1).2 :=
  ⟨(set_uniform_copies (render_context.blank.init.add_uniform [88] .real 1).2 551 (-1)
      [0, 0, 128, 63, 7] [0, 0, 0, 0] (by decide) (by decide) (by decide) (by decide)
      (by decide) (by decide)).1,
    (set_uniform_copies (render_context.blank.init.add_uniform [88] .real 1).2 551 (-1)
      [0, 0, 128, 63, 7] [0, 0, 0, 0] (by decide) (by decide) (by decide) (by decide)
      (by decide) (by decide)).2.2.2.2.2.2.2.2.2.2.2.2.2.2.2⟩

/-! ## The packed uniform blob of the command-buffer backend -/

theorem pad_append (a : Nat) : ∀ (k fuel : Nat) (raw : List Nat), k ≤ fuel →
    (raw.length + k) % a = 0 → (∀ j, j < k → (raw.length + j) % a ≠ 0) →
    render_context_metal.pad a fuel raw = raw ++ List.replicate k 0 := by
  intro k
  induction k with
  | zero =>
    intro fuel raw _ h0 _
    cases fuel with
    | zero => simp [render_context_metal.pad]
    | succ f =>
      have : raw.length % a = 0 := by simpa using h0
      simp [render_context_metal.pad, this]
  | succ k ih =>
    intro fuel raw hf h0 hmin
    cases fuel with
    | zero => omega
    | succ f =>
      have hne : raw.length % a ≠ 0 := by simpa using hmin 0 (Nat.succ_pos k)
      have hrec := ih f (raw ++ [0]) (by omega)
        (by rw [List.length_append, List.length_singleton]
            rw [show raw.length + 1 + k = raw.length + (k + 1) by omega]; exact h0)
        (fun j hj => by
          rw [List.length_append, List.length_singleton]
          rw [show raw.length + 1 + j = raw.length + (j + 1) by omega]
          exact hmin (j + 1) (by omega))
      simp only [render_context_metal.pad, hne, ne_eq, not_false_eq_true, if_true, hrec,
        List.append_assoc, List.singleton_append, List.replicate_succ]

theorem pad_aligned (a : Nat) (ha : 0 < a) (raw : List Nat) :
    ∃ k, k < a ∧ (raw.length + k) % a = 0 ∧ (∀ j, j < k → (raw.length + j) % a ≠ 0) ∧
      render_context_metal.pad a a raw = raw ++ List.replicate k 0 := by
  have hr := Nat.mod_lt raw.length ha
  have hex : ∃ k, (raw.length + k) % a = 0 := by
    refine ⟨a - raw.length % a, ?_⟩
    have hd := Nat.div_add_mod raw.length a
    have : raw.length + (a - raw.length % a) = a * (raw.length / a + 1) := by
      rw [Nat.mul_add, Nat.mul_one]; omega
    rw [this, Nat.mul_mod_right]
  have hle : Nat.find hex < a := by
    by_cases h0 : raw.length % a = 0
    · have : Nat.find hex ≤ 0 := Nat.find_min' hex (by simpa using h0)
      omega
    · have hw : (raw.length + (a - raw.length % a)) % a = 0 := by
        have hd := Nat.div_add_mod raw.length a
        have : raw.length + (a - raw.length % a) = a * (raw.length / a + 1) := by
          rw [Nat.mul_add, Nat.mul_one]; omega
        rw [this, Nat.mul_mod_right]
      have : Nat.find hex ≤ a - raw.length % a := Nat.find_min' hex hw
      omega
  exact ⟨Nat.find hex, hle, Nat.find_spec hex, fun j hj => Nat.find_min hex hj,
    pad_append a (Nat.find hex) a raw (by omega) (Nat.find_spec hex)
      (fun j hj => Nat.find_min hex hj)⟩

theorem read_block (bytes : List Nat) (n : Nat) (h : bytes.length = n) :
    ((List.range n).map fun i => bytes.getD i 0) = bytes := by
  apply List.ext_getElem
  · simp [h]
  · intro i h1 h2
    simp [List.getElem?_eq_getElem h2]

theorem alignment_pos (t : uniform_type) : 0 < (uniform_type_to_alignment t).align := by
  cases t <;> decide

theorem declared_le_packed (t : uniform_type) (n : Nat) :
    (uniform_type_to_declaration t).number_of_entries *
        (uniform_type_to_declaration t).size_of_entry * n ≤
      (uniform_type_to_alignment t).size * n := by
  apply Nat.mul_le_mul_right
  cases t <;> decide

theorem declared_size_lt (t : uniform_type) (n : Nat) (hn : n < 65536) :
    (uniform_type_to_declaration t).number_of_entries *
        (uniform_type_to_declaration t).size_of_entry * n < 2 ^ 32 := by
  cases t <;> simp only [uniform_type_to_declaration] <;> omega

/-- C7: in the command-buffer backend, for a linked program and a uniform slot in
use (type `T`, count `n`, which is a `uint16_t`, a block `bytes` of
`size = entries(T) * entry_size(T) * n` bytes), `bind_uniform` turns the blob `B` into
`B ++ zeros(p) ++ bytes ++ zeros(q)`, where `p` is the least number with
`|B| + p` a multiple of `align(T)` and `q = packed_size(T) * n - size`, which is
not negative; `align(T)` is 4 for sampler, integer and real, 8 for vec2 and
uvec2, and 16 for the other types; the inherited tables are unchanged. -/
theorem bind_uniform_packs (m : render_context_metal) (program uniform : Int)
    (bytes : List Nat)
    (hp0 : 0 ≤ program) (hp1 : program < 1024)
    (hlinked : (m._shader_programs program.toNat).linked ≠ 0)
    (hu0 : 0 ≤ uniform) (hu1 : uniform < 1024)
    (hraw : (m._uniforms uniform.toNat).raw = some bytes)
    (hlen : bytes.length = (m._uniforms uniform.toNat).size.toNat)
    (hsize : (m._uniforms uniform.toNat).size =
      ((uniform_type_to_declaration (m._uniforms uniform.toNat).uniform_type).number_of_entries *
        (uniform_type_to_declaration (m._uniforms uniform.toNat).uniform_type).size_of_entry *
        (m._uniforms uniform.toNat).num : Nat))
    (hnum : (m._uniforms uniform.toNat).num < 65536) :
    (∃ p,
      (render_context_metal.bind_uniform m program uniform)._raw_uniforms =
        m._raw_uniforms ++ List.replicate p 0 ++ bytes ++
          List.replicate
            ((uniform_type_to_alignment (m._uniforms uniform.toNat).uniform_type).size *
              (m._uniforms uniform.toNat).num - (m._uniforms uniform.toNat).size.toNat) 0 ∧
      (m._raw_uniforms.length + p) %
        (uniform_type_to_alignment (m._uniforms uniform.toNat).uniform_type).align = 0 ∧
      ∀ j, j < p → (m._raw_uniforms.length + j) %
        (uniform_type_to_alignment (m._uniforms uniform.toNat).uniform_type).align ≠ 0) ∧
    (m._uniforms uniform.toNat).size.toNat ≤
      (uniform_type_to_alignment (m._uniforms uniform.toNat).uniform_type).size *
        (m._uniforms uniform.toNat).num ∧
    (uniform_type_to_alignment (m._uniforms uniform.toNat).uniform_type).align =
      (match (m._uniforms uniform.toNat).uniform_type with
        | .sampler | .integer | .real => 4
        | .vec2 | .uvec2 => 8
        | .vec3 | .vec4 | .uvec3 | .uvec4 | .mat3 | .mat4 => 16) ∧
    (render_context_metal.bind_uniform m program uniform).torender_context =
      m.torender_context := by
  have hpr : ¬ (program < 0 ∨ program ≥ (MAX_SHADER_PROGRAM : Nat)) := by
    simp only [MAX_SHADER_PROGRAM]; omega
  have hur : ¬ (uniform < 0 ∨ uniform ≥ (MAX_UNIFORMS : Nat)) := by
    simp only [MAX_UNIFORMS]; omega
  obtain ⟨p, -, hp2, hp3, hp4⟩ := pad_aligned
    (uniform_type_to_alignment (m._uniforms uniform.toNat).uniform_type).align
    (alignment_pos _) m._raw_uniforms
  have hmod : (m._uniforms uniform.toNat).size % 2 ^ 32 = (m._uniforms uniform.toNat).size := by
    apply Int.emod_eq_of_lt
    · rw [hsize]; exact Int.natCast_nonneg _
    · rw [hsize]; exact_mod_cast declared_size_lt _ _ hnum
  refine ⟨⟨p, ?_, hp2, hp3⟩, ?_, ?_, ?_⟩
  · simp only [render_context_metal.bind_uniform, hpr, hur, hlinked, if_false, hp4, hraw,
      Option.getD_some, read_block bytes _ hlen, hmod]
  · rw [hsize, Int.toNat_ofNat]
    exact declared_le_packed _ _
  · cases (m._uniforms uniform.toNat).uniform_type <;> rfl
  · simp only [render_context_metal.bind_uniform, hpr, hur, hlinked, if_false]

theorem bind_uniform_packs_witness :
    (∃ p,
      (render_context_metal.bind_uniform
        (render_context_metal.with_linked_program
          ((render_context.blank.init.add_uniform [88] .vec3 1).2.set_uniform 551
            [1, 2, 3, 4, 5, 6, 7, 8, 9, 10, 11, 12]) [255, 254, 253, 252]) 0 551)._raw_uniforms =
        [255, 254, 253, 252] ++ List.replicate p 0 ++
          [1, 2, 3, 4, 5, 6, 7, 8, 9, 10, 11, 12] ++ List.replicate (16 * 1 - 12) 0 ∧
      (4 + p) % 16 = 0 ∧ ∀ j, j < p → (4 + j) % 16 ≠ 0) :=
  (bind_uniform_packs
    (render_context_metal.with_linked_program
      ((render_context.blank.init.add_uniform [88] .vec3 1).2.set_uniform 551
        [1, 2, 3, 4, 5, 6, 7, 8, 9, 10, 11, 12]) [255, 254, 253, 252]) 0 551
    [1, 2, 3, 4, 5, 6, 7, 8, 9, 10, 11, 12]
    (by decide) (by decide) (by decide) (by decide) (by decide) (by decide) (by decide)
    (by decide) (by decide)).1

/-! ## Geometry -/

theorem metal_allocate_eq :
    @render_context_metal._allocate_geometry_buffer =
      @render_context_gl._allocate_buffer_object := rfl

theorem metal_geometry_begin_eq :
    @render_context_metal.geometry_begin = @render_context_gl.geometry_begin := rfl

theorem metal_geometry_end_eq :
    @render_context_metal.geometry_end = @render_context_gl.geometry_end := rfl

theorem metal_remove_geometry_eq :
    @render_context_metal.remove_geometry = @render_context_gl.remove_geometry := rfl

theorem nat_lor_two_land_one (n : Nat) : (n ||| 2) &&& 1 = n &&& 1 := by
  apply Nat.eq_of_testBit_eq
  intro i
  simp only [Nat.testBit_and, Nat.testBit_or]
  rcases i with _ | _ | i <;> simp [Nat.testBit_succ, Nat.testBit_zero]

theorem nat_lor_one_land_two (n : Nat) : (n ||| 1) &&& 2 = n &&& 2 := by
  apply Nat.eq_of_testBit_eq
  intro i
  simp only [Nat.testBit_and, Nat.testBit_or]
  rcases i with _ | _ | i <;> simp [Nat.testBit_succ, Nat.testBit_zero]

theorem nat_ldiff_one_ldiff_two (n : Nat) : Nat.ldiff 1 (Nat.ldiff n 2) = Nat.ldiff 1 n := by
  apply Nat.eq_of_testBit_eq
  intro i
  simp only [Nat.testBit_ldiff]
  rcases i with _ | _ | i <;> simp [Nat.testBit_succ, Nat.testBit_zero]

theorem nat_ldiff_two_ldiff_one (n : Nat) : Nat.ldiff 2 (Nat.ldiff n 1) = Nat.ldiff 2 n := by
  apply Nat.eq_of_testBit_eq
  intro i
  simp only [Nat.testBit_ldiff]
  rcases i with _ | _ | i <;> simp [Nat.testBit_succ, Nat.testBit_zero]

theorem land_vertex_lor_index (l : Int) :
    (l.lor GEOMETRY_INDEX).land GEOMETRY_VERTEX = l.land GEOMETRY_VERTEX := by
  cases l with
  | ofNat n =>
    show (((n ||| 2) &&& 1 : Nat) : Int) = ((n &&& 1 : Nat) : Int)
    rw [nat_lor_two_land_one]
  | negSucc n =>
    show ((Nat.ldiff 1 (Nat.ldiff n 2) : Nat) : Int) = ((Nat.ldiff 1 n : Nat) : Int)
    rw [nat_ldiff_one_ldiff_two]

theorem land_index_lor_vertex (l : Int) :
    (l.lor GEOMETRY_VERTEX).land GEOMETRY_INDEX = l.land GEOMETRY_INDEX := by
  cases l with
  | ofNat n =>
    show (((n ||| 1) &&& 2 : Nat) : Int) = ((n &&& 2 : Nat) : Int)
    rw [nat_lor_one_land_two]
  | negSucc n =>
    show ((Nat.ldiff 2 (Nat.ldiff n 1) : Nat) : Int) = ((Nat.ldiff 2 n : Nat) : Int)
    rw [nat_ldiff_two_ldiff_one]

theorem lock_mask_range (l : Int) (h0 : 0 ≤ l) (h4 : l < 4) :
    (0 ≤ l.lor GEOMETRY_VERTEX ∧ l.lor GEOMETRY_VERTEX < 4) ∧
    (0 ≤ l.lor GEOMETRY_INDEX ∧ l.lor GEOMETRY_INDEX < 4) ∧
    (0 ≤ l.land (Int.lnot GEOMETRY_VERTEX) ∧ l.land (Int.lnot GEOMETRY_VERTEX) < 4) ∧
    (0 ≤ l.land (Int.lnot GEOMETRY_INDEX) ∧ l.land (Int.lnot GEOMETRY_INDEX) < 4) := by
  interval_cases l <;> decide!

theorem allocate_frame (c : render_context) (ref : geometry_ref) (tuple_size count type : Int)
    (pointer : Option (Option Nat)) (b : Nat) (hsize : (c._buffer_objects b).size ≠ 0)
    (hne : ref.buffer ≠ (b : Int)) :
    (render_context_gl._allocate_buffer_object c ref tuple_size count type
      pointer).context._buffer_objects b = c._buffer_objects b := by
  unfold render_context_gl._allocate_buffer_object
  by_cases ht : ¬ (type = GEOMETRY_VERTEX ∨ type = GEOMETRY_INDEX)
  · simp only [ht, not_false_eq_true, if_true]
  · simp only [ht, if_false]
    by_cases hneg : ref.buffer < 0
    · simp only [hneg, if_true]
      cases hs : scan (fun i => (c._buffer_objects i).size == 0) MAX_BUFFER_OBJECT 0 with
      | none => simp only
      | some i =>
        have hi : (c._buffer_objects i).size = 0 := by simpa using (scan_some hs).2.2.1
        have hbi : b ≠ i := fun e => hsize (by rw [e]; exact hi)
        simp only [Int.toNat_ofNat]
        split <;> simp [Function.update_noteq hbi]
    · have hb : b ≠ ref.buffer.toNat := by
        intro e
        apply hne
        rw [e, Int.toNat_of_nonneg (by omega)]
      simp only [hneg, if_false]
      split <;> simp [Function.update_noteq hb]

theorem allocate_geometry_handles (c : render_context) (ref : geometry_ref)
    (tuple_size count type : Int) (pointer : Option (Option Nat)) :
    (render_context_gl._allocate_buffer_object c ref tuple_size count type
      pointer).context._geometry_handles = c._geometry_handles := by
  unfold render_context_gl._allocate_buffer_object
  by_cases ht : ¬ (type = GEOMETRY_VERTEX ∨ type = GEOMETRY_INDEX)
  · simp only [ht, not_false_eq_true, if_true]
  · simp only [ht, if_false]
    by_cases hneg : ref.buffer < 0
    · simp only [hneg, if_true]
      cases hs : scan (fun i => (c._buffer_objects i).size == 0) MAX_BUFFER_OBJECT 0 with
      | none => simp only
      | some i =>
        simp only
        split <;> rfl
    · simp only [hneg, if_false]
      split <;> rfl

theorem locks_are_masks_init (c : render_context) (i : Nat) (hi : i < MAX_GEOMETRY) :
    (c.init._geometry_handles i).mode = 0 := by
  simp only [render_context.init, hi, if_true]

theorem locks_are_masks_add_geometry (c : render_context) (vertex_declaration_type : Int)
    (hc : render_context_gl.locks_are_masks c) :
    render_context_gl.locks_are_masks
      (render_context_gl.add_geometry c vertex_declaration_type).2 := by
  unfold render_context_gl.add_geometry
  split
  · exact hc
  · split
    · rename_i k _
      intro i hi
      by_cases e : i = k
      · subst e
        dsimp only at hi ⊢
        rw [Function.update_same]
        refine ⟨le_refl _, ?_⟩
        show (0 : Int) < 4
        decide
      · dsimp only at hi ⊢
        rw [Function.update_noteq e] at hi ⊢
        exact hc i hi
    · exact hc

theorem locks_are_masks_geometry_begin (c : render_context) (handle nv ni update : Int)
    (vp ip : Option (Option Nat)) (hc : render_context_gl.locks_are_masks c) :
    render_context_gl.locks_are_masks
      (render_context_gl.geometry_begin c handle nv ni vp ip update).context := by
  unfold render_context_gl.geometry_begin
  by_cases hr : handle < 0 ∨ handle ≥ (MAX_GEOMETRY : Nat)
  · simp only [hr, if_true]; exact hc
  · by_cases hmode : (c._geometry_handles handle.toNat).mode = 0
    · simp only [hr, hmode, if_false, if_true]; exact hc
    · simp only [hr, hmode, if_false]
      obtain ⟨l0, l4⟩ := hc handle.toNat hmode
      have m1 := (lock_mask_range _ l0 l4).1
      have m2 := (lock_mask_range _ l0 l4).2.1
      have m3 := (lock_mask_range _ m1.1 m1.2).2.1
      intro i hi
      by_cases e : i = handle.toNat
      · subst e
        split_ifs <;> simp only [Function.update_same] <;>
          first | exact m1 | exact m2 | exact m3 | exact ⟨l0, l4⟩
      · split_ifs at hi ⊢ <;>
          simp only [Function.update_noteq e, allocate_geometry_handles] at hi ⊢ <;>
          exact hc i hi

theorem locks_are_masks_geometry_end (c : render_context) (handle : Int)
    (hc : render_context_gl.locks_are_masks c) :
    render_context_gl.locks_are_masks (render_context_gl.geometry_end c handle) := by
  unfold render_context_gl.geometry_end
  by_cases hr : handle < 0 ∨ handle ≥ (MAX_GEOMETRY : Nat)
  · simp only [hr, if_true]; exact hc
  · by_cases hmode : (c._geometry_handles handle.toNat).mode = 0
    · simp only [hr, hmode, if_false, if_true]; exact hc
    · simp only [hr, hmode, if_false]
      obtain ⟨l0, l4⟩ := hc handle.toNat hmode
      have m1 := (lock_mask_range _ l0 l4).2.2.1
      have m2 := (lock_mask_range _ l0 l4).2.2.2
      have m3 := (lock_mask_range _ m1.1 m1.2).2.2.2
      intro i hi
      by_cases e : i = handle.toNat
      · subst e
        split_ifs <;> simp only [Function.update_same] <;>
          first | exact m1 | exact m2 | exact m3 | exact ⟨l0, l4⟩
      · split_ifs at hi ⊢ <;>
          simp only [Function.update_noteq e] at hi ⊢ <;>
          exact hc i hi

theorem locks_are_masks_remove_geometry (c : render_context) (handle : Int)
    (hc : render_context_gl.locks_are_masks c) :
    render_context_gl.locks_are_masks (render_context_gl.remove_geometry c handle).2 := by
  unfold render_context_gl.remove_geometry
  by_cases hr : handle < 0 ∨ handle ≥ (MAX_GEOMETRY : Nat)
  · simp only [hr, if_true]; exact hc
  · by_cases hmode : (c._geometry_handles handle.toNat).mode = 0
    · simp only [hr, hmode, if_false, if_true]; exact hc
    · simp only [hr, hmode, if_false]
      intro i hi
      by_cases e : i = handle.toNat
      · subst e
        split_ifs at hi ⊢
        all_goals first
          | exact hc _ hmode
          | (simp only [Function.update_same] at hi; exact absurd rfl hi)
      · split_ifs at hi ⊢
        all_goals first
          | exact hc i hi
          | (simp only [Function.update_noteq e] at hi ⊢; exact hc i hi)

/-- C8, on the code: after `init`, `add_geometry(1)` returns handle 0.  A first
`geometry_begin(0, 4, 6, .., 3)` / `geometry_end(0)` creates both buffers.  A
second `geometry_begin(0, 3, 3, .., 3)` / `geometry_end(0)` finds both buffers
large enough, so `_allocate_buffer_object` skips the branch that holds
`ref.count = count`: the geometry is unlocked, but the counts recorded are still
4 vertices and 6 indices, and `geometry_draw(0)` draws 6 indices, not 3.  The
command-buffer backend, run on the same tables, keeps the index count 6 too. -/
theorem geometry_count_stale :
    (render_context_gl.add_geometry render_context.blank.init 1).1 = 0 ∧
    ((render_context_gl.geometry_end
      (render_context_gl.geometry_begin
        (render_context_gl.geometry_end
          (render_context_gl.geometry_begin
            (render_context_gl.add_geometry render_context.blank.init 1).2
            0 4 6 (some none) (some none) 3).context 0)
        0 3 3 (some none) (some none) 3).context 0)._geometry_handles 0).locked = 0 ∧
    ((render_context_gl.geometry_end
      (render_context_gl.geometry_begin
        (render_context_gl.geometry_end
          (render_context_gl.geometry_begin
            (render_context_gl.add_geometry render_context.blank.init 1).2
            0 4 6 (some none) (some none) 3).context 0)
        0 3 3 (some none) (some none) 3).context 0)._geometry_handles 0).vertex.count = 4 ∧
    ((render_context_gl.geometry_end
      (render_context_gl.geometry_begin
        (render_context_gl.geometry_end
          (render_context_gl.geometry_begin
            (render_context_gl.add_geometry render_context.blank.init 1).2
            0 4 6 (some none) (some none) 3).context 0)
        0 3 3 (some none) (some none) 3).context 0)._geometry_handles 0).index.count = 6 ∧
    render_context_gl.geometry_draw
      (render_context_gl.geometry_end
        (render_context_gl.geometry_begin
          (render_context_gl.geometry_end
            (render_context_gl.geometry_begin
              (render_context_gl.add_geometry render_context.blank.init 1).2
              0 4 6 (some none) (some none) 3).context 0)
          0 3 3 (some none) (some none) 3).context 0) 0 = some 6 ∧
    ((render_context_metal.geometry_end
      (render_context_metal.geometry_begin
        (render_context_metal.geometry_end
          (render_context_metal.geometry_begin
            (render_context_gl.add_geometry render_context.blank.init 1).2
            0 4 6 (some none) (some none) 3).context 0)
        0 3 3 (some none) (some none) 3).context 0)._geometry_handles 0).index.count = 6 := by
  decide!

theorem gl_begin_vertex_locked (c : render_context) (handle nv ni update : Int)
    (vp ip : Option (Option Nat)) (h0 : 0 ≤ handle) (h1 : handle < 1024)
    (hmode : (c._geometry_handles handle.toNat).mode ≠ 0)
    (hv : (c._geometry_handles handle.toNat).locked.land GEOMETRY_VERTEX ≠ 0) :
    ((render_context_gl.geometry_begin c handle nv ni vp ip update).context._geometry_handles
        handle.toNat).locked.land GEOMETRY_VERTEX =
      (c._geometry_handles handle.toNat).locked.land GEOMETRY_VERTEX ∧
    ((render_context_gl.geometry_begin c handle nv ni vp ip update).context._geometry_handles
        handle.toNat).vertex = (c._geometry_handles handle.toNat).vertex ∧
    (render_context_gl.geometry_begin c handle nv ni vp ip update).vertex_pointer =
      vp.map (fun _ => none) ∧
    ∀ b : Nat, (c._geometry_handles handle.toNat).vertex.buffer = (b : Int) →
      (c._buffer_objects b).size ≠ 0 →
      (c._geometry_handles handle.toNat).index.buffer ≠ (b : Int) →
      (render_context_gl.geometry_begin c handle nv ni vp ip update).context._buffer_objects b =
        c._buffer_objects b := by
  have hr : ¬ (handle < 0 ∨ handle ≥ (MAX_GEOMETRY : Nat)) := by
    simp only [MAX_GEOMETRY]; omega
  have hcv : ¬ (update.land GEOMETRY_VERTEX ≠ 0 ∧
      ¬ (c._geometry_handles handle.toNat).locked.land GEOMETRY_VERTEX ≠ 0) := fun h => h.2 hv
  unfold render_context_gl.geometry_begin
  simp only [hr, hmode, if_false, hcv, ne_eq, not_true_eq_false]
  by_cases hci : ¬ update.land GEOMETRY_INDEX = 0 ∧
      ¬ ¬ (c._geometry_handles handle.toNat).locked.land GEOMETRY_INDEX = 0
  · simp only [hci, and_self, not_false_eq_true, if_true, Function.update_same,
      land_vertex_lor_index, true_and]
    intro b hb hs hne
    exact allocate_frame c _ _ _ _ _ b hs hne
  · simp only [hci, if_false, Function.update_same, true_and]
    intro b _ _ _
    trivial

theorem gl_begin_index_locked (c : render_context) (handle nv ni update : Int)
    (vp ip : Option (Option Nat)) (h0 : 0 ≤ handle) (h1 : handle < 1024)
    (hmode : (c._geometry_handles handle.toNat).mode ≠ 0)
    (hi : (c._geometry_handles handle.toNat).locked.land GEOMETRY_INDEX ≠ 0) :
    ((render_context_gl.geometry_begin c handle nv ni vp ip update).context._geometry_handles
        handle.toNat).locked.land GEOMETRY_INDEX =
      (c._geometry_handles handle.toNat).locked.land GEOMETRY_INDEX ∧
    ((render_context_gl.geometry_begin c handle nv ni vp ip update).context._geometry_handles
        handle.toNat).index = (c._geometry_handles handle.toNat).index ∧
    (render_context_gl.geometry_begin c handle nv ni vp ip update).index_pointer =
      ip.map (fun _ => none) ∧
    ∀ b : Nat, (c._geometry_handles handle.toNat).index.buffer = (b : Int) →
      (c._buffer_objects b).size ≠ 0 →
      (c._geometry_handles handle.toNat).vertex.buffer ≠ (b : Int) →
      (render_context_gl.geometry_begin c handle nv ni vp ip update).context._buffer_objects b =
        c._buffer_objects b := by
  have hr : ¬ (handle < 0 ∨ handle ≥ (MAX_GEOMETRY : Nat)) := by
    simp only [MAX_GEOMETRY]; omega
  unfold render_context_gl.geometry_begin
  simp only [hr, hmode, if_false]
  by_cases hcv : update.land GEOMETRY_VERTEX ≠ 0 ∧
      ¬ (c._geometry_handles handle.toNat).locked.land GEOMETRY_VERTEX ≠ 0
  · simp only [hcv, and_self, not_false_eq_true, if_true, ne_eq]
    have hci : ¬ (¬ update.land GEOMETRY_INDEX = 0 ∧
        ¬ ¬ (c._geometry_handles handle.toNat).locked.land GEOMETRY_INDEX = 0) :=
      fun h => h.2 hi
    by_cases hst : (render_context_gl._allocate_buffer_object c
        (c._geometry_handles handle.toNat).vertex
        (c._geometry_handles handle.toNat).vertex_size nv GEOMETRY_VERTEX
        (Option.map (fun _ => none) vp)).status = outcome.ok
    · simp only [hst, not_true_eq_false, if_false, land_index_lor_vertex, hci,
        Function.update_same, true_and]
      intro b hb hs hne
      exact allocate_frame c _ _ _ _ _ b hs hne
    · simp only [hst, not_false_eq_true, if_true, Function.update_same,
        land_index_lor_vertex, true_and]
      intro b hb hs hne
      exact allocate_frame c _ _ _ _ _ b hs hne
  · have hci : ¬ (¬ update.land GEOMETRY_INDEX = 0 ∧
        ¬ ¬ (c._geometry_handles handle.toNat).locked.land GEOMETRY_INDEX = 0) :=
      fun h => h.2 hi
    simp only [hcv, if_false, ne_eq, not_true_eq_false, hci, Function.update_same, true_and]
    intro b _ _ _
    trivial

/-- What holds of a locked stream in every state: for an allocated geometry
`h`, in either backend, a `geometry_begin(h, ...)` with any counts and any update mask leaves a stream
that is already locked with its lock bit, its buffer handle and its element
count as they were, and hands back a null pointer for it; the buffer slot of
that stream is unchanged when it is in use (size not 0) and is not also the
buffer of the other stream. -/
theorem geometry_begin_locked_stream (c : render_context) (handle nv ni update : Int)
    (vp ip : Option (Option Nat)) (h0 : 0 ≤ handle) (h1 : handle < 1024)
    (hmode : (c._geometry_handles handle.toNat).mode ≠ 0) :
    ((c._geometry_handles handle.toNat).locked.land GEOMETRY_VERTEX ≠ 0 →
      ((render_context_gl.geometry_begin c handle nv ni vp ip update).context._geometry_handles
          handle.toNat).locked.land GEOMETRY_VERTEX =
        (c._geometry_handles handle.toNat).locked.land GEOMETRY_VERTEX ∧
      ((render_context_gl.geometry_begin c handle nv ni vp ip update).context._geometry_handles
          handle.toNat).vertex = (c._geometry_handles handle.toNat).vertex ∧
      (render_context_gl.geometry_begin c handle nv ni vp ip update).vertex_pointer =
        vp.map (fun _ => none) ∧
      ∀ b : Nat, (c._geometry_handles handle.toNat).vertex.buffer = (b : Int) →
        (c._buffer_objects b).size ≠ 0 →
        (c._geometry_handles handle.toNat).index.buffer ≠ (b : Int) →
        (render_context_gl.geometry_begin c handle nv ni vp ip update).context._buffer_objects
            b = c._buffer_objects b) ∧
    ((c._geometry_handles handle.toNat).locked.land GEOMETRY_INDEX ≠ 0 →
      ((render_context_gl.geometry_begin c handle nv ni vp ip update).context._geometry_handles
          handle.toNat).locked.land GEOMETRY_INDEX =
        (c._geometry_handles handle.toNat).locked.land GEOMETRY_INDEX ∧
      ((render_context_gl.geometry_begin c handle nv ni vp ip update).context._geometry_handles
          handle.toNat).index = (c._geometry_handles handle.toNat).index ∧
      (render_context_gl.geometry_begin c handle nv ni vp ip update).index_pointer =
        ip.map (fun _ => none) ∧
      ∀ b : Nat, (c._geometry_handles handle.toNat).index.buffer = (b : Int) →
        (c._buffer_objects b).size ≠ 0 →
        (c._geometry_handles handle.toNat).vertex.buffer ≠ (b : Int) →
        (render_context_gl.geometry_begin c handle nv ni vp ip update).context._buffer_objects
            b = c._buffer_objects b) ∧
    render_context_metal.geometry_begin c handle nv ni vp ip update =
      render_context_gl.geometry_begin c handle nv ni vp ip update :=
  ⟨gl_begin_vertex_locked c handle nv ni update vp ip h0 h1 hmode,
    gl_begin_index_locked c handle nv ni update vp ip h0 h1 hmode,
    by rw [metal_geometry_begin_eq]⟩

theorem geometry_begin_locked_stream_witness :
    (render_context_gl.geometry_begin
        (render_context_gl.geometry_begin
          (render_context_gl.add_geometry render_context.blank.init 1).2
          0 4 6 (some none) (some none) 3).context
        0 100 200 (some (some 0)) (some (some 1)) 3).context._buffer_objects 0 =
      (render_context_gl.geometry_begin
        (render_context_gl.add_geometry render_context.blank.init 1).2
        0 4 6 (some none) (some none) 3).context._buffer_objects 0 ∧
    (render_context_gl.geometry_begin
        (render_context_gl.geometry_begin
          (render_context_gl.add_geometry render_context.blank.init 1).2
          0 4 6 (some none) (some none) 3).context
        0 100 200 (some (some 0)) (some (some 1)) 3).index_pointer =
      (some (some 1) : Option (Option Nat)).map (fun _ => none) :=
  ⟨((geometry_begin_locked_stream
      (render_context_gl.geometry_begin
        (render_context_gl.add_geometry render_context.blank.init 1).2
        0 4 6 (some none) (some none) 3).context
      0 100 200 3 (some (some 0)) (some (some 1)) (by decide) (by decide) (by decide)).1
      (by decide)).2.2.2 0 (by decide) (by decide) (by decide),
    ((geometry_begin_locked_stream
      (render_context_gl.geometry_begin
        (render_context_gl.add_geometry render_context.blank.init 1).2
        0 4 6 (some none) (some none) 3).context
      0 100 200 3 (some (some 0)) (some (some 1)) (by decide) (by decide) (by decide)).2.1
      (by decide)).2.2.1⟩

/-- C9, on the code: after `init`, `add_geometry(1)` (handle 0) and
`geometry_begin(0, 0, 0, .., 1)`, the vertex stream is locked and owns buffer
slot 0, whose size is 0.  A further `geometry_begin(0, 5, 3, .., 3)` takes the
same slot 0 for the index stream, as the scan for a free slot looks for size 0:
the buffer slot of the locked vertex stream changes from type 1, size 0 to
type 2, size 12. -/
theorem geometry_begin_locked_stream_slot_taken :
    ((render_context_gl.geometry_begin
        (render_context_gl.add_geometry render_context.blank.init 1).2
        0 0 0 (some none) (some none) 1).context._geometry_handles 0).locked.land
          GEOMETRY_VERTEX ≠ 0 ∧
    ((render_context_gl.geometry_begin
        (render_context_gl.add_geometry render_context.blank.init 1).2
        0 0 0 (some none) (some none) 1).context._geometry_handles 0).vertex.buffer = 0 ∧
    (render_context_gl.geometry_begin
        (render_context_gl.add_geometry render_context.blank.init 1).2
        0 0 0 (some none) (some none) 1).context._buffer_objects 0 = ⟨1, 0, some []⟩ ∧
    ((render_context_gl.geometry_begin
        (render_context_gl.geometry_begin
          (render_context_gl.add_geometry render_context.blank.init 1).2
          0 0 0 (some none) (some none) 1).context
        0 5 3 (some none) (some none) 3).context._buffer_objects 0).type = 2 ∧
    ((render_context_gl.geometry_begin
        (render_context_gl.geometry_begin
          (render_context_gl.add_geometry render_context.blank.init 1).2
          0 0 0 (some none) (some none) 1).context
        0 5 3 (some none) (some none) 3).context._buffer_objects 0).size = 12 ∧
    (render_context_gl.geometry_begin
        (render_context_gl.geometry_begin
          (render_context_gl.add_geometry render_context.blank.init 1).2
          0 0 0 (some none) (some none) 1).context
        0 5 3 (some none) (some none) 3).context._buffer_objects 0 ≠
      (render_context_gl.geometry_begin
        (render_context_gl.add_geometry render_context.blank.init 1).2
        0 0 0 (some none) (some none) 1).context._buffer_objects 0 := by
  decide

theorem remove_buffer_object_slot (c : render_context) (ref : geometry_ref) (b : Nat) :
    (render_context_gl._remove_buffer_object c ref).1._buffer_objects b =
      if 0 ≤ ref.buffer ∧ ref.buffer < 2048 ∧ ref.buffer = (b : Int) then ⟨0, 0, none⟩
      else c._buffer_objects b := by
  unfold render_context_gl._remove_buffer_object
  by_cases hr : ref.buffer < 0 ∨ ref.buffer ≥ (MAX_BUFFER_OBJECT : Nat)
  · have : ¬ (0 ≤ ref.buffer ∧ ref.buffer < 2048 ∧ ref.buffer = (b : Int)) := by
      simp only [MAX_BUFFER_OBJECT] at hr; omega
    simp only [hr, if_true, this, if_false]
  · simp only [hr, if_false]
    by_cases e : ref.buffer = (b : Int)
    · have h2 : 0 ≤ ref.buffer ∧ ref.buffer < 2048 ∧ ref.buffer = (b : Int) := by
        simp only [MAX_BUFFER_OBJECT] at hr; omega
      rw [if_pos h2, e, Int.toNat_ofNat, Function.update_same]
    · have h2 : ¬ (0 ≤ ref.buffer ∧ ref.buffer < 2048 ∧ ref.buffer = (b : Int)) :=
        fun h => e h.2.2
      have h3 : b ≠ ref.buffer.toNat := by
        intro e2; apply e; rw [e2, Int.toNat_of_nonneg (by omega)]
      rw [if_neg h2, Function.update_noteq h3]

/-- C10: for an allocated geometry `h`, in either backend: with a stream still
locked `remove_geometry(h)` fails the assertion and the context is as before;
with no stream locked (`locked` is a mask of the two stream bits, so it lies in
0..3) it returns, the geometry slot is free (`mode` 0), each
buffer slot that `h` refers to (handle in `[0, 2048)`) has size 0, type 0 and
no CPU memory, and every other geometry slot and every buffer slot that `h`
does not refer to is unchanged. -/
theorem remove_geometry_locked_or_free (c : render_context) (handle : Int)
    (h0 : 0 ≤ handle) (h1 : handle < 1024)
    (hmode : (c._geometry_handles handle.toNat).mode ≠ 0) :
    (((c._geometry_handles handle.toNat).locked.land GEOMETRY_VERTEX ≠ 0 ∨
        (c._geometry_handles handle.toNat).locked.land GEOMETRY_INDEX ≠ 0) →
      render_context_gl.remove_geometry c handle = (outcome.assertion_failed, c)) ∧
    ((c._geometry_handles handle.toNat).locked.land GEOMETRY_VERTEX = 0 →
      (c._geometry_handles handle.toNat).locked.land GEOMETRY_INDEX = 0 →
      0 ≤ (c._geometry_handles handle.toNat).locked →
      (c._geometry_handles handle.toNat).locked < 4 →
      (render_context_gl.remove_geometry c handle).1 = outcome.ok ∧
      ((render_context_gl.remove_geometry c handle).2._geometry_handles handle.toNat).mode = 0 ∧
      (∀ b : Nat, b < MAX_BUFFER_OBJECT →
        ((c._geometry_handles handle.toNat).vertex.buffer = (b : Int) ∨
          (c._geometry_handles handle.toNat).index.buffer = (b : Int)) →
        (render_context_gl.remove_geometry c handle).2._buffer_objects b = ⟨0, 0, none⟩) ∧
      (∀ j : Nat, j ≠ handle.toNat →
        (render_context_gl.remove_geometry c handle).2._geometry_handles j =
          c._geometry_handles j) ∧
      (∀ b : Nat, (c._geometry_handles handle.toNat).vertex.buffer ≠ (b : Int) →
        (c._geometry_handles handle.toNat).index.buffer ≠ (b : Int) →
        (render_context_gl.remove_geometry c handle).2._buffer_objects b =
          c._buffer_objects b)) ∧
    render_context_metal.remove_geometry c handle = render_context_gl.remove_geometry c handle := by
  have hr : ¬ (handle < 0 ∨ handle ≥ (MAX_GEOMETRY : Nat)) := by
    simp only [MAX_GEOMETRY]; omega
  refine ⟨fun hl => ?_, fun hv hi a1 a2 => ?_, by rw [metal_remove_geometry_eq]⟩
  · have hne : ¬ (c._geometry_handles handle.toNat).locked = 0 := by
      intro e
      rw [e] at hl
      rcases hl with hl | hl <;> exact hl (by decide)
    simp only [render_context_gl.remove_geometry, hr, hmode, hne, not_false_eq_true, if_false,
      if_true]
  · have hz : (c._geometry_handles handle.toNat).locked = 0 := by
      generalize (c._geometry_handles handle.toNat).locked = l at hv hi a1 a2
      interval_cases l
      · rfl
      · exact absurd hv (by decide)
      · exact absurd hi (by decide)
      · exact absurd hv (by decide)
    simp only [render_context_gl.remove_geometry, hr, hmode, hz, not_true_eq_false, if_false,
      Function.update_same, true_and]
    refine ⟨fun b hb hor => ?_, fun j hj => ?_, fun b hb1 hb2 => ?_⟩
    · rw [remove_buffer_object_slot, remove_buffer_object_slot]
      simp only [MAX_BUFFER_OBJECT] at hb
      by_cases e2 : (c._geometry_handles handle.toNat).index.buffer = (b : Int)
      · have : 0 ≤ (c._geometry_handles handle.toNat).index.buffer ∧
            (c._geometry_handles handle.toNat).index.buffer < 2048 ∧
            (c._geometry_handles handle.toNat).index.buffer = (b : Int) := by omega
        rw [if_pos this]
      · have e1 : (c._geometry_handles handle.toNat).vertex.buffer = (b : Int) := by
          rcases hor with h | h
          · exact h
          · exact absurd h e2
        have : 0 ≤ (c._geometry_handles handle.toNat).vertex.buffer ∧
            (c._geometry_handles handle.toNat).vertex.buffer < 2048 ∧
            (c._geometry_handles handle.toNat).vertex.buffer = (b : Int) := by omega
        rw [if_pos this, ite_self]
    · simp only [Function.update_noteq hj]
    · rw [remove_buffer_object_slot, remove_buffer_object_slot]
      have a1 : ¬ (0 ≤ (c._geometry_handles handle.toNat).vertex.buffer ∧
          (c._geometry_handles handle.toNat).vertex.buffer < 2048 ∧
          (c._geometry_handles handle.toNat).vertex.buffer = (b : Int)) := fun h => hb1 h.2.2
      have a2 : ¬ (0 ≤ (c._geometry_handles handle.toNat).index.buffer ∧
          (c._geometry_handles handle.toNat).index.buffer < 2048 ∧
          (c._geometry_handles handle.toNat).index.buffer = (b : Int)) := fun h => hb2 h.2.2
      rw [if_neg a2, if_neg a1]

theorem remove_geometry_locked_or_free_witness :
    render_context_gl.remove_geometry
        (render_context_gl.geometry_begin
          (render_context_gl.add_geometry render_context.blank.init 1).2
          0 4 6 (some none) (some none) 3).context 0 =
      (outcome.assertion_failed,
        (render_context_gl.geometry_begin
          (render_context_gl.add_geometry render_context.blank.init 1).2
          0 4 6 (some none) (some none) 3).context) ∧
    (render_context_gl.remove_geometry
        (render_context_gl.geometry_end
          (render_context_gl.geometry_begin
            (render_context_gl.add_geometry render_context.blank.init 1).2
            0 4 6 (some none) (some none) 3).context 0) 0).1 = outcome.ok :=
  ⟨(remove_geometry_locked_or_free
      (render_context_gl.geometry_begin
        (render_context_gl.add_geometry render_context.blank.init 1).2
        0 4 6 (some none) (some none) 3).context 0
      (by decide) (by decide) (by decide)).1 (by decide),
    ((remove_geometry_locked_or_free
      (render_context_gl.geometry_end
        (render_context_gl.geometry_begin
          (render_context_gl.add_geometry render_context.blank.init 1).2
          0 4 6 (some none) (some none) 3).context 0) 0
      (by decide) (by decide) (by decide!)).2.1 (by decide!) (by decide!) (by decide!)
      (by decide!)).1⟩

/-! ## Removing through a handle that names nothing -/

theorem gl_remove_texture_free (c : render_context) (h : Int)
    (hf : h < 0 ∨ h ≥ MAX_TEXTURE ∨ (c._textures h.toNat).flags = 0) :
    render_context_gl.remove_texture c h = c := by
  unfold render_context_gl.remove_texture
  by_cases hr : h < 0 ∨ h ≥ (MAX_TEXTURE : Int)
  · rw [if_pos hr]
  · rw [if_neg hr]
    have hz : (c._textures h.toNat).flags = 0 := by tauto
    simp [hz]

theorem gl_remove_geometry_free (c : render_context) (h : Int)
    (hf : h < 0 ∨ h ≥ MAX_GEOMETRY ∨ (c._geometry_handles h.toNat).mode = 0) :
    render_context_gl.remove_geometry c h = (.ok, c) := by
  unfold render_context_gl.remove_geometry
  by_cases hr : h < 0 ∨ h ≥ (MAX_GEOMETRY : Int)
  · rw [if_pos hr]
  · rw [if_neg hr]
    have hz : (c._geometry_handles h.toNat).mode = 0 := by tauto
    simp [hz]

theorem gl_remove_buffer_object_free (c : render_context) (h : Int)
    (hf : h < 0 ∨ h ≥ MAX_BUFFER_OBJECT ∨ c._buffer_objects h.toNat = ⟨0, 0, none⟩) :
    render_context_gl.remove_buffer_object c h = c := by
  unfold render_context_gl.remove_buffer_object
  by_cases hr : h < 0 ∨ h ≥ (MAX_BUFFER_OBJECT : Int)
  · rw [if_pos hr]
  · rw [if_neg hr]
    have hz : c._buffer_objects h.toNat = ⟨0, 0, none⟩ := by tauto
    have hu : Function.update c._buffer_objects h.toNat
        { c._buffer_objects h.toNat with size := 0, raw := none, type := 0 } =
        c._buffer_objects := by
      rw [hz]
      exact hz ▸ Function.update_eq_self h.toNat c._buffer_objects
    simp only [hu]

theorem gl_remove_shader_free (c : render_context) (h : Int)
    (hf : h < 0 ∨ h ≥ MAX_SHADER ∨ (c._shaders h.toNat).type = 0) :
    render_context_gl.remove_shader c h = c := by
  unfold render_context_gl.remove_shader
  by_cases hr : h < 0 ∨ h ≥ (MAX_SHADER : Int)
  · rw [if_pos hr]
  · rw [if_neg hr]
    have hz : (c._shaders h.toNat).type = 0 := by tauto
    simp [hz]

theorem gl_remove_program_free (c : render_context) (h : Int)
    (hf : h < 0 ∨ h ≥ MAX_SHADER_PROGRAM ∨ (c._shader_programs h.toNat).linked = 0) :
    render_context_gl.remove_program c h = c := by
  unfold render_context_gl.remove_program
  by_cases hr : h < 0 ∨ h ≥ (MAX_SHADER_PROGRAM : Int)
  · rw [if_pos hr]
  · rw [if_neg hr]
    have hz : (c._shader_programs h.toNat).linked = 0 := by tauto
    simp [hz]

theorem gl_remove_render_buffer_free (c : render_context) (h : Int)
    (hf : h < 0 ∨ h ≥ MAX_RENDERBUFFER ∨ (c._render_buffers h.toNat).type = 0) :
    render_context_gl.remove_render_buffer c h = c := by
  unfold render_context_gl.remove_render_buffer
  by_cases hr : h < 0 ∨ h ≥ (MAX_RENDERBUFFER : Int)
  · rw [if_pos hr]
  · rw [if_neg hr]
    have hz : (c._render_buffers h.toNat).type = 0 := by tauto
    simp [hz]

theorem gl_remove_frame_buffer_free (c : render_context) (h : Int)
    (hf : h < 0 ∨ h ≥ MAX_FRAMEBUFFER ∨ (c._frame_buffers h.toNat).texture_handle < 0) :
    render_context_gl.remove_frame_buffer c h = c := by
  unfold render_context_gl.remove_frame_buffer
  by_cases hr : h < 0 ∨ h ≥ (MAX_FRAMEBUFFER : Int)
  · rw [if_pos hr]
  · rw [if_neg hr]
    have hz : (c._frame_buffers h.toNat).texture_handle < 0 := by tauto
    simp [hz]

theorem remove_uniform_free (c : render_context) (h : Int)
    (hf : h < 0 ∨ h ≥ MAX_UNIFORMS ∨ (c._uniforms h.toNat).num = 0) :
    render_context.remove_uniform c h = c := by
  unfold render_context.remove_uniform
  by_cases hr : h < 0 ∨ h ≥ (MAX_UNIFORMS : Int)
  · rw [if_pos hr]
  · rw [if_neg hr]
    have hz : (c._uniforms h.toNat).num = 0 := by tauto
    simp [hz]

theorem gl_remove_query_free (c : render_context) (h : Int)
    (hf : h < 0 ∨ h ≥ MAX_QUERIES ∨ (c._queries h.toNat).mode = 0) :
    render_context_gl.remove_query c h = c := by
  unfold render_context_gl.remove_query
  by_cases hr : h < 0 ∨ h ≥ (MAX_QUERIES : Int)
  · rw [if_pos hr]
  · rw [if_neg hr]
    have hz : (c._queries h.toNat).mode = 0 := by tauto
    simp [hz]

theorem gl_remove_texture_twice (c : render_context) (h : Int) :
    render_context_gl.remove_texture (render_context_gl.remove_texture c h) h =
      render_context_gl.remove_texture c h := by
  apply gl_remove_texture_free
  by_cases hr : h < 0 ∨ h ≥ (MAX_TEXTURE : Int)
  · tauto
  · right; right
    unfold render_context_gl.remove_texture
    rw [if_neg hr]
    by_cases hz : (c._textures h.toNat).flags = 0
    · simp [hz]
    · simp [hz]

theorem gl_remove_geometry_twice (c : render_context) (h : Int) :
    render_context_gl.remove_geometry (render_context_gl.remove_geometry c h).2 h =
      render_context_gl.remove_geometry c h := by
  by_cases hr : h < 0 ∨ h ≥ (MAX_GEOMETRY : Int)
  · have e := gl_remove_geometry_free c h (by tauto)
    rw [e]
    exact e
  · by_cases hz : (c._geometry_handles h.toNat).mode = 0
    · have e := gl_remove_geometry_free c h (by tauto)
      rw [e]
      exact e
    · by_cases hl : (c._geometry_handles h.toNat).locked = 0
      · have e : (render_context_gl.remove_geometry c h).1 = .ok ∧
            ((render_context_gl.remove_geometry c h).2._geometry_handles h.toNat).mode = 0 := by
          unfold render_context_gl.remove_geometry
          simp [hr, hz, hl]
        have e2 := gl_remove_geometry_free (render_context_gl.remove_geometry c h).2 h
          (by right; right; exact e.2)
        rw [e2]
        exact Prod.ext e.1.symm rfl
      · have e : render_context_gl.remove_geometry c h = (.assertion_failed, c) := by
          unfold render_context_gl.remove_geometry
          simp [hr, hz, hl]
        rw [e]
        exact e

theorem gl_remove_buffer_object_twice (c : render_context) (h : Int) :
    render_context_gl.remove_buffer_object (render_context_gl.remove_buffer_object c h) h =
      render_context_gl.remove_buffer_object c h := by
  apply gl_remove_buffer_object_free
  by_cases hr : h < 0 ∨ h ≥ (MAX_BUFFER_OBJECT : Int)
  · tauto
  · right; right
    unfold render_context_gl.remove_buffer_object
    rw [if_neg hr]
    simp

theorem gl_remove_shader_twice (c : render_context) (h : Int) :
    render_context_gl.remove_shader (render_context_gl.remove_shader c h) h =
      render_context_gl.remove_shader c h := by
  apply gl_remove_shader_free
  by_cases hr : h < 0 ∨ h ≥ (MAX_SHADER : Int)
  · tauto
  · right; right
    unfold render_context_gl.remove_shader
    rw [if_neg hr]
    by_cases hz : (c._shaders h.toNat).type = 0
    · simp [hz]
    · simp [hz]

theorem gl_remove_program_twice (c : render_context) (h : Int) :
    render_context_gl.remove_program (render_context_gl.remove_program c h) h =
      render_context_gl.remove_program c h := by
  apply gl_remove_program_free
  by_cases hr : h < 0 ∨ h ≥ (MAX_SHADER_PROGRAM : Int)
  · tauto
  · right; right
    unfold render_context_gl.remove_program
    rw [if_neg hr]
    by_cases hz : (c._shader_programs h.toNat).linked = 0
    · simp [hz]
    · simp [hz]

theorem gl_remove_render_buffer_twice (c : render_context) (h : Int) :
    render_context_gl.remove_render_buffer (render_context_gl.remove_render_buffer c h) h =
      render_context_gl.remove_render_buffer c h := by
  apply gl_remove_render_buffer_free
  by_cases hr : h < 0 ∨ h ≥ (MAX_RENDERBUFFER : Int)
  · tauto
  · right; right
    unfold render_context_gl.remove_render_buffer
    rw [if_neg hr]
    by_cases hz : (c._render_buffers h.toNat).type = 0
    · simp [hz]
    · simp [hz]

theorem gl_remove_frame_buffer_twice (c : render_context) (h : Int) :
    render_context_gl.remove_frame_buffer (render_context_gl.remove_frame_buffer c h) h =
      render_context_gl.remove_frame_buffer c h := by
  apply gl_remove_frame_buffer_free
  by_cases hr : h < 0 ∨ h ≥ (MAX_FRAMEBUFFER : Int)
  · tauto
  · right; right
    unfold render_context_gl.remove_frame_buffer
    rw [if_neg hr]
    by_cases hz : (c._frame_buffers h.toNat).texture_handle < 0
    · simp [hz]
    · simp [hz]

theorem remove_uniform_twice (c : render_context) (h : Int) :
    render_context.remove_uniform (render_context.remove_uniform c h) h =
      render_context.remove_uniform c h := by
  apply remove_uniform_free
  by_cases hr : h < 0 ∨ h ≥ (MAX_UNIFORMS : Int)
  · tauto
  · right; right
    unfold render_context.remove_uniform
    rw [if_neg hr]
    by_cases hz : (c._uniforms h.toNat).num = 0
    · simp [hz]
    · simp [hz]

theorem gl_remove_query_twice (c : render_context) (h : Int) :
    render_context_gl.remove_query (render_context_gl.remove_query c h) h =
      render_context_gl.remove_query c h := by
  apply gl_remove_query_free
  by_cases hr : h < 0 ∨ h ≥ (MAX_QUERIES : Int)
  · tauto
  · right; right
    unfold render_context_gl.remove_query
    rw [if_neg hr]
    by_cases hz : (c._queries h.toNat).mode = 0
    · simp [hz]
    · simp [hz]

/-- C11, on the code: after `init`, `add_geometry(1)` (handle 0) and
`geometry_begin(0, 0, 0, .., GEOMETRY_VERTEX)` buffer slot 0 has `size == 0`,
which is the sentinel the allocators test for a free slot, but type
`GEOMETRY_VERTEX` and CPU memory; `remove_buffer_object(0)` on that free slot
writes its type and its memory pointer, so the buffer table changes. -/
theorem remove_buffer_object_free_slot_written :
    ((render_context_gl.geometry_begin
        (render_context_gl.add_geometry render_context.blank.init 1).2
        0 0 0 (some none) (some none) GEOMETRY_VERTEX).context._buffer_objects 0).size = 0 ∧
    (render_context_gl.geometry_begin
        (render_context_gl.add_geometry render_context.blank.init 1).2
        0 0 0 (some none) (some none) GEOMETRY_VERTEX).context._buffer_objects 0 =
      ⟨GEOMETRY_VERTEX, 0, some []⟩ ∧
    (render_context_gl.remove_buffer_object
      (render_context_gl.geometry_begin
        (render_context_gl.add_geometry render_context.blank.init 1).2
        0 0 0 (some none) (some none) GEOMETRY_VERTEX).context 0)._buffer_objects 0 =
      ⟨0, 0, none⟩ ∧
    (render_context_gl.remove_buffer_object
      (render_context_gl.geometry_begin
        (render_context_gl.add_geometry render_context.blank.init 1).2
        0 0 0 (some none) (some none) GEOMETRY_VERTEX).context 0)._buffer_objects 0 ≠
    (render_context_gl.geometry_begin
        (render_context_gl.add_geometry render_context.blank.init 1).2
        0 0 0 (some none) (some none) GEOMETRY_VERTEX).context._buffer_objects 0 := by
  decide

/-- On the slots as `init` and the remove operations leave them: in the
direct-state backend every remove operation called with a handle that is out of range, or whose slot is free and as `init` and the remove
operation leave a free slot (for a buffer object: size 0, type 0 and no CPU
memory; for a program: the three shader handles negative and `linked` 0), returns
the context it was given, every table unchanged; the range check comes before
the slot is looked at.  Every remove operation is idempotent, whatever the handle
and the state. -/
theorem remove_free_handle_unchanged (c : render_context) (h : Int) :
    ((h < 0 ∨ h ≥ MAX_TEXTURE ∨ (c._textures h.toNat).flags = 0) →
      render_context_gl.remove_texture c h = c) ∧
    ((h < 0 ∨ h ≥ MAX_GEOMETRY ∨ (c._geometry_handles h.toNat).mode = 0) →
      render_context_gl.remove_geometry c h = (.ok, c)) ∧
    ((h < 0 ∨ h ≥ MAX_BUFFER_OBJECT ∨
        ((c._buffer_objects h.toNat).size = 0 ∧ (c._buffer_objects h.toNat).type = 0 ∧
          (c._buffer_objects h.toNat).raw = none)) →
      render_context_gl.remove_buffer_object c h = c) ∧
    ((h < 0 ∨ h ≥ MAX_SHADER ∨ (c._shaders h.toNat).type = 0) →
      render_context_gl.remove_shader c h = c) ∧
    ((h < 0 ∨ h ≥ MAX_SHADER_PROGRAM ∨
        ((c._shader_programs h.toNat).vertex_shader_handle < 0 ∧
          (c._shader_programs h.toNat).fragment_shader_handle < 0 ∧
          (c._shader_programs h.toNat).compute_shader_handle < 0 ∧
          (c._shader_programs h.toNat).linked = 0)) →
      render_context_gl.remove_program c h = c) ∧
    ((h < 0 ∨ h ≥ MAX_RENDERBUFFER ∨ (c._render_buffers h.toNat).type = 0) →
      render_context_gl.remove_render_buffer c h = c) ∧
    ((h < 0 ∨ h ≥ MAX_FRAMEBUFFER ∨ (c._frame_buffers h.toNat).texture_handle < 0) →
      render_context_gl.remove_frame_buffer c h = c) ∧
    ((h < 0 ∨ h ≥ MAX_UNIFORMS ∨ (c._uniforms h.toNat).num = 0) →
      render_context.remove_uniform c h = c) ∧
    ((h < 0 ∨ h ≥ MAX_QUERIES ∨ (c._queries h.toNat).mode = 0) →
      render_context_gl.remove_query c h = c) ∧
    render_context_gl.remove_texture (render_context_gl.remove_texture c h) h =
      render_context_gl.remove_texture c h ∧
    render_context_gl.remove_geometry (render_context_gl.remove_geometry c h).2 h =
      render_context_gl.remove_geometry c h ∧
    render_context_gl.remove_buffer_object (render_context_gl.remove_buffer_object c h) h =
      render_context_gl.remove_buffer_object c h ∧
    render_context_gl.remove_shader (render_context_gl.remove_shader c h) h =
      render_context_gl.remove_shader c h ∧
    render_context_gl.remove_program (render_context_gl.remove_program c h) h =
      render_context_gl.remove_program c h ∧
    render_context_gl.remove_render_buffer (render_context_gl.remove_render_buffer c h) h =
      render_context_gl.remove_render_buffer c h ∧
    render_context_gl.remove_frame_buffer (render_context_gl.remove_frame_buffer c h) h =
      render_context_gl.remove_frame_buffer c h ∧
    render_context.remove_uniform (render_context.remove_uniform c h) h =
      render_context.remove_uniform c h ∧
    render_context_gl.remove_query (render_context_gl.remove_query c h) h =
      render_context_gl.remove_query c h := by
  refine ⟨gl_remove_texture_free c h, gl_remove_geometry_free c h, ?_,
    gl_remove_shader_free c h, ?_, gl_remove_render_buffer_free c h,
    gl_remove_frame_buffer_free c h, remove_uniform_free c h, gl_remove_query_free c h,
    gl_remove_texture_twice c h, gl_remove_geometry_twice c h,
    gl_remove_buffer_object_twice c h, gl_remove_shader_twice c h,
    gl_remove_program_twice c h, gl_remove_render_buffer_twice c h,
    gl_remove_frame_buffer_twice c h, remove_uniform_twice c h, gl_remove_query_twice c h⟩
  · intro hf
    apply gl_remove_buffer_object_free
    rcases hf with hf | hf | ⟨h1, h2, h3⟩
    · exact Or.inl hf
    · exact Or.inr (Or.inl hf)
    · right; right
      cases hb : c._buffer_objects h.toNat with
      | mk t s r =>
        rw [hb] at h1 h2 h3
        simp only at h1 h2 h3
        rw [h1, h2, h3]
  · intro hf
    apply gl_remove_program_free
    rcases hf with hf | hf | ⟨_, _, _, h4⟩
    · exact Or.inl hf
    · exact Or.inr (Or.inl hf)
    · exact Or.inr (Or.inr h4)

/-- The removes at slot 5 of a context fresh from `init`, where every table
has that slot free, and at the out-of-range handle 4096. -/
theorem remove_free_handle_unchanged_witness :
    render_context_gl.remove_texture render_context.blank.init 5 = render_context.blank.init ∧
    render_context_gl.remove_geometry render_context.blank.init 5 =
      (.ok, render_context.blank.init) ∧
    render_context_gl.remove_buffer_object render_context.blank.init 5 =
      render_context.blank.init ∧
    render_context_gl.remove_shader render_context.blank.init 5 = render_context.blank.init ∧
    render_context_gl.remove_program render_context.blank.init 5 = render_context.blank.init ∧
    render_context_gl.remove_render_buffer render_context.blank.init 5 =
      render_context.blank.init ∧
    render_context_gl.remove_frame_buffer render_context.blank.init 5 =
      render_context.blank.init ∧
    render_context.remove_uniform render_context.blank.init 5 = render_context.blank.init ∧
    render_context_gl.remove_query render_context.blank.init 5 = render_context.blank.init ∧
    render_context_gl.remove_buffer_object render_context.blank.init 4096 =
      render_context.blank.init :=
  ⟨(remove_free_handle_unchanged render_context.blank.init 5).1
      (Or.inr (Or.inr (by decide))),
    (remove_free_handle_unchanged render_context.blank.init 5).2.1
      (Or.inr (Or.inr (by decide))),
    (remove_free_handle_unchanged render_context.blank.init 5).2.2.1
      (Or.inr (Or.inr (by decide))),
    (remove_free_handle_unchanged render_context.blank.init 5).2.2.2.1
      (Or.inr (Or.inr (by decide))),
    (remove_free_handle_unchanged render_context.blank.init 5).2.2.2.2.1
      (Or.inr (Or.inr (by decide))),
    (remove_free_handle_unchanged render_context.blank.init 5).2.2.2.2.2.1
      (Or.inr (Or.inr (by decide))),
    (remove_free_handle_unchanged render_context.blank.init 5).2.2.2.2.2.2.1
      (Or.inr (Or.inr (by decide))),
    (remove_free_handle_unchanged render_context.blank.init 5).2.2.2.2.2.2.2.1
      (Or.inr (Or.inr (by decide))),
    (remove_free_handle_unchanged render_context.blank.init 5).2.2.2.2.2.2.2.2.1
      (Or.inr (Or.inr (by decide))),
    (remove_free_handle_unchanged render_context.blank.init 4096).2.2.1
      (Or.inr (Or.inl (by decide)))⟩

/-! ## Binding a uniform handle that names nothing -/

/-- C12, as stated, fails: `add_uniform("X", vec4, 1)` returns 551 and
`remove_uniform(551)` frees the slot, which keeps the type `vec4`.  With a linked
program and a blob of 4 bytes, `bind_uniform` on the free slot 551 pads the blob
to 16 bytes; on the out-of-range handle 2000 it leaves the 4 bytes. -/
theorem bind_uniform_free_slot_pads :
    (render_context.blank.init.add_uniform [88] .vec4 1).1 = 551 ∧
    (((render_context.blank.init.add_uniform [88] .vec4 1).2.remove_uniform 551)._uniforms
      551).num = 0 ∧
    (render_context_metal.bind_uniform
      (render_context_metal.with_linked_program
        ((render_context.blank.init.add_uniform [88] .vec4 1).2.remove_uniform 551)
        [1, 2, 3, 4]) 0 551)._raw_uniforms =
      [1, 2, 3, 4, 0, 0, 0, 0, 0, 0, 0, 0, 0, 0, 0, 0] ∧
    (render_context_metal.bind_uniform
      (render_context_metal.with_linked_program
        ((render_context.blank.init.add_uniform [88] .vec4 1).2.remove_uniform 551)
        [1, 2, 3, 4]) 0 2000)._raw_uniforms = [1, 2, 3, 4] := by
  decide

/-- C12, as the code has it: in the command-buffer backend `bind_uniform` with a
uniform handle out of range changes nothing.  With an in-range handle whose slot
is free (`num` 0 and `size` 0, as `init` and `remove_uniform` leave it) and a
linked program it copies no byte of the slot, but it first pads the blob `B` with
zero bytes to the alignment of the type the slot last had: the blob becomes
`B ++ zeros(p)` with `p` the least number making `|B| + p` a multiple of that
alignment, so it is unchanged exactly when `|B|` already is such a multiple; the
inherited tables are unchanged. -/
theorem bind_uniform_unused_handle (m : render_context_metal) (program uniform : Int) :
    ((uniform < 0 ∨ uniform ≥ MAX_UNIFORMS) →
      render_context_metal.bind_uniform m program uniform = m) ∧
    (0 ≤ uniform → uniform < MAX_UNIFORMS →
      (m._uniforms uniform.toNat).num = 0 → (m._uniforms uniform.toNat).size = 0 →
      0 ≤ program → program < MAX_SHADER_PROGRAM →
      (m._shader_programs program.toNat).linked ≠ 0 →
      (∃ p,
        (render_context_metal.bind_uniform m program uniform)._raw_uniforms =
          m._raw_uniforms ++ List.replicate p 0 ∧
        (m._raw_uniforms.length + p) %
          (uniform_type_to_alignment (m._uniforms uniform.toNat).uniform_type).align = 0 ∧
        ∀ j, j < p → (m._raw_uniforms.length + j) %
          (uniform_type_to_alignment (m._uniforms uniform.toNat).uniform_type).align ≠ 0) ∧
      ((render_context_metal.bind_uniform m program uniform)._raw_uniforms = m._raw_uniforms ↔
        m._raw_uniforms.length %
          (uniform_type_to_alignment (m._uniforms uniform.toNat).uniform_type).align = 0) ∧
      (render_context_metal.bind_uniform m program uniform).torender_context =
        m.torender_context) := by
  constructor
  · intro hu
    unfold render_context_metal.bind_uniform
    simp only [hu, if_true, ite_self]
  · intro hu0 hu1 hnum hsize hp0 hp1 hlinked
    have hpr : ¬ (program < 0 ∨ program ≥ (MAX_SHADER_PROGRAM : Nat)) := by omega
    have hur : ¬ (uniform < 0 ∨ uniform ≥ (MAX_UNIFORMS : Nat)) := by omega
    obtain ⟨p, -, hp2, hp3, hp4⟩ := pad_aligned
      (uniform_type_to_alignment (m._uniforms uniform.toNat).uniform_type).align
      (alignment_pos _) m._raw_uniforms
    have hblob : (render_context_metal.bind_uniform m program uniform)._raw_uniforms =
        m._raw_uniforms ++ List.replicate p 0 := by
      simp only [render_context_metal.bind_uniform, hpr, hur, hlinked, if_false, hp4, hnum,
        hsize]
      simp
    refine ⟨⟨p, hblob, hp2, hp3⟩, ?_, ?_⟩
    · rw [hblob]
      constructor
      · intro he
        have hl := congrArg List.length he
        simp only [List.length_append, List.length_replicate] at hl
        have : p = 0 := by omega
        simpa [this] using hp2
      · intro h0
        have : p = 0 := by
          by_contra hne
          exact hp3 0 (Nat.pos_of_ne_zero hne) (by simpa using h0)
        simp [this]
    · simp only [render_context_metal.bind_uniform, hpr, hur, hlinked, if_false]

/-- C12, as the code has it, on the free slot 551 of the example (type `vec4`
left behind, blob of 4 bytes) and on the out-of-range handle 2000. -/
theorem bind_uniform_unused_handle_witness :
    render_context_metal.bind_uniform
      (render_context_metal.with_linked_program
        ((render_context.blank.init.add_uniform [88] .vec4 1).2.remove_uniform 551)
        [1, 2, 3, 4]) 0 2000 =
      render_context_metal.with_linked_program
        ((render_context.blank.init.add_uniform [88] .vec4 1).2.remove_uniform 551)
        [1, 2, 3, 4] ∧
    ∃ p,
      (render_context_metal.bind_uniform
        (render_context_metal.with_linked_program
          ((render_context.blank.init.add_uniform [88] .vec4 1).2.remove_uniform 551)
          [1, 2, 3, 4]) 0 551)._raw_uniforms = [1, 2, 3, 4] ++ List.replicate p 0 ∧
      (4 + p) % 16 = 0 ∧ ∀ j, j < p → (4 + j) % 16 ≠ 0 :=
  ⟨(bind_uniform_unused_handle
      (render_context_metal.with_linked_program
        ((render_context.blank.init.add_uniform [88] .vec4 1).2.remove_uniform 551)
        [1, 2, 3, 4]) 0 2000).1 (Or.inr (by decide)),
    ((bind_uniform_unused_handle
      (render_context_metal.with_linked_program
        ((render_context.blank.init.add_uniform [88] .vec4 1).2.remove_uniform 551)
        [1, 2, 3, 4]) 0 551).2
      (by decide) (by decide) (by decide) (by decide) (by decide) (by decide) (by decide)).1⟩

/-! ## Shaders by name -/

/-- C13, on the code: after `init`, `add_shader(.., SHADER_VERTEX, "A")` returns 0
and `add_shader(.., SHADER_FRAGMENT, "B")` returns 1.  After `remove_shader(0)`
the shader "B" is still allocated at handle 1, yet
`add_shader(.., SHADER_FRAGMENT, "B")` returns 0: the loop reaches the free slot
0 before the slot that holds the name.  Then the slots 0 and 1 are both allocated
with the name "B". -/
theorem add_shader_duplicates_name :
    (render_context_gl.add_shader render_context.blank.init SHADER_VERTEX [65] 1).1 = 0 ∧
    (render_context_gl.add_shader
      (render_context_gl.add_shader render_context.blank.init SHADER_VERTEX [65] 1).2
      SHADER_FRAGMENT [66] 1).1 = 1 ∧
    ((render_context_gl.remove_shader
      (render_context_gl.add_shader
        (render_context_gl.add_shader render_context.blank.init SHADER_VERTEX [65] 1).2
        SHADER_FRAGMENT [66] 1).2 0)._shaders 1) = ⟨SHADER_FRAGMENT, 1, some [66]⟩ ∧
    (render_context_gl.add_shader
      (render_context_gl.remove_shader
        (render_context_gl.add_shader
          (render_context_gl.add_shader render_context.blank.init SHADER_VERTEX [65] 1).2
          SHADER_FRAGMENT [66] 1).2 0)
      SHADER_FRAGMENT [66] 1).1 = 0 ∧
    ((render_context_gl.add_shader
      (render_context_gl.remove_shader
        (render_context_gl.add_shader
          (render_context_gl.add_shader render_context.blank.init SHADER_VERTEX [65] 1).2
          SHADER_FRAGMENT [66] 1).2 0)
      SHADER_FRAGMENT [66] 1).2._shaders 0) = ⟨SHADER_FRAGMENT, 1, some [66]⟩ ∧
    ((render_context_gl.add_shader
      (render_context_gl.remove_shader
        (render_context_gl.add_shader
          (render_context_gl.add_shader render_context.blank.init SHADER_VERTEX [65] 1).2
          SHADER_FRAGMENT [66] 1).2 0)
      SHADER_FRAGMENT [66] 1).2._shaders 1) = ⟨SHADER_FRAGMENT, 1, some [66]⟩ := by
  decide

theorem metal_add_shader_at (c : render_context) (type : Int) (name : List Nat) (k : Nat)
    (hty : ¬ (type < SHADER_VERTEX ∨ type > SHADER_COMPUTE))
    (hk : scan (fun i => (c._shaders i).type == 0) MAX_SHADER 0 = some k) :
    render_context_metal.add_shader c type name =
      ((k : Int), { c with
            _shaders := Function.update c._shaders k
              { c._shaders k with type := type, compiled := 1 } }) := by
  simp only [render_context_metal.add_shader, hty, if_false, hk]

theorem metal_add_shader_full (c : render_context) (type : Int) (name : List Nat)
    (hk : scan (fun i => (c._shaders i).type == 0) MAX_SHADER 0 = none) :
    render_context_metal.add_shader c type name = (-1, c) := by
  unfold render_context_metal.add_shader
  split_ifs
  · rfl
  · rw [hk]

/-- C14, as stated, fails: in the command-buffer backend, after `init`, two
successive `add_shader` calls with the name "A" and the type `SHADER_VERTEX`
return the handles 0 and 1, and both slots are allocated; neither holds a
name. -/
theorem metal_add_shader_twice_distinct :
    (render_context_metal.add_shader render_context.blank.init SHADER_VERTEX [65]).1 = 0 ∧
    (render_context_metal.add_shader
      (render_context_metal.add_shader render_context.blank.init SHADER_VERTEX [65]).2
      SHADER_VERTEX [65]).1 = 1 ∧
    ((render_context_metal.add_shader
      (render_context_metal.add_shader render_context.blank.init SHADER_VERTEX [65]).2
      SHADER_VERTEX [65]).2._shaders 0) = ⟨SHADER_VERTEX, 1, none⟩ ∧
    ((render_context_metal.add_shader
      (render_context_metal.add_shader render_context.blank.init SHADER_VERTEX [65]).2
      SHADER_VERTEX [65]).2._shaders 1) = ⟨SHADER_VERTEX, 1, none⟩ := by
  decide

/-- C14, as the code has it: in the command-buffer backend `add_shader` with a
valid type neither stores nor compares the name, so its result does not depend
on it; each call takes the lowest free shader slot.  Two successive calls with
the same name and type therefore never return the same handle: when the first
returns `h >= 0`, the second returns -1 (table full) or a handle greater than
`h`, and then both slots are allocated. -/
theorem metal_add_shader_ignores_name (c : render_context) (type : Int) (n1 n2 : List Nat)
    (hty1 : SHADER_VERTEX ≤ type) (hty2 : type ≤ SHADER_COMPUTE)
    (h0 : 0 ≤ (render_context_metal.add_shader c type n1).1) :
    render_context_metal.add_shader c type n1 = render_context_metal.add_shader c type n2 ∧
    ((render_context_metal.add_shader c type n1).2._shaders
      (render_context_metal.add_shader c type n1).1.toNat).type = type ∧
    (render_context_metal.add_shader
      (render_context_metal.add_shader c type n1).2 type n1).1 ≠
      (render_context_metal.add_shader c type n1).1 ∧
    ((render_context_metal.add_shader
        (render_context_metal.add_shader c type n1).2 type n1).1 = -1 ∨
      ((render_context_metal.add_shader c type n1).1 <
          (render_context_metal.add_shader
            (render_context_metal.add_shader c type n1).2 type n1).1 ∧
        (render_context_metal.add_shader
          (render_context_metal.add_shader c type n1).2 type n1).1 < MAX_SHADER ∧
        ((render_context_metal.add_shader
            (render_context_metal.add_shader c type n1).2 type n1).2._shaders
          (render_context_metal.add_shader c type n1).1.toNat).type = type ∧
        ((render_context_metal.add_shader
            (render_context_metal.add_shader c type n1).2 type n1).2._shaders
          (render_context_metal.add_shader
            (render_context_metal.add_shader c type n1).2 type n1).1.toNat).type = type)) := by
  have hty : ¬ (type < SHADER_VERTEX ∨ type > SHADER_COMPUTE) := by omega
  have htz : type ≠ 0 := by
    have : SHADER_VERTEX = 1 := rfl
    omega
  refine ⟨rfl, ?_⟩
  cases hs : scan (fun i => (c._shaders i).type == 0) MAX_SHADER 0 with
  | none =>
    rw [metal_add_shader_full c type n1 hs] at h0
    exact absurd h0 (show ¬ (0 : Int) ≤ -1 by decide)
  | some i =>
    obtain ⟨-, hi2, hi3, hi4⟩ := scan_some hs
    rw [metal_add_shader_at c type n1 i hty hs]
    dsimp only
    rw [Int.toNat_ofNat, Function.update_same]
    refine ⟨rfl, ?_⟩
    cases hs2 : scan (fun j => ((Function.update c._shaders i
        { c._shaders i with type := type, compiled := 1 }) j).type == 0) MAX_SHADER 0 with
    | none =>
      rw [metal_add_shader_full _ type n1 hs2]
      exact ⟨by dsimp only; omega, Or.inl rfl⟩
    | some k =>
      obtain ⟨-, hk2, hk3, hk4⟩ := scan_some hs2
      rw [metal_add_shader_at _ type n1 k hty hs2]
      dsimp only
      have hne : k ≠ i := by
        intro e
        rw [e, Function.update_same] at hk3
        simp [htz] at hk3
      have hlt : i < k := by
        by_contra hge
        have hki : k < i := by omega
        have := hi4 k (Nat.zero_le k) hki
        rw [Function.update_noteq hne] at hk3
        rw [hk3] at this
        exact absurd this (by decide)
      refine ⟨by omega, Or.inr ⟨by omega, by simpa using hk2, ?_, ?_⟩⟩
      · rw [Function.update_noteq (Ne.symm hne), Function.update_same]
      · rw [Int.toNat_ofNat, Function.update_same]

/-- C14, as the code has it, on a context fresh from `init`: the two calls return
0 and 1. -/
theorem metal_add_shader_ignores_name_witness :
    render_context_metal.add_shader render_context.blank.init SHADER_VERTEX [65] =
      render_context_metal.add_shader render_context.blank.init SHADER_VERTEX [66] ∧
    (render_context_metal.add_shader
      (render_context_metal.add_shader render_context.blank.init SHADER_VERTEX [65]).2
      SHADER_VERTEX [65]).1 ≠
      (render_context_metal.add_shader render_context.blank.init SHADER_VERTEX [65]).1 :=
  ⟨(metal_add_shader_ignores_name render_context.blank.init SHADER_VERTEX [65] [66]
      (by decide) (by decide) (by decide)).1,
    (metal_add_shader_ignores_name render_context.blank.init SHADER_VERTEX [65] [66]
      (by decide) (by decide) (by decide)).2.2.1⟩

/-! ## Programs -/

/-- C15, on the code: after `init` and four `add_shader` calls that compile
(handles 0 to 3), `add_program(0, 1, -1)` returns 0 and `add_program(2, 3, -1)`
returns 1, both linked.  After `remove_program(0)` the triple `(2, 3, -1)` is
still allocated at handle 1, yet `add_program(2, 3, -1)` returns 0: the loop
reaches the free slot 0 before the slot that carries the triple.  Then the slots
0 and 1 both carry `(2, 3, -1)`. -/
theorem add_program_duplicates_triple :
    (render_context_gl.add_program
      (render_context_gl.add_shader (render_context_gl.add_shader
        (render_context_gl.add_shader (render_context_gl.add_shader
          render_context.blank.init SHADER_VERTEX [65] 1).2 SHADER_FRAGMENT [66] 1).2
        SHADER_VERTEX [67] 1).2 SHADER_FRAGMENT [68] 1).2 0 1 (-1) 1).handle = 0 ∧
    (render_context_gl.add_program
      (render_context_gl.add_program
        (render_context_gl.add_shader (render_context_gl.add_shader
          (render_context_gl.add_shader (render_context_gl.add_shader
            render_context.blank.init SHADER_VERTEX [65] 1).2 SHADER_FRAGMENT [66] 1).2
          SHADER_VERTEX [67] 1).2 SHADER_FRAGMENT [68] 1).2 0 1 (-1) 1).context
      2 3 (-1) 1).handle = 1 ∧
    ((render_context_gl.remove_program
      (render_context_gl.add_program
        (render_context_gl.add_program
          (render_context_gl.add_shader (render_context_gl.add_shader
            (render_context_gl.add_shader (render_context_gl.add_shader
              render_context.blank.init SHADER_VERTEX [65] 1).2 SHADER_FRAGMENT [66] 1).2
            SHADER_VERTEX [67] 1).2 SHADER_FRAGMENT [68] 1).2 0 1 (-1) 1).context
        2 3 (-1) 1).context 0)._shader_programs 1) = ⟨2, 3, -1, 1⟩ ∧
    (render_context_gl.add_program
      (render_context_gl.remove_program
        (render_context_gl.add_program
          (render_context_gl.add_program
            (render_context_gl.add_shader (render_context_gl.add_shader
              (render_context_gl.add_shader (render_context_gl.add_shader
                render_context.blank.init SHADER_VERTEX [65] 1).2 SHADER_FRAGMENT [66] 1).2
              SHADER_VERTEX [67] 1).2 SHADER_FRAGMENT [68] 1).2 0 1 (-1) 1).context
          2 3 (-1) 1).context 0)
      2 3 (-1) 1).handle = 0 ∧
    ((render_context_gl.add_program
      (render_context_gl.remove_program
        (render_context_gl.add_program
          (render_context_gl.add_program
            (render_context_gl.add_shader (render_context_gl.add_shader
              (render_context_gl.add_shader (render_context_gl.add_shader
                render_context.blank.init SHADER_VERTEX [65] 1).2 SHADER_FRAGMENT [66] 1).2
              SHADER_VERTEX [67] 1).2 SHADER_FRAGMENT [68] 1).2 0 1 (-1) 1).context
          2 3 (-1) 1).context 0)
      2 3 (-1) 1).context._shader_programs 0) = ⟨2, 3, -1, 1⟩ ∧
    ((render_context_gl.add_program
      (render_context_gl.remove_program
        (render_context_gl.add_program
          (render_context_gl.add_program
            (render_context_gl.add_shader (render_context_gl.add_shader
              (render_context_gl.add_shader (render_context_gl.add_shader
                render_context.blank.init SHADER_VERTEX [65] 1).2 SHADER_FRAGMENT [66] 1).2
              SHADER_VERTEX [67] 1).2 SHADER_FRAGMENT [68] 1).2 0 1 (-1) 1).context
          2 3 (-1) 1).context 0)
      2 3 (-1) 1).context._shader_programs 1) = ⟨2, 3, -1, 1⟩ := by
  decide

theorem gl_bind_unlinked (c : render_context) (p u : Int)
    (h : p < 0 ∨ p ≥ MAX_SHADER_PROGRAM ∨ (c._shader_programs p.toNat).linked = 0) :
    render_context_gl.bind_program c p = none ∧ render_context_gl.bind_uniform c p u = none := by
  unfold render_context_gl.bind_program render_context_gl.bind_uniform
  by_cases hr : p < 0 ∨ p ≥ (MAX_SHADER_PROGRAM : Int)
  · rw [if_pos hr, if_pos hr]
    exact ⟨rfl, rfl⟩
  · have hz : (c._shader_programs p.toNat).linked = 0 := by tauto
    rw [if_neg hr, if_neg hr, if_pos hz, if_pos hz]
    exact ⟨rfl, rfl⟩

/-- What `render_context_metal::remove_program` leaves in `linked`: after two
shaders (handles 0, 1) and `add_program(0, 1, -1)` (handle 0, linked),
`remove_program(0)` resets the vertex and the fragment handle only, so slot 0 is
free with `linked` 1; `add_program(2, 3, -1)` on shaders that are not compiled
then takes slot 0 and leaves `linked` at 1.  The direct-state `remove_program`
writes `linked = 0`. -/
theorem metal_remove_program_leaves_linked :
    (render_context_metal.remove_program
      (render_context_metal.add_program
        (render_context_metal.add_shaders render_context.blank.init
          [SHADER_VERTEX, SHADER_FRAGMENT]) 0 1 (-1)).context 0)._shader_programs 0 =
      ⟨-1, -1, -1, 1⟩ ∧
    (render_context_metal.add_program
      (render_context_metal.remove_program
        (render_context_metal.add_program
          (render_context_metal.add_shaders render_context.blank.init
            [SHADER_VERTEX, SHADER_FRAGMENT]) 0 1 (-1)).context 0)
      2 3 (-1)).handle = 0 ∧
    (render_context_metal.add_program
      (render_context_metal.remove_program
        (render_context_metal.add_program
          (render_context_metal.add_shaders render_context.blank.init
            [SHADER_VERTEX, SHADER_FRAGMENT]) 0 1 (-1)).context 0)
      2 3 (-1)).context._shader_programs 0 = ⟨2, 3, -1, 1⟩ ∧
    (render_context_gl.remove_program
      (render_context_metal.add_program
        (render_context_metal.add_shaders render_context.blank.init
          [SHADER_VERTEX, SHADER_FRAGMENT]) 0 1 (-1)).context 0)._shader_programs 0 =
      ⟨-1, -1, -1, 0⟩ := by
  decide

/-! ## Removing a program, and `destroy` -/

theorem for_each_frame {α : Type} (g : render_context → α)
    (f : render_context → Int → render_context) (hf : ∀ c i, g (f c i) = g c) :
    ∀ (n s : Nat) (c : render_context), g (for_each f n s c) = g c := by
  intro n
  induction n with
  | zero => intro s c; rfl
  | succ n ih =>
    intro s c
    rw [for_each, ih, hf]

theorem for_each_checked_frame {α : Type} (g : render_context → α)
    (f : render_context → Int → outcome × render_context) (hf : ∀ c i, g (f c i).2 = g c) :
    ∀ (n s : Nat) (c : render_context), g (for_each_checked f n s c).2 = g c := by
  intro n
  induction n with
  | zero => intro s c; rfl
  | succ n ih =>
    intro s c
    rw [for_each_checked]
    split_ifs
    · rw [ih, hf]
    · rw [hf]

theorem gl_remove_texture_programs (c : render_context) (h : Int) :
    (render_context_gl.remove_texture c h)._shader_programs = c._shader_programs := by
  unfold render_context_gl.remove_texture
  dsimp only
  split_ifs <;> rfl

theorem gl_remove_render_buffer_programs (c : render_context) (h : Int) :
    (render_context_gl.remove_render_buffer c h)._shader_programs = c._shader_programs := by
  unfold render_context_gl.remove_render_buffer
  dsimp only
  split_ifs <;> rfl

theorem gl_remove_geometry_programs (c : render_context) (h : Int) :
    (render_context_gl.remove_geometry c h).2._shader_programs = c._shader_programs := by
  unfold render_context_gl.remove_geometry render_context_gl._remove_buffer_object
  dsimp only
  split_ifs <;> rfl

theorem gl_remove_frame_buffer_programs (c : render_context) (h : Int) :
    (render_context_gl.remove_frame_buffer c h)._shader_programs = c._shader_programs := by
  unfold render_context_gl.remove_frame_buffer
  dsimp only
  split_ifs
  · rfl
  · rfl
  · dsimp only
    rw [gl_remove_render_buffer_programs, gl_remove_texture_programs]

theorem gl_remove_shader_programs (c : render_context) (h : Int) :
    (render_context_gl.remove_shader c h)._shader_programs = c._shader_programs := by
  unfold render_context_gl.remove_shader
  dsimp only
  split_ifs <;> rfl

theorem remove_uniform_programs (c : render_context) (h : Int) :
    (render_context.remove_uniform c h)._shader_programs = c._shader_programs := by
  unfold render_context.remove_uniform
  dsimp only
  split_ifs <;> rfl

theorem gl_remove_buffer_object_programs (c : render_context) (h : Int) :
    (render_context_gl.remove_buffer_object c h)._shader_programs = c._shader_programs := by
  unfold render_context_gl.remove_buffer_object
  dsimp only
  split_ifs <;> rfl

theorem gl_remove_query_programs (c : render_context) (h : Int) :
    (render_context_gl.remove_query c h)._shader_programs = c._shader_programs := by
  unfold render_context_gl.remove_query
  dsimp only
  split_ifs <;> rfl

theorem gl_remove_texture_geometry (c : render_context) (h : Int) :
    (render_context_gl.remove_texture c h)._geometry_handles = c._geometry_handles := by
  unfold render_context_gl.remove_texture
  dsimp only
  split_ifs <;> rfl

theorem gl_remove_program_slots (c : render_context) (i j : Nat) (hi : i < MAX_SHADER_PROGRAM) :
    (render_context_gl.remove_program c i)._shader_programs j =
      if j = i ∧ (c._shader_programs i).linked ≠ 0 then ⟨-1, -1, -1, 0⟩
      else c._shader_programs j := by
  have hr : ¬ ((i : Int) < 0 ∨ (i : Int) ≥ (MAX_SHADER_PROGRAM : Nat)) := by omega
  unfold render_context_gl.remove_program
  rw [if_neg hr]
  dsimp only
  rw [Int.toNat_ofNat]
  by_cases hl : (c._shader_programs i).linked = 0
  · rw [if_pos hl, if_neg (by tauto)]
  · rw [if_neg hl]
    dsimp only
    by_cases hj : j = i
    · rw [if_pos ⟨hj, hl⟩, hj, Function.update_same]
    · rw [if_neg (by tauto), Function.update_noteq hj]

theorem gl_remove_programs_loop : ∀ (n s : Nat) (c : render_context),
    s + n ≤ MAX_SHADER_PROGRAM → ∀ j,
    (for_each render_context_gl.remove_program n s c)._shader_programs j =
      if s ≤ j ∧ j < s + n ∧ (c._shader_programs j).linked ≠ 0 then ⟨-1, -1, -1, 0⟩
      else c._shader_programs j := by
  intro n
  induction n with
  | zero =>
    intro s c _ j
    rw [for_each, if_neg (by omega)]
  | succ n ih =>
    intro s c hle j
    rw [for_each, ih (s + 1) _ (by omega) j]
    have e := gl_remove_program_slots c s j (by omega)
    by_cases hj : j = s
    · rw [if_neg (by omega), e]
      by_cases hl : (c._shader_programs s).linked = 0
      · rw [if_neg (by tauto), if_neg (by rw [hj]; tauto)]
      · rw [if_pos ⟨hj, hl⟩, if_pos ⟨by omega, by omega, by rw [hj]; exact hl⟩]
    · have e2 : (render_context_gl.remove_program c s)._shader_programs j =
          c._shader_programs j := by
        rw [e, if_neg (by tauto)]
      rw [e2]
      by_cases hc : s ≤ j ∧ j < s + (n + 1) ∧ (c._shader_programs j).linked ≠ 0
      · rw [if_pos hc, if_pos ⟨by omega, by omega, hc.2.2⟩]
      · rw [if_neg hc, if_neg]
        intro h
        exact hc ⟨by omega, by omega, h.2.2⟩

theorem gl_remove_geometry_status (c : render_context) (h : Int)
    (hl : (c._geometry_handles h.toNat).mode ≠ 0 → (c._geometry_handles h.toNat).locked = 0) :
    (render_context_gl.remove_geometry c h).1 = .ok := by
  unfold render_context_gl.remove_geometry
  dsimp only
  by_cases h1 : h < 0 ∨ h ≥ (MAX_GEOMETRY : Int)
  · rw [if_pos h1]
  · rw [if_neg h1]
    by_cases h2 : (c._geometry_handles h.toNat).mode = 0
    · rw [if_pos h2]
    · rw [if_neg h2, if_neg (not_not.mpr (hl h2))]

theorem gl_remove_geometry_others (c : render_context) (h : Int) (j : Nat) (hj : j ≠ h.toNat) :
    (render_context_gl.remove_geometry c h).2._geometry_handles j = c._geometry_handles j := by
  unfold render_context_gl.remove_geometry
  dsimp only
  split_ifs
  all_goals first
    | rfl
    | (dsimp only; rw [Function.update_noteq hj])

theorem gl_remove_geometries_ok : ∀ (n s : Nat) (c : render_context),
    (∀ j, s ≤ j → j < s + n →
      (c._geometry_handles j).mode ≠ 0 → (c._geometry_handles j).locked = 0) →
    (for_each_checked render_context_gl.remove_geometry n s c).1 = .ok := by
  intro n
  induction n with
  | zero => intro s c _; rfl
  | succ n ih =>
    intro s c hl
    have h1 : (render_context_gl.remove_geometry c s).1 = .ok := by
      apply gl_remove_geometry_status
      rw [Int.toNat_ofNat]
      exact hl s (le_refl s) (by omega)
    rw [for_each_checked, if_pos h1]
    apply ih
    intro j hj1 hj2
    rw [gl_remove_geometry_others c s j (by rw [Int.toNat_ofNat]; omega)]
    exact hl j (by omega) (by omega)

theorem gl_destroy_run (c : render_context)
    (hl : ∀ i, i < MAX_GEOMETRY →
      (c._geometry_handles i).mode ≠ 0 → (c._geometry_handles i).locked = 0) :
    render_context_gl.destroy c =
      (.ok,
        { for_each render_context_gl.remove_query MAX_QUERIES 0
            (for_each render_context_gl.remove_buffer_object MAX_BUFFER_OBJECT 0
              (for_each render_context.remove_uniform MAX_UNIFORMS 0
                (for_each render_context_gl.remove_shader MAX_SHADER 0
                  (for_each render_context_gl.remove_program MAX_SHADER_PROGRAM 0
                    (for_each render_context_gl.remove_render_buffer MAX_RENDERBUFFER 0
                      (for_each render_context_gl.remove_frame_buffer MAX_FRAMEBUFFER 0
                        (for_each_checked render_context_gl.remove_geometry MAX_GEOMETRY 0
                          (for_each render_context_gl.remove_texture MAX_TEXTURE 0
                            c)).2)))))) with
          _initialized := false }) := by
  have hg : (for_each_checked render_context_gl.remove_geometry MAX_GEOMETRY 0
      (for_each render_context_gl.remove_texture MAX_TEXTURE 0 c)).1 = .ok := by
    apply gl_remove_geometries_ok
    intro j _ hj
    rw [for_each_frame (fun d => d._geometry_handles) _ gl_remove_texture_geometry]
    exact hl j (by rw [Nat.zero_add] at hj; exact hj)
  have hne : ¬ (for_each_checked render_context_gl.remove_geometry MAX_GEOMETRY 0
      (for_each render_context_gl.remove_texture MAX_TEXTURE 0 c)).1 ≠ .ok := by
    rw [hg]; exact fun h => h rfl
  unfold render_context_gl.destroy
  dsimp only
  rw [if_neg hne]

theorem initialized_programs (o : outcome) (d : render_context) :
    ((o, { d with _initialized := false }) : outcome × render_context).2._shader_programs =
      d._shader_programs := rfl

theorem gl_destroy_programs (c : render_context)
    (hl : ∀ i, i < MAX_GEOMETRY →
      (c._geometry_handles i).mode ≠ 0 → (c._geometry_handles i).locked = 0) :
    (render_context_gl.destroy c).1 = .ok ∧
    ∀ i, i < MAX_SHADER_PROGRAM →
      (render_context_gl.destroy c).2._shader_programs i =
        if (c._shader_programs i).linked = 0 then c._shader_programs i
        else ⟨-1, -1, -1, 0⟩ := by
  rw [gl_destroy_run c hl]
  refine ⟨rfl, ?_⟩
  intro i hi
  rw [initialized_programs,
    for_each_frame (fun d => d._shader_programs) _ gl_remove_query_programs,
    for_each_frame (fun d => d._shader_programs) _ gl_remove_buffer_object_programs,
    for_each_frame (fun d => d._shader_programs) _ remove_uniform_programs,
    for_each_frame (fun d => d._shader_programs) _ gl_remove_shader_programs,
    gl_remove_programs_loop MAX_SHADER_PROGRAM 0 _ (Nat.le_of_eq (Nat.zero_add _)) i,
    for_each_frame (fun d => d._shader_programs) _ gl_remove_render_buffer_programs,
    for_each_frame (fun d => d._shader_programs) _ gl_remove_frame_buffer_programs,
    for_each_checked_frame (fun d => d._shader_programs) _ gl_remove_geometry_programs,
    for_each_frame (fun d => d._shader_programs) _ gl_remove_texture_programs]
  by_cases hz : (c._shader_programs i).linked = 0
  · rw [if_pos hz, if_neg (by tauto)]
  · rw [if_neg hz, if_pos ⟨Nat.zero_le i, by rw [Nat.zero_add]; exact hi, hz⟩]

theorem gl_add_program_handle (c : render_context) (v f cs link : Int) (i : Nat)
    (hg1 : ¬ ((v < 0 ∨ f < 0) ∧ cs < -1))
    (hv : v < MAX_SHADER) (hf : f < MAX_SHADER) (hc : cs < MAX_SHADER)
    (hi : i < MAX_SHADER_PROGRAM)
    (hfree : (c._shader_programs i).vertex_shader_handle < 0 ∧
      (c._shader_programs i).fragment_shader_handle < 0 ∧
      (c._shader_programs i).compute_shader_handle < 0)
    (hbefore : ∀ j, j < i →
      ¬ ((c._shader_programs j).vertex_shader_handle < 0 ∧
        (c._shader_programs j).fragment_shader_handle < 0 ∧
        (c._shader_programs j).compute_shader_handle < 0) ∧
      ¬ ((c._shader_programs j).vertex_shader_handle = v ∧
        (c._shader_programs j).fragment_shader_handle = f ∧
        (c._shader_programs j).compute_shader_handle = cs)) :
    (render_context_gl.add_program c v f cs link).handle = i := by
  have g2 : ¬ (v ≥ (MAX_SHADER : Nat) ∨ f ≥ (MAX_SHADER : Nat) ∨ cs ≥ (MAX_SHADER : Nat)) := by
    omega
  have hs : scan
      (fun k =>
        decide ((c._shader_programs k).vertex_shader_handle = v
          ∧ (c._shader_programs k).fragment_shader_handle = f
          ∧ (c._shader_programs k).compute_shader_handle = cs)
        || decide ((c._shader_programs k).vertex_shader_handle < 0
          ∧ (c._shader_programs k).fragment_shader_handle < 0
          ∧ (c._shader_programs k).compute_shader_handle < 0))
      MAX_SHADER_PROGRAM 0 = some i := by
    apply scan_first (Nat.zero_le i) (by omega)
    · rw [decide_eq_true hfree, Bool.or_true]
    · intro j _ hj
      rw [decide_eq_false (hbefore j hj).1, decide_eq_false (hbefore j hj).2]
      rfl
  unfold render_context_gl.add_program
  rw [if_neg hg1, if_neg g2, hs]
  dsimp only
  split_ifs <;> rfl

/-- C17, as stated, fails: in the direct-state backend, after `init`, where no
shader is compiled, `add_program(0, 1, -1)` returns 0 and slot 0 holds the triple
with `linked` 0.  `remove_program(0)` returns at its test `linked == 0`: slot 0
still holds `(0, 1, -1)`, so it is not free.  The command-buffer backend has the
same test and leaves the slot too. -/
theorem remove_program_keeps_unlinked :
    (render_context_gl.add_program render_context.blank.init 0 1 (-1) 1).handle = 0 ∧
    ((render_context_gl.add_program render_context.blank.init 0 1 (-1) 1).context._shader_programs
      0) = ⟨0, 1, -1, 0⟩ ∧
    ((render_context_gl.remove_program
      (render_context_gl.add_program render_context.blank.init 0 1 (-1) 1).context
      0)._shader_programs 0) = ⟨0, 1, -1, 0⟩ ∧
    ((render_context_metal.remove_program
      (render_context_metal.add_program render_context.blank.init 0 1 (-1)).context
      0)._shader_programs 0) = ⟨0, 1, -1, 0⟩ := by
  decide

/-- C17, as the code has it: in the direct-state backend, for every linked
program handle `p` (vertex+fragment or compute) `remove_program(p)` marks slot
`p` free: its three shader handles become -1 and `linked` becomes 0, nothing else
changes, `bind_program(p)` then does nothing, and a later `add_program` whose
scan meets no free slot and no equal triple below `p` returns `p`.  In both
backends `remove_program` returns at its test `linked == 0` for an unlinked
program, which stays allocated.  So after `destroy()` of the direct-state
backend (which returns when no allocated geometry is locked) every program that
was linked is free and every program slot that was unlinked is as it was. -/
theorem remove_program_linked (c : render_context) (p : Int) :
    (0 ≤ p → p < MAX_SHADER_PROGRAM → (c._shader_programs p.toNat).linked ≠ 0 →
      render_context_gl.remove_program c p =
        { c with
          _shader_programs := Function.update c._shader_programs p.toNat ⟨-1, -1, -1, 0⟩ } ∧
      render_context_gl.bind_program (render_context_gl.remove_program c p) p = none ∧
      ∀ v f cs link : Int, ¬ ((v < 0 ∨ f < 0) ∧ cs < -1) →
        v < MAX_SHADER → f < MAX_SHADER → cs < MAX_SHADER →
        (∀ j, j < p.toNat →
          ¬ ((c._shader_programs j).vertex_shader_handle < 0 ∧
            (c._shader_programs j).fragment_shader_handle < 0 ∧
            (c._shader_programs j).compute_shader_handle < 0) ∧
          ¬ ((c._shader_programs j).vertex_shader_handle = v ∧
            (c._shader_programs j).fragment_shader_handle = f ∧
            (c._shader_programs j).compute_shader_handle = cs)) →
        (render_context_gl.add_program (render_context_gl.remove_program c p)
          v f cs link).handle = p) ∧
    ((c._shader_programs p.toNat).linked = 0 →
      render_context_gl.remove_program c p = c ∧
      render_context_metal.remove_program c p = c) ∧
    ((∀ i, i < MAX_GEOMETRY →
        (c._geometry_handles i).mode ≠ 0 → (c._geometry_handles i).locked = 0) →
      (render_context_gl.destroy c).1 = .ok ∧
      ∀ i, i < MAX_SHADER_PROGRAM →
        (render_context_gl.destroy c).2._shader_programs i =
          if (c._shader_programs i).linked = 0 then c._shader_programs i
          else ⟨-1, -1, -1, 0⟩) := by
  refine ⟨?_, ?_, gl_destroy_programs c⟩
  · intro h0 h1 hl
    have hr : ¬ (p < 0 ∨ p ≥ (MAX_SHADER_PROGRAM : Nat)) := by omega
    have e : render_context_gl.remove_program c p =
        { c with
          _shader_programs := Function.update c._shader_programs p.toNat ⟨-1, -1, -1, 0⟩ } := by
      unfold render_context_gl.remove_program
      rw [if_neg hr]
      dsimp only
      rw [if_neg hl]
    refine ⟨e, ?_, ?_⟩
    · apply (gl_bind_unlinked _ p 0 _).1
      right; right
      rw [e]
      dsimp only
      rw [Function.update_same]
    · intro v f cs link hg1 hv hf hc hb
      have hp : ((p.toNat : Nat) : Int) = p := Int.toNat_of_nonneg h0
      have := gl_add_program_handle (render_context_gl.remove_program c p) v f cs link
        p.toNat hg1 hv hf hc (by omega)
        (by rw [e]; dsimp only; rw [Function.update_same]; decide)
        (by
          intro j hj
          rw [e]
          dsimp only
          rw [Function.update_noteq (by omega)]
          exact hb j hj)
      rw [this, hp]
  · intro hl
    refine ⟨gl_remove_program_free c p (Or.inr (Or.inr hl)), ?_⟩
    unfold render_context_metal.remove_program
    dsimp only
    rw [if_pos hl, ite_self]

/-- C17, as the code has it, on examples: a linked program at handle 0 is freed
by `remove_program(0)`; the unlinked program that `add_program(0, 1, -1)` makes
after `init` is left; `destroy()` after `init` returns. -/
theorem remove_program_linked_witness :
    ((render_context_gl.remove_program
      (render_context_gl.add_program
        (render_context_gl.add_shader (render_context_gl.add_shader
          render_context.blank.init SHADER_VERTEX [65] 1).2 SHADER_FRAGMENT [66] 1).2
        0 1 (-1) 1).context 0)._shader_programs 0) = ⟨-1, -1, -1, 0⟩ ∧
    render_context_gl.remove_program
      (render_context_gl.add_program render_context.blank.init 0 1 (-1) 1).context 0 =
      (render_context_gl.add_program render_context.blank.init 0 1 (-1) 1).context ∧
    (render_context_gl.destroy render_context.blank.init).1 = .ok :=
  ⟨by
      rw [((remove_program_linked
        (render_context_gl.add_program
          (render_context_gl.add_shader (render_context_gl.add_shader
            render_context.blank.init SHADER_VERTEX [65] 1).2 SHADER_FRAGMENT [66] 1).2
          0 1 (-1) 1).context 0).1 (by decide) (by decide) (by decide)).1]
      rfl,
    (((remove_program_linked
      (render_context_gl.add_program render_context.blank.init 0 1 (-1) 1).context 0).2.1
      (by decide)).1),
    ((remove_program_linked render_context.blank.init 0).2.2
      (by intro i hi hm; simp [render_context.init, hi] at hm)).1⟩

/-! ## Frame buffers -/

/-- C18, on the code: after `init`, `add_frame_buffer(640, 480, true)` returns 0,
with the colour texture at handle 0 and the depth texture at handle 1.
`remove_frame_buffer(0)` frees the colour texture and sets `texture_handle` and
`render_buffer_handle` to -1, but the depth texture 1 is still allocated and
`depth_texture_handle` is still 1.  Both backends do the same (the
command-buffer backend is run with 0 for its constant `TEX_TARGET_2D`). -/
theorem remove_frame_buffer_keeps_depth_texture :
    (render_context_gl.add_frame_buffer render_context.blank.init 640 480 true).1 = 0 ∧
    ((render_context_gl.add_frame_buffer render_context.blank.init 640 480
      true).2._frame_buffers 0) = ⟨0, -1, 1, 640, 480⟩ ∧
    ((render_context.blank.init._textures 1).flags = 0) ∧
    ((render_context_gl.remove_frame_buffer
      (render_context_gl.add_frame_buffer render_context.blank.init 640 480 true).2
      0)._frame_buffers 0) = ⟨-1, -1, 1, 640, 480⟩ ∧
    ((render_context_gl.remove_frame_buffer
      (render_context_gl.add_frame_buffer render_context.blank.init 640 480 true).2
      0)._textures 0).flags = 0 ∧
    ((render_context_gl.remove_frame_buffer
      (render_context_gl.add_frame_buffer render_context.blank.init 640 480 true).2
      0)._textures 1) = ⟨640, 480, TEX_ALLOCATED, TEX_USAGE_RENDER_TARGET,
        texture_format_depth, 0⟩ ∧
    (render_context_metal.add_frame_buffer 0 render_context.blank.init 640 480 true).1 = 0 ∧
    ((render_context_metal.remove_frame_buffer
      (render_context_metal.add_frame_buffer 0 render_context.blank.init 640 480 true).2
      0)._frame_buffers 0) = ⟨-1, -1, 1, 640, 480⟩ ∧
    ((render_context_metal.remove_frame_buffer
      (render_context_metal.add_frame_buffer 0 render_context.blank.init 640 480 true).2
      0)._textures 1).flags = TEX_ALLOCATED := by
  decide

/-! ## The pipeline caches of the command-buffer backend -/

/-- C19, on the code: take seven shaders (handles 0 to 6) and empty caches.  The
keys `(1, 6, bgra8, none)` and `(6, 4, bgra8, depth)` hash to the same bucket
261, so their look-ups store the objects 100 and 101 in the entries 261 and 262.
`remove_shader(1)` evicts entry 261 only.  The key `(6, 4, bgra8, depth)` still
has its occupied entry 262, yet its next look-up stops at the empty entry 261: it
builds and returns the new object 102, and then the entries 261 and 262 are both
occupied with that key. -/
theorem render_pipeline_cache_duplicates_key :
    (render_context_metal._get_render_pipeline_state
      (render_context_metal.construct
        (render_context_metal.add_shaders render_context.blank.init [1, 2, 1, 2, 2, 1, 1]) 1 0)
      1 6 3 0 100).context.m_pipeline_state_cache 261 =
      ⟨some ⟨100, false, 0, 1, 1⟩, 1, 6, 3, 0⟩ ∧
    (render_context_metal._get_render_pipeline_state
      (render_context_metal._get_render_pipeline_state
        (render_context_metal.construct
          (render_context_metal.add_shaders render_context.blank.init [1, 2, 1, 2, 2, 1, 1]) 1 0)
        1 6 3 0 100).context
      6 4 3 11 101).context.m_pipeline_state_cache 262 =
      ⟨some ⟨101, false, 0, 1, 1⟩, 6, 4, 3, 11⟩ ∧
    (render_context_metal.remove_shader
      (render_context_metal._get_render_pipeline_state
        (render_context_metal._get_render_pipeline_state
          (render_context_metal.construct
            (render_context_metal.add_shaders render_context.blank.init [1, 2, 1, 2, 2, 1, 1])
            1 0)
          1 6 3 0 100).context
        6 4 3 11 101).context 1).m_pipeline_state_cache 261 = ⟨none, 0, 0, 0, 0⟩ ∧
    (render_context_metal.remove_shader
      (render_context_metal._get_render_pipeline_state
        (render_context_metal._get_render_pipeline_state
          (render_context_metal.construct
            (render_context_metal.add_shaders render_context.blank.init [1, 2, 1, 2, 2, 1, 1])
            1 0)
          1 6 3 0 100).context
        6 4 3 11 101).context 1).m_pipeline_state_cache 262 =
      ⟨some ⟨101, false, 0, 1, 1⟩, 6, 4, 3, 11⟩ ∧
    (render_context_metal._get_render_pipeline_state
      (render_context_metal.remove_shader
        (render_context_metal._get_render_pipeline_state
          (render_context_metal._get_render_pipeline_state
            (render_context_metal.construct
              (render_context_metal.add_shaders render_context.blank.init
                [1, 2, 1, 2, 2, 1, 1]) 1 0)
            1 6 3 0 100).context
          6 4 3 11 101).context 1)
      6 4 3 11 102).pipeline = some ⟨102, false, 0, 1, 1⟩ ∧
    (render_context_metal._get_render_pipeline_state
      (render_context_metal.remove_shader
        (render_context_metal._get_render_pipeline_state
          (render_context_metal._get_render_pipeline_state
            (render_context_metal.construct
              (render_context_metal.add_shaders render_context.blank.init
                [1, 2, 1, 2, 2, 1, 1]) 1 0)
            1 6 3 0 100).context
          6 4 3 11 101).context 1)
      6 4 3 11 102).context.m_pipeline_state_cache 261 =
      ⟨some ⟨102, false, 0, 1, 1⟩, 6, 4, 3, 11⟩ ∧
    (render_context_metal._get_render_pipeline_state
      (render_context_metal.remove_shader
        (render_context_metal._get_render_pipeline_state
          (render_context_metal._get_render_pipeline_state
            (render_context_metal.construct
              (render_context_metal.add_shaders render_context.blank.init
                [1, 2, 1, 2, 2, 1, 1]) 1 0)
            1 6 3 0 100).context
          6 4 3 11 101).context 1)
      6 4 3 11 102).context.m_pipeline_state_cache 262 =
      ⟨some ⟨101, false, 0, 1, 1⟩, 6, 4, 3, 11⟩ := by
  decide

theorem pipeline_probe_some {p : Nat → Bool} {n s b : Nat}
    (h : render_context_metal._get_render_pipeline_state.probe p n s = some b)
    (hs : s < MAX_PIPELINESTATE_CACHE) : b < MAX_PIPELINESTATE_CACHE ∧ p b = true := by
  induction n generalizing s with
  | zero => simp [render_context_metal._get_render_pipeline_state.probe] at h
  | succ n ih =>
    unfold render_context_metal._get_render_pipeline_state.probe at h
    by_cases hp : p s = true
    · simp only [hp, if_true, Option.some.injEq] at h
      subst h; exact ⟨hs, hp⟩
    · simp only [hp, Bool.false_eq_true, if_false] at h
      exact ih h (Nat.mod_lt _ (by decide))

theorem pipeline_probe_none {p : Nat → Bool} {n s : Nat}
    (h : render_context_metal._get_render_pipeline_state.probe p n s = none)
    (hs : s < MAX_PIPELINESTATE_CACHE) :
    ∀ k, k < n → p ((s + k) % MAX_PIPELINESTATE_CACHE) = false := by
  induction n generalizing s with
  | zero => intro k hk; omega
  | succ n ih =>
    unfold render_context_metal._get_render_pipeline_state.probe at h
    by_cases hp : p s = true
    · simp only [hp, if_true] at h
      cases h
    · simp only [hp, Bool.false_eq_true, if_false] at h
      intro k hk
      cases k with
      | zero =>
        rw [Nat.add_zero, Nat.mod_eq_of_lt hs]
        simpa using hp
      | succ k =>
        have := ih h (Nat.mod_lt _ (by decide)) k (by omega)
        rw [Nat.mod_add_mod] at this
        rw [show s + (k + 1) = s + 1 + k by omega]
        exact this

theorem pipeline_probe_finds {p : Nat → Bool} {s j : Nat}
    (hs : s < MAX_PIPELINESTATE_CACHE) (hj : j < MAX_PIPELINESTATE_CACHE) (hp : p j = true) :
    ∃ b, render_context_metal._get_render_pipeline_state.probe p MAX_PIPELINESTATE_CACHE s
        = some b ∧ b < MAX_PIPELINESTATE_CACHE ∧ p b = true := by
  cases h : render_context_metal._get_render_pipeline_state.probe p MAX_PIPELINESTATE_CACHE s with
  | some b => exact ⟨b, rfl, pipeline_probe_some h hs⟩
  | none =>
    have hk := pipeline_probe_none h hs ((j + MAX_PIPELINESTATE_CACHE - s) % MAX_PIPELINESTATE_CACHE)
      (Nat.mod_lt _ (by decide))
    have e : (s + (j + MAX_PIPELINESTATE_CACHE - s) % MAX_PIPELINESTATE_CACHE)
        % MAX_PIPELINESTATE_CACHE = j := by
      simp only [MAX_PIPELINESTATE_CACHE] at hs hj ⊢
      omega
    rw [e, hp] at hk
    cases hk

theorem metal_remove_shader_caches (m : render_context_metal) (s : Int)
    (h0 : 0 ≤ s) (h1 : s < MAX_SHADER) (hal : (m._shaders s.toNat).type ≠ 0) :
    (∀ i, (render_context_metal.remove_shader m s).m_pipeline_state_cache i =
      if i < MAX_PIPELINESTATE_CACHE ∧ (m.m_pipeline_state_cache i).p_pipeline ≠ none
          ∧ ((m.m_pipeline_state_cache i).fragment_shader_handle = s
            ∨ (m.m_pipeline_state_cache i).vertex_shader_handle = s) then
        ⟨none, 0, 0, 0, 0⟩
      else m.m_pipeline_state_cache i) ∧
    (∀ i, (render_context_metal.remove_shader m s).m_compute_pipeline_state_cache i =
      if i < MAX_PIPELINESTATE_CACHE ∧ (m.m_compute_pipeline_state_cache i).p_pipeline ≠ none
          ∧ (m.m_compute_pipeline_state_cache i).compute_shader_handle = s then
        ⟨none, 0⟩
      else m.m_compute_pipeline_state_cache i) ∧
    (render_context_metal.remove_shader m s)._enable_blending = m._enable_blending ∧
    (render_context_metal.remove_shader m s)._blending_func = m._blending_func ∧
    (render_context_metal.remove_shader m s)._blending_source = m._blending_source ∧
    (render_context_metal.remove_shader m s)._blending_destination =
      m._blending_destination := by
  have hr : ¬ (s < 0 ∨ s ≥ (MAX_SHADER : Nat)) := by omega
  unfold render_context_metal.remove_shader
  rw [if_neg hr]
  dsimp only
  rw [if_neg hal]
  exact ⟨fun _ => rfl, fun _ => rfl, rfl, rfl, rfl, rfl⟩

theorem render_lookup_miss (m : render_context_metal) (v f col dep : Int) (d : Nat)
    (hv0 : 0 ≤ v) (hv1 : v < MAX_SHADER) (hf0 : 0 ≤ f) (hf1 : f < MAX_SHADER)
    (hempty : ∃ j, j < MAX_PIPELINESTATE_CACHE ∧ (m.m_pipeline_state_cache j).p_pipeline = none)
    (habsent : ∀ i, i < MAX_PIPELINESTATE_CACHE →
      (m.m_pipeline_state_cache i).p_pipeline ≠ none →
      ¬ ((m.m_pipeline_state_cache i).vertex_shader_handle = v
        ∧ (m.m_pipeline_state_cache i).fragment_shader_handle = f
        ∧ (m.m_pipeline_state_cache i).color_pixel_format = col
        ∧ (m.m_pipeline_state_cache i).depth_pixel_format = dep)) :
    ∃ b, b < MAX_PIPELINESTATE_CACHE ∧ (m.m_pipeline_state_cache b).p_pipeline = none ∧
      (render_context_metal._get_render_pipeline_state m v f col dep d).status = .ok ∧
      (render_context_metal._get_render_pipeline_state m v f col dep d).pipeline =
        some ⟨d, m._enable_blending, m._blending_func, m._blending_source,
          m._blending_destination⟩ ∧
      (render_context_metal._get_render_pipeline_state m v f col dep d).context =
        { m with
          m_pipeline_state_cache := Function.update m.m_pipeline_state_cache b
            ⟨some ⟨d, m._enable_blending, m._blending_func, m._blending_source,
              m._blending_destination⟩, v, f, col, dep⟩ } := by
  obtain ⟨j, hj, hjn⟩ := hempty
  obtain ⟨b, hb, hbl, hq⟩ := pipeline_probe_finds
    (p := fun b =>
      (m.m_pipeline_state_cache b).p_pipeline == none
      || decide ((m.m_pipeline_state_cache b).vertex_shader_handle = v
        ∧ (m.m_pipeline_state_cache b).fragment_shader_handle = f
        ∧ (m.m_pipeline_state_cache b).color_pixel_format = col
        ∧ (m.m_pipeline_state_cache b).depth_pixel_format = dep))
    (s := render_context_metal._get_render_pipeline_state.hash [v, f, col, dep]
      % MAX_PIPELINESTATE_CACHE)
    (Nat.mod_lt _ (by decide)) hj (by simp [hjn])
  have hnone : (m.m_pipeline_state_cache b).p_pipeline = none := by
    by_contra hne
    have hk := habsent b hbl hne
    simp only [Bool.or_eq_true, beq_iff_eq, decide_eq_true_eq] at hq
    rcases hq with hq | hq
    · exact hne hq
    · exact hk hq
  have hguard : ¬ (v < 0 ∨ v ≥ (MAX_SHADER : Nat) ∨ f < 0 ∨ f ≥ (MAX_SHADER : Nat)) := by omega
  refine ⟨b, hbl, hnone, ?_⟩
  unfold render_context_metal._get_render_pipeline_state
  dsimp only
  rw [hb]
  dsimp only
  rw [hnone]
  dsimp only
  rw [if_neg hguard]
  exact ⟨rfl, rfl, rfl⟩

theorem compute_lookup_miss (m : render_context_metal) (cs : Int) (d : Nat)
    (hc0 : 0 ≤ cs) (hc1 : cs < MAX_SHADER)
    (hempty : ∃ j, j < MAX_PIPELINESTATE_CACHE ∧
      (m.m_compute_pipeline_state_cache j).p_pipeline = none)
    (habsent : ∀ i, i < MAX_PIPELINESTATE_CACHE →
      (m.m_compute_pipeline_state_cache i).p_pipeline ≠ none →
      ¬ (m.m_compute_pipeline_state_cache i).compute_shader_handle = cs) :
    ∃ b, b < MAX_PIPELINESTATE_CACHE ∧
      (m.m_compute_pipeline_state_cache b).p_pipeline = none ∧
      (render_context_metal._get_compute_pipeline_state m cs d).status = .ok ∧
      (render_context_metal._get_compute_pipeline_state m cs d).pipeline = some ⟨d⟩ ∧
      (render_context_metal._get_compute_pipeline_state m cs d).context =
        { m with
          m_compute_pipeline_state_cache := Function.update m.m_compute_pipeline_state_cache b
            ⟨some ⟨d⟩, cs⟩ } := by
  obtain ⟨j, hj, hjn⟩ := hempty
  obtain ⟨b, hb, hbl, hq⟩ := pipeline_probe_finds
    (p := fun b =>
      (m.m_compute_pipeline_state_cache b).p_pipeline == none
      || decide ((m.m_compute_pipeline_state_cache b).compute_shader_handle = cs))
    (s := render_context_metal._get_render_pipeline_state.hash [cs] % MAX_PIPELINESTATE_CACHE)
    (Nat.mod_lt _ (by decide)) hj (by simp [hjn])
  have hnone : (m.m_compute_pipeline_state_cache b).p_pipeline = none := by
    by_contra hne
    have hk := habsent b hbl hne
    simp only [Bool.or_eq_true, beq_iff_eq, decide_eq_true_eq] at hq
    rcases hq with hq | hq
    · exact hne hq
    · exact hk hq
  have hguard : ¬ (cs < 0 ∨ cs ≥ (MAX_SHADER : Nat)) := by omega
  refine ⟨b, hbl, hnone, ?_⟩
  unfold render_context_metal._get_compute_pipeline_state
  dsimp only
  rw [hb]
  dsimp only
  rw [hnone]
  dsimp only
  rw [if_neg hguard]
  exact ⟨rfl, rfl, rfl⟩

/-- C20: in the command-buffer backend, after `remove_shader(s)` on an allocated
shader `s`, no occupied render-cache entry has `s` as its vertex or fragment
shader and no occupied compute-cache entry has `s` as its compute shader; every
entry that was not an occupied entry referring to `s` is unchanged; and the next
look-up of an evicted key (a key with `s` in it that had an occupied entry) is a
miss: it stops at an empty entry, builds a new pipeline with the object the
device hands out, stores it there under the key, and returns it. -/
theorem remove_shader_evicts (m : render_context_metal) (s : Int)
    (h0 : 0 ≤ s) (h1 : s < MAX_SHADER) (hal : (m._shaders s.toNat).type ≠ 0) :
    (∀ i, i < MAX_PIPELINESTATE_CACHE →
      ((render_context_metal.remove_shader m s).m_pipeline_state_cache i).p_pipeline ≠ none →
      ((render_context_metal.remove_shader m s).m_pipeline_state_cache i).vertex_shader_handle
        ≠ s ∧
      ((render_context_metal.remove_shader m s).m_pipeline_state_cache i).fragment_shader_handle
        ≠ s) ∧
    (∀ i, i < MAX_PIPELINESTATE_CACHE →
      ((render_context_metal.remove_shader m s).m_compute_pipeline_state_cache i).p_pipeline
        ≠ none →
      ((render_context_metal.remove_shader m s).m_compute_pipeline_state_cache
        i).compute_shader_handle ≠ s) ∧
    (∀ i, ¬ ((m.m_pipeline_state_cache i).p_pipeline ≠ none
        ∧ ((m.m_pipeline_state_cache i).vertex_shader_handle = s
          ∨ (m.m_pipeline_state_cache i).fragment_shader_handle = s)) →
      (render_context_metal.remove_shader m s).m_pipeline_state_cache i =
        m.m_pipeline_state_cache i) ∧
    (∀ i, ¬ ((m.m_compute_pipeline_state_cache i).p_pipeline ≠ none
        ∧ (m.m_compute_pipeline_state_cache i).compute_shader_handle = s) →
      (render_context_metal.remove_shader m s).m_compute_pipeline_state_cache i =
        m.m_compute_pipeline_state_cache i) ∧
    (∀ (v f col dep : Int) (d : Nat), (v = s ∨ f = s) →
      0 ≤ v → v < MAX_SHADER → 0 ≤ f → f < MAX_SHADER →
      (∃ i, i < MAX_PIPELINESTATE_CACHE ∧ (m.m_pipeline_state_cache i).p_pipeline ≠ none
        ∧ (m.m_pipeline_state_cache i).vertex_shader_handle = v
        ∧ (m.m_pipeline_state_cache i).fragment_shader_handle = f
        ∧ (m.m_pipeline_state_cache i).color_pixel_format = col
        ∧ (m.m_pipeline_state_cache i).depth_pixel_format = dep) →
      ∃ b, b < MAX_PIPELINESTATE_CACHE ∧
        ((render_context_metal.remove_shader m s).m_pipeline_state_cache b).p_pipeline = none ∧
        (render_context_metal._get_render_pipeline_state
          (render_context_metal.remove_shader m s) v f col dep d).status = .ok ∧
        (render_context_metal._get_render_pipeline_state
          (render_context_metal.remove_shader m s) v f col dep d).pipeline =
          some ⟨d, m._enable_blending, m._blending_func, m._blending_source,
            m._blending_destination⟩ ∧
        (render_context_metal._get_render_pipeline_state
          (render_context_metal.remove_shader m s) v f col dep d).context =
          { render_context_metal.remove_shader m s with
            m_pipeline_state_cache :=
              Function.update (render_context_metal.remove_shader m s).m_pipeline_state_cache b
                ⟨some ⟨d, m._enable_blending, m._blending_func, m._blending_source,
                  m._blending_destination⟩, v, f, col, dep⟩ }) ∧
    (∀ d : Nat,
      (∃ i, i < MAX_PIPELINESTATE_CACHE
        ∧ (m.m_compute_pipeline_state_cache i).p_pipeline ≠ none
        ∧ (m.m_compute_pipeline_state_cache i).compute_shader_handle = s) →
      ∃ b, b < MAX_PIPELINESTATE_CACHE ∧
        ((render_context_metal.remove_shader m s).m_compute_pipeline_state_cache b).p_pipeline
          = none ∧
        (render_context_metal._get_compute_pipeline_state
          (render_context_metal.remove_shader m s) s d).status = .ok ∧
        (render_context_metal._get_compute_pipeline_state
          (render_context_metal.remove_shader m s) s d).pipeline = some ⟨d⟩ ∧
        (render_context_metal._get_compute_pipeline_state
          (render_context_metal.remove_shader m s) s d).context =
          { render_context_metal.remove_shader m s with
            m_compute_pipeline_state_cache :=
              Function.update
                (render_context_metal.remove_shader m s).m_compute_pipeline_state_cache b
                ⟨some ⟨d⟩, s⟩ }) := by
  obtain ⟨hr, hc, hb1, hb2, hb3, hb4⟩ := metal_remove_shader_caches m s h0 h1 hal
  have hP1 : ∀ i, i < MAX_PIPELINESTATE_CACHE →
      ((render_context_metal.remove_shader m s).m_pipeline_state_cache i).p_pipeline ≠ none →
      ((render_context_metal.remove_shader m s).m_pipeline_state_cache i).vertex_shader_handle
        ≠ s ∧
      ((render_context_metal.remove_shader m s).m_pipeline_state_cache i).fragment_shader_handle
        ≠ s := by
    intro i hi
    rw [hr i]
    split_ifs with hcond
    · intro h; exact absurd rfl h
    · intro hne
      constructor
      · intro e; exact hcond ⟨hi, hne, Or.inr e⟩
      · intro e; exact hcond ⟨hi, hne, Or.inl e⟩
  have hP2 : ∀ i, i < MAX_PIPELINESTATE_CACHE →
      ((render_context_metal.remove_shader m s).m_compute_pipeline_state_cache i).p_pipeline
        ≠ none →
      ((render_context_metal.remove_shader m s).m_compute_pipeline_state_cache
        i).compute_shader_handle ≠ s := by
    intro i hi
    rw [hc i]
    split_ifs with hcond
    · intro h; exact absurd rfl h
    · intro hne e
      exact hcond ⟨hi, hne, e⟩
  refine ⟨hP1, hP2, ?_, ?_, ?_, ?_⟩
  · intro i hn
    rw [hr i, if_neg]
    intro hcond
    exact hn ⟨hcond.2.1, hcond.2.2.symm⟩
  · intro i hn
    rw [hc i, if_neg]
    intro hcond
    exact hn ⟨hcond.2.1, hcond.2.2⟩
  · intro v f col dep d hvf hv0 hv1 hf0 hf1 hex
    obtain ⟨i, hi, hocc, e1, e2, e3, e4⟩ := hex
    have hevicted : ((render_context_metal.remove_shader m s).m_pipeline_state_cache
        i).p_pipeline = none := by
      rw [hr i, if_pos ⟨hi, hocc, by rw [e1, e2]; tauto⟩]
    have := render_lookup_miss (render_context_metal.remove_shader m s) v f col dep d
      hv0 hv1 hf0 hf1 ⟨i, hi, hevicted⟩
      (by
        intro k hk hne hkey
        have := hP1 k hk hne
        rw [hkey.1, hkey.2.1] at this
        rcases hvf with e | e
        · exact this.1 e
        · exact this.2 e)
    rw [← hb1, ← hb2, ← hb3, ← hb4]
    exact this
  · intro d hex
    obtain ⟨i, hi, hocc, e1⟩ := hex
    have hevicted : ((render_context_metal.remove_shader m s).m_compute_pipeline_state_cache
        i).p_pipeline = none := by
      rw [hc i, if_pos ⟨hi, hocc, e1⟩]
    exact compute_lookup_miss (render_context_metal.remove_shader m s) s d h0 h1
      ⟨i, hi, hevicted⟩ (fun k hk hne => hP2 k hk hne)

/-- C20 on the example of C19: with the keys `(1, 6, bgra8, none)` and
`(6, 4, bgra8, depth)` cached in the entries 261 and 262, `remove_shader(1)`
leaves entry 262, which does not refer to shader 1, and the next look-up of the
evicted key `(1, 6, bgra8, none)` returns the new object 102. -/
theorem remove_shader_evicts_witness :
    (((render_context_metal.remove_shader
        (render_context_metal._get_render_pipeline_state
          (render_context_metal._get_render_pipeline_state
            (render_context_metal.construct
              (render_context_metal.add_shaders render_context.blank.init
                [1, 2, 1, 2, 2, 1, 1]) 1 0)
            1 6 3 0 100).context
          6 4 3 11 101).context 1).m_pipeline_state_cache 262).vertex_shader_handle ≠ 1 ∧
      ((render_context_metal.remove_shader
        (render_context_metal._get_render_pipeline_state
          (render_context_metal._get_render_pipeline_state
            (render_context_metal.construct
              (render_context_metal.add_shaders render_context.blank.init
                [1, 2, 1, 2, 2, 1, 1]) 1 0)
            1 6 3 0 100).context
          6 4 3 11 101).context 1).m_pipeline_state_cache 262).fragment_shader_handle ≠ 1) ∧
    (render_context_metal._get_render_pipeline_state
      (render_context_metal.remove_shader
        (render_context_metal._get_render_pipeline_state
          (render_context_metal._get_render_pipeline_state
            (render_context_metal.construct
              (render_context_metal.add_shaders render_context.blank.init
                [1, 2, 1, 2, 2, 1, 1]) 1 0)
            1 6 3 0 100).context
          6 4 3 11 101).context 1)
      1 6 3 0 102).pipeline = some ⟨102, false, 0, 1, 1⟩ :=
  ⟨(remove_shader_evicts
      (render_context_metal._get_render_pipeline_state
        (render_context_metal._get_render_pipeline_state
          (render_context_metal.construct
            (render_context_metal.add_shaders render_context.blank.init
              [1, 2, 1, 2, 2, 1, 1]) 1 0)
          1 6 3 0 100).context
        6 4 3 11 101).context 1 (by decide) (by decide) (by decide)).1 262
      (by decide) (by decide),
    Exists.elim
      ((remove_shader_evicts
        (render_context_metal._get_render_pipeline_state
          (render_context_metal._get_render_pipeline_state
            (render_context_metal.construct
              (render_context_metal.add_shaders render_context.blank.init
                [1, 2, 1, 2, 2, 1, 1]) 1 0)
            1 6 3 0 100).context
          6 4 3 11 101).context 1 (by decide) (by decide) (by decide)).2.2.2.2.1
        1 6 3 0 102 (Or.inl rfl) (by decide) (by decide) (by decide) (by decide)
        ⟨261, by decide, by decide, by decide, by decide, by decide, by decide⟩)
      (fun _ hb => hb.2.2.2.1)⟩

/-! ## A full buffer table -/

theorem gl_allocate_full (c : render_context) (ref : geometry_ref)
    (tuple_size count type : Int) (pointer : Option (Option Nat))
    (ht : type = GEOMETRY_VERTEX ∨ type = GEOMETRY_INDEX) (hneg : ref.buffer < 0)
    (hfull : ∀ i, i < MAX_BUFFER_OBJECT → (c._buffer_objects i).size ≠ 0) :
    render_context_gl._allocate_buffer_object c ref tuple_size count type pointer =
      ⟨.out_of_memory, c, ref, pointer⟩ := by
  have hs : scan (fun i => (c._buffer_objects i).size == 0) MAX_BUFFER_OBJECT 0 = none := by
    rw [scan_none]
    intro j _ hj
    have := hfull j (by omega)
    simpa using this
  unfold render_context_gl._allocate_buffer_object
  rw [if_neg (not_not.mpr ht)]
  simp only [hneg, if_true, hs]

theorem gl_allocate_ok (c : render_context) (ref : geometry_ref)
    (tuple_size count type : Int) (pointer : Option (Option Nat))
    (ht : type = GEOMETRY_VERTEX ∨ type = GEOMETRY_INDEX)
    (hroom : ¬ (ref.buffer < 0 ∧ ∀ i, i < MAX_BUFFER_OBJECT → (c._buffer_objects i).size ≠ 0)) :
    (render_context_gl._allocate_buffer_object c ref tuple_size count type pointer).status =
      .ok := by
  unfold render_context_gl._allocate_buffer_object
  rw [if_neg (not_not.mpr ht)]
  by_cases hneg : ref.buffer < 0
  · have hex : ∃ j, 0 ≤ j ∧ j < 0 + MAX_BUFFER_OBJECT ∧
        (fun i => (c._buffer_objects i).size == 0) j = true := by
      by_contra hno
      apply hroom
      refine ⟨hneg, fun i hi hz => ?_⟩
      exact hno ⟨i, Nat.zero_le i, by omega, by simp [hz]⟩
    obtain ⟨k, hs⟩ := scan_exists hex
    simp only [hneg, if_true, hs]
  · simp only [hneg, if_false]

theorem gl_geometry_begin_status (c : render_context) (handle nv ni update : Int)
    (vp ip : Option (Option Nat))
    (hr : ¬ (handle < 0 ∨ handle ≥ MAX_GEOMETRY))
    (hmode : (c._geometry_handles handle.toNat).mode ≠ 0) :
    (render_context_gl.geometry_begin c handle nv ni vp ip update).status =
      if update.land GEOMETRY_VERTEX ≠ 0
          ∧ ¬ (c._geometry_handles handle.toNat).locked.land GEOMETRY_VERTEX ≠ 0 then
        if (render_context_gl._allocate_buffer_object c (c._geometry_handles handle.toNat).vertex
            (c._geometry_handles handle.toNat).vertex_size nv GEOMETRY_VERTEX
            (vp.map fun _ => none)).status ≠ .ok then
          (render_context_gl._allocate_buffer_object c (c._geometry_handles handle.toNat).vertex
            (c._geometry_handles handle.toNat).vertex_size nv GEOMETRY_VERTEX
            (vp.map fun _ => none)).status
        else if update.land GEOMETRY_INDEX ≠ 0
            ∧ ¬ ((c._geometry_handles handle.toNat).locked.lor GEOMETRY_VERTEX).land
              GEOMETRY_INDEX ≠ 0 then
          (render_context_gl._allocate_buffer_object
            (render_context_gl._allocate_buffer_object c
              (c._geometry_handles handle.toNat).vertex
              (c._geometry_handles handle.toNat).vertex_size nv GEOMETRY_VERTEX
              (vp.map fun _ => none)).context
            (c._geometry_handles handle.toNat).index 4 ni GEOMETRY_INDEX
            (ip.map fun _ => none)).status
        else .ok
      else if update.land GEOMETRY_INDEX ≠ 0
          ∧ ¬ (c._geometry_handles handle.toNat).locked.land GEOMETRY_INDEX ≠ 0 then
        (render_context_gl._allocate_buffer_object c (c._geometry_handles handle.toNat).index
          4 ni GEOMETRY_INDEX (ip.map fun _ => none)).status
      else .ok := by
  unfold render_context_gl.geometry_begin
  rw [if_neg hr]
  dsimp only
  rw [if_neg hmode]
  by_cases hv : update.land GEOMETRY_VERTEX ≠ 0
      ∧ ¬ (c._geometry_handles handle.toNat).locked.land GEOMETRY_VERTEX ≠ 0
  · rw [if_pos hv, if_pos hv]
    dsimp only
    by_cases hs : (render_context_gl._allocate_buffer_object c
        (c._geometry_handles handle.toNat).vertex
        (c._geometry_handles handle.toNat).vertex_size nv GEOMETRY_VERTEX
        (vp.map fun _ => none)).status ≠ .ok
    · rw [if_pos hs, if_pos hs]
    · rw [if_neg hs, if_neg hs]
      split_ifs <;> rfl
  · rw [if_neg hv, if_neg hv]
    dsimp only
    rw [if_neg (fun h : outcome.ok ≠ outcome.ok => h rfl)]
    split_ifs <;> rfl

theorem gl_begin_one_stream_full (c : render_context) (handle nv ni update : Int)
    (vp ip : Option (Option Nat))
    (hr : ¬ (handle < 0 ∨ handle ≥ MAX_GEOMETRY))
    (hmode : (c._geometry_handles handle.toNat).mode ≠ 0) :
    (update.land GEOMETRY_VERTEX ≠ 0 → update.land GEOMETRY_INDEX = 0 →
      (c._geometry_handles handle.toNat).locked.land GEOMETRY_VERTEX = 0 →
      (c._geometry_handles handle.toNat).vertex.buffer < 0 →
      ((render_context_gl.geometry_begin c handle nv ni vp ip update).status = .out_of_memory ↔
        ∀ i, i < MAX_BUFFER_OBJECT → (c._buffer_objects i).size ≠ 0)) ∧
    (update.land GEOMETRY_VERTEX = 0 → update.land GEOMETRY_INDEX ≠ 0 →
      (c._geometry_handles handle.toNat).locked.land GEOMETRY_INDEX = 0 →
      (c._geometry_handles handle.toNat).index.buffer < 0 →
      ((render_context_gl.geometry_begin c handle nv ni vp ip update).status = .out_of_memory ↔
        ∀ i, i < MAX_BUFFER_OBJECT → (c._buffer_objects i).size ≠ 0)) := by
  constructor
  · intro hu1 hu2 hl hb
    rw [gl_geometry_begin_status c handle nv ni update vp ip hr hmode,
      if_pos ⟨hu1, fun h => h hl⟩]
    constructor
    · intro hst
      by_contra hroom
      have hok := gl_allocate_ok c (c._geometry_handles handle.toNat).vertex
        (c._geometry_handles handle.toNat).vertex_size nv GEOMETRY_VERTEX (vp.map fun _ => none)
        (Or.inl rfl) (fun h => hroom h.2)
      rw [hok, if_neg (fun h : outcome.ok ≠ outcome.ok => h rfl), if_neg (fun h => h.1 hu2)]
        at hst
      cases hst
    · intro hfull
      rw [gl_allocate_full c _ _ nv GEOMETRY_VERTEX _ (Or.inl rfl) hb hfull]
      rfl
  · intro hu1 hu2 hl hb
    rw [gl_geometry_begin_status c handle nv ni update vp ip hr hmode,
      if_neg (fun h => h.1 hu1), if_pos ⟨hu2, fun h => h hl⟩]
    constructor
    · intro hst
      by_contra hroom
      have hok := gl_allocate_ok c (c._geometry_handles handle.toNat).index
        4 ni GEOMETRY_INDEX (ip.map fun _ => none) (Or.inr rfl) (fun h => hroom h.2)
      rw [hok] at hst
      cases hst
    · intro hfull
      rw [gl_allocate_full c _ _ ni GEOMETRY_INDEX _ (Or.inr rfl) hb hfull]

theorem gl_begin_two_streams_full (c : render_context) (handle nv ni update : Int)
    (vp ip : Option (Option Nat))
    (hr : ¬ (handle < 0 ∨ handle ≥ MAX_GEOMETRY))
    (hmode : (c._geometry_handles handle.toNat).mode ≠ 0)
    (hu1 : update.land GEOMETRY_VERTEX ≠ 0) (hu2 : update.land GEOMETRY_INDEX ≠ 0)
    (hl1 : (c._geometry_handles handle.toNat).locked.land GEOMETRY_VERTEX = 0)
    (hl2 : (c._geometry_handles handle.toNat).locked.land GEOMETRY_INDEX = 0)
    (hb1 : (c._geometry_handles handle.toNat).vertex.buffer < 0)
    (hb2 : (c._geometry_handles handle.toNat).index.buffer < 0) :
    (render_context_gl.geometry_begin c handle nv ni vp ip update).status = .out_of_memory ↔
      (∀ i, i < MAX_BUFFER_OBJECT → (c._buffer_objects i).size ≠ 0) ∨
      ∀ i, i < MAX_BUFFER_OBJECT →
        ((render_context_gl._allocate_buffer_object c (c._geometry_handles handle.toNat).vertex
          (c._geometry_handles handle.toNat).vertex_size nv GEOMETRY_VERTEX
          (vp.map fun _ => none)).context._buffer_objects i).size ≠ 0 := by
  rw [gl_geometry_begin_status c handle nv ni update vp ip hr hmode,
    if_pos ⟨hu1, fun h => h hl1⟩]
  by_cases hfull : ∀ i, i < MAX_BUFFER_OBJECT → (c._buffer_objects i).size ≠ 0
  · rw [gl_allocate_full c _ _ nv GEOMETRY_VERTEX _ (Or.inl rfl) hb1 hfull]
    exact ⟨fun _ => Or.inl hfull, fun _ => rfl⟩
  · have hok := gl_allocate_ok c (c._geometry_handles handle.toNat).vertex
      (c._geometry_handles handle.toNat).vertex_size nv GEOMETRY_VERTEX (vp.map fun _ => none)
      (Or.inl rfl) (fun h => hfull h.2)
    rw [hok, if_neg (fun h : outcome.ok ≠ outcome.ok => h rfl),
      if_pos ⟨hu2, fun h => h (by rw [land_index_lor_vertex]; exact hl2)⟩]
    constructor
    · intro hst
      right
      by_contra hroom
      have hok2 := gl_allocate_ok
        (render_context_gl._allocate_buffer_object c (c._geometry_handles handle.toNat).vertex
          (c._geometry_handles handle.toNat).vertex_size nv GEOMETRY_VERTEX
          (vp.map fun _ => none)).context
        (c._geometry_handles handle.toNat).index 4 ni GEOMETRY_INDEX (ip.map fun _ => none)
        (Or.inr rfl) (fun h => hroom h.2)
      rw [hok2] at hst
      cases hst
    · intro h
      rcases h with h | h
      · exact absurd h hfull
      · rw [gl_allocate_full _ _ _ ni GEOMETRY_INDEX _ (Or.inr rfl) hb2 h]

theorem add_buffer_object_full (c : render_context) (size : Int)
    (hfull : ∀ i, i < MAX_BUFFER_OBJECT → (c._buffer_objects i).size ≠ 0) :
    render_context_gl.add_buffer_object c size = (-1, c) ∧
    render_context_metal.add_buffer_object c size = (-1, c) := by
  have hs : scan (fun i => (c._buffer_objects i).size == 0) MAX_BUFFER_OBJECT 0 = none := by
    rw [scan_none]
    intro j _ hj
    have := hfull j (by omega)
    simpa using this
  unfold render_context_gl.add_buffer_object render_context_metal.add_buffer_object
  rw [hs]
  simp only [ite_self, and_self]

/-- C21: for an allocated geometry, in either backend, a `geometry_begin` that
asks for one stream (vertex or index) which is not locked and has no buffer yet
throws "Out of memory" exactly when no buffer slot is free, that is when all 2048
slots have a size other than 0.  When it asks for both streams, it throws exactly
when that is so at the moment one of the two asks for its slot: for the vertex
stream in the state of the call, for the index stream in the state the vertex
allocation leaves.  In a state with no free slot `add_buffer_object` returns -1
and the context is unchanged. -/
theorem geometry_begin_out_of_memory (c : render_context) (handle nv ni update size : Int)
    (vp ip : Option (Option Nat))
    (h0 : 0 ≤ handle) (h1 : handle < MAX_GEOMETRY)
    (hmode : (c._geometry_handles handle.toNat).mode ≠ 0) :
    (update.land GEOMETRY_VERTEX ≠ 0 → update.land GEOMETRY_INDEX = 0 →
      (c._geometry_handles handle.toNat).locked.land GEOMETRY_VERTEX = 0 →
      (c._geometry_handles handle.toNat).vertex.buffer < 0 →
      ((render_context_gl.geometry_begin c handle nv ni vp ip update).status = .out_of_memory ↔
        ∀ i, i < MAX_BUFFER_OBJECT → (c._buffer_objects i).size ≠ 0) ∧
      ((render_context_metal.geometry_begin c handle nv ni vp ip update).status =
          .out_of_memory ↔
        ∀ i, i < MAX_BUFFER_OBJECT → (c._buffer_objects i).size ≠ 0)) ∧
    (update.land GEOMETRY_VERTEX = 0 → update.land GEOMETRY_INDEX ≠ 0 →
      (c._geometry_handles handle.toNat).locked.land GEOMETRY_INDEX = 0 →
      (c._geometry_handles handle.toNat).index.buffer < 0 →
      ((render_context_gl.geometry_begin c handle nv ni vp ip update).status = .out_of_memory ↔
        ∀ i, i < MAX_BUFFER_OBJECT → (c._buffer_objects i).size ≠ 0) ∧
      ((render_context_metal.geometry_begin c handle nv ni vp ip update).status =
          .out_of_memory ↔
        ∀ i, i < MAX_BUFFER_OBJECT → (c._buffer_objects i).size ≠ 0)) ∧
    (update.land GEOMETRY_VERTEX ≠ 0 → update.land GEOMETRY_INDEX ≠ 0 →
      (c._geometry_handles handle.toNat).locked.land GEOMETRY_VERTEX = 0 →
      (c._geometry_handles handle.toNat).locked.land GEOMETRY_INDEX = 0 →
      (c._geometry_handles handle.toNat).vertex.buffer < 0 →
      (c._geometry_handles handle.toNat).index.buffer < 0 →
      ((render_context_gl.geometry_begin c handle nv ni vp ip update).status = .out_of_memory ↔
        (∀ i, i < MAX_BUFFER_OBJECT → (c._buffer_objects i).size ≠ 0) ∨
        ∀ i, i < MAX_BUFFER_OBJECT →
          ((render_context_gl._allocate_buffer_object c
            (c._geometry_handles handle.toNat).vertex
            (c._geometry_handles handle.toNat).vertex_size nv GEOMETRY_VERTEX
            (vp.map fun _ => none)).context._buffer_objects i).size ≠ 0) ∧
      ((render_context_metal.geometry_begin c handle nv ni vp ip update).status =
          .out_of_memory ↔
        (∀ i, i < MAX_BUFFER_OBJECT → (c._buffer_objects i).size ≠ 0) ∨
        ∀ i, i < MAX_BUFFER_OBJECT →
          ((render_context_metal._allocate_geometry_buffer c
            (c._geometry_handles handle.toNat).vertex
            (c._geometry_handles handle.toNat).vertex_size nv GEOMETRY_VERTEX
            (vp.map fun _ => none)).context._buffer_objects i).size ≠ 0)) ∧
    ((∀ i, i < MAX_BUFFER_OBJECT → (c._buffer_objects i).size ≠ 0) →
      render_context_gl.add_buffer_object c size = (-1, c) ∧
      render_context_metal.add_buffer_object c size = (-1, c)) := by
  have hr : ¬ (handle < 0 ∨ handle ≥ (MAX_GEOMETRY : Nat)) := by omega
  rw [metal_geometry_begin_eq, metal_allocate_eq]
  refine ⟨?_, ?_, ?_, add_buffer_object_full c size⟩
  · intro a1 a2 a3 a4
    exact ⟨(gl_begin_one_stream_full c handle nv ni update vp ip hr hmode).1 a1 a2 a3 a4,
      (gl_begin_one_stream_full c handle nv ni update vp ip hr hmode).1 a1 a2 a3 a4⟩
  · intro a1 a2 a3 a4
    exact ⟨(gl_begin_one_stream_full c handle nv ni update vp ip hr hmode).2 a1 a2 a3 a4,
      (gl_begin_one_stream_full c handle nv ni update vp ip hr hmode).2 a1 a2 a3 a4⟩
  · intro a1 a2 a3 a4 a5 a6
    exact ⟨gl_begin_two_streams_full c handle nv ni update vp ip hr hmode a1 a2 a3 a4 a5 a6,
      gl_begin_two_streams_full c handle nv ni update vp ip hr hmode a1 a2 a3 a4 a5 a6⟩

/-- C21 on an example: a geometry at handle 0 and a buffer table whose 2048 slots
all have size 4.  `geometry_begin(0, 4, 0, .., GEOMETRY_VERTEX)` throws "Out of
memory"; `add_buffer_object(.., 16)` returns -1 and changes nothing. -/
theorem geometry_begin_out_of_memory_witness :
    (render_context_gl.geometry_begin
      { (render_context_gl.add_geometry render_context.blank.init 1).2 with
        _buffer_objects := fun _ => ⟨COMPUTE_BUFFER, 4, none⟩ }
      0 4 0 (some none) (some none) GEOMETRY_VERTEX).status = .out_of_memory ∧
    render_context_gl.add_buffer_object
      { (render_context_gl.add_geometry render_context.blank.init 1).2 with
        _buffer_objects := fun _ => ⟨COMPUTE_BUFFER, 4, none⟩ } 16 =
      (-1, { (render_context_gl.add_geometry render_context.blank.init 1).2 with
        _buffer_objects := fun _ => ⟨COMPUTE_BUFFER, 4, none⟩ }) :=
  ⟨((geometry_begin_out_of_memory
      { (render_context_gl.add_geometry render_context.blank.init 1).2 with
        _buffer_objects := fun _ => ⟨COMPUTE_BUFFER, 4, none⟩ }
      0 4 0 GEOMETRY_VERTEX 16 (some none) (some none) (by decide) (by decide) (by decide)).1
      (by decide) (by decide) (by decide) (by decide)).1.mpr
      (fun _ _ => show (4 : Int) ≠ 0 by decide),
    ((geometry_begin_out_of_memory
      { (render_context_gl.add_geometry render_context.blank.init 1).2 with
        _buffer_objects := fun _ => ⟨COMPUTE_BUFFER, 4, none⟩ }
      0 4 0 GEOMETRY_VERTEX 16 (some none) (some none) (by decide) (by decide) (by decide)).2.2.2
      (fun _ _ => show (4 : Int) ≠ 0 by decide)).1⟩

/-! ## The packed blob and the render pass -/

theorem metal_get_texture_isSome (c : render_context) (h : Int) :
    (render_context_metal.get_texture c h).isSome = decide (0 ≤ h ∧ h < (MAX_TEXTURE : Nat)) := by
  unfold render_context_metal.get_texture
  by_cases hr : h < 0 ∨ h ≥ (MAX_TEXTURE : Nat)
  · rw [if_pos hr]
    have : ¬ (0 ≤ h ∧ h < (MAX_TEXTURE : Nat)) := by omega
    simp [this]
  · rw [if_neg hr]
    have : (0 ≤ h ∧ h < (MAX_TEXTURE : Nat)) := by omega
    simp [this]

theorem renderpass_begin_ok_state (m : render_context_metal) (descr : renderpass_descriptor)
    (h : (render_context_metal.renderpass_begin m descr).1 = .ok) :
    (render_context_metal.renderpass_begin m descr).2._raw_uniforms = [] ∧
    (render_context_metal.renderpass_begin m descr).2.torender_context = m.torender_context ∧
    (render_context_metal.renderpass_begin m descr).2.m_current_renderpass_descriptor =
      descr := by
  revert h
  unfold render_context_metal.renderpass_begin
  dsimp only
  split_ifs <;> first | (intro _; exact ⟨rfl, rfl, rfl⟩) | (intro h; cases h)

theorem renderpass_begin_ok_iff (m : render_context_metal) (descr : renderpass_descriptor) :
    (render_context_metal.renderpass_begin m descr).1 = .ok ↔
      render_context_metal.renderpass_targets_exist m descr := by
  unfold render_context_metal.renderpass_begin render_context_metal.renderpass_targets_exist
    render_context_metal.get_frame_buffer
  simp only [metal_get_texture_isSome]
  by_cases hc : descr.compute_shader = true
  · simp [hc]
  · rw [if_neg hc]
    by_cases hf : descr.frame_buffer_handle ≥ 0
    · rw [if_pos hf]
      have e2 : ¬ descr.frame_buffer_handle < 0 := by omega
      by_cases hf2 : descr.frame_buffer_handle ≥ (MAX_FRAMEBUFFER : Nat)
      · rw [if_pos (Or.inr hf2)]
        have e3 : ¬ descr.frame_buffer_handle < (MAX_FRAMEBUFFER : Nat) := by omega
        simp [hc, e2, e3]
      · have e1 : ¬ (descr.frame_buffer_handle < 0 ∨
            descr.frame_buffer_handle ≥ (MAX_FRAMEBUFFER : Nat)) := by omega
        rw [if_neg e1]
        have e3 : descr.frame_buffer_handle < (MAX_FRAMEBUFFER : Nat) := by omega
        have e4 : 0 ≤ descr.frame_buffer_handle := hf
        by_cases ht : 0 ≤ (m._frame_buffers descr.frame_buffer_handle.toNat).texture_handle ∧
            (m._frame_buffers descr.frame_buffer_handle.toNat).texture_handle
              < (MAX_TEXTURE : Nat)
        · by_cases hd : (m._frame_buffers
              descr.frame_buffer_handle.toNat).depth_texture_handle < (MAX_TEXTURE : Nat)
          · by_cases hd0 : (m._frame_buffers
                descr.frame_buffer_handle.toNat).depth_texture_handle < 0
            · simp [hc, e2, e3, e4, ht.1, ht.2, hd, hd0]
            · have hd3 : 0 ≤ (m._frame_buffers
                  descr.frame_buffer_handle.toNat).depth_texture_handle := by omega
              simp [hc, e2, e3, e4, ht.1, ht.2, hd, hd0, hd3]
          · have hd0 : ¬ (m._frame_buffers
                descr.frame_buffer_handle.toNat).depth_texture_handle < 0 := by omega
            simp [hc, e2, e3, e4, ht.1, ht.2, hd, hd0]
        · by_cases ht0 : 0 ≤ (m._frame_buffers descr.frame_buffer_handle.toNat).texture_handle
          · have ht1 : ¬ (m._frame_buffers descr.frame_buffer_handle.toNat).texture_handle
                < (MAX_TEXTURE : Nat) := fun h => ht ⟨ht0, h⟩
            simp [hc, e2, e3, e4, ht0, ht1]
          · simp [hc, e2, e3, e4, ht0]
    · rw [if_neg hf]
      have e2 : descr.frame_buffer_handle < 0 := by omega
      have e3 : ¬ 0 ≤ descr.frame_buffer_handle := by omega
      by_cases hd : descr.depth_texture_handle < (MAX_TEXTURE : Nat)
      · by_cases hd0 : descr.depth_texture_handle < 0
        · simp [hc, e2, e3, hd, hd0]
        · have hd3 : 0 ≤ descr.depth_texture_handle := by omega
          simp [hc, e2, e3, hd, hd0, hd3]
      · have hd0 : ¬ descr.depth_texture_handle < 0 := by omega
        simp [hc, e2, e3, hd, hd0]

theorem metal_bind_uniform_tables (m : render_context_metal) (program uniform : Int) :
    (render_context_metal.bind_uniform m program uniform).torender_context =
      m.torender_context := by
  unfold render_context_metal.bind_uniform
  dsimp only
  split_ifs <;> rfl

theorem metal_bind_uniform_congr (m1 m2 : render_context_metal) (program uniform : Int)
    (hu : m1._uniforms = m2._uniforms) (hp : m1._shader_programs = m2._shader_programs)
    (hr : m1._raw_uniforms = m2._raw_uniforms) :
    (render_context_metal.bind_uniform m1 program uniform)._raw_uniforms =
      (render_context_metal.bind_uniform m2 program uniform)._raw_uniforms := by
  unfold render_context_metal.bind_uniform
  dsimp only
  rw [hu, hp, hr]
  split_ifs <;> first | rfl | exact hr

theorem metal_bind_uniforms_congr (calls : List (Int × Int)) :
    ∀ (m1 m2 : render_context_metal), m1._uniforms = m2._uniforms →
      m1._shader_programs = m2._shader_programs → m1._raw_uniforms = m2._raw_uniforms →
      (render_context_metal.bind_uniforms m1 calls)._raw_uniforms =
        (render_context_metal.bind_uniforms m2 calls)._raw_uniforms := by
  induction calls with
  | nil => intro m1 m2 _ _ hr; exact hr
  | cons call rest ih =>
    intro m1 m2 hu hp hr
    have t1 := metal_bind_uniform_tables m1 call.1 call.2
    have t2 := metal_bind_uniform_tables m2 call.1 call.2
    exact ih _ _
      ((congrArg render_context._uniforms t1).trans (hu.trans
        (congrArg render_context._uniforms t2).symm))
      ((congrArg render_context._shader_programs t1).trans (hp.trans
        (congrArg render_context._shader_programs t2).symm))
      (metal_bind_uniform_congr m1 m2 call.1 call.2 hu hp hr)

theorem metal_bind_uniform_first (m : render_context_metal) (program uniform : Int)
    (bytes : List Nat) (hempty : m._raw_uniforms = [])
    (hp0 : 0 ≤ program) (hp1 : program < 1024)
    (hlinked : (m._shader_programs program.toNat).linked ≠ 0)
    (hu0 : 0 ≤ uniform) (hu1 : uniform < 1024)
    (hraw : (m._uniforms uniform.toNat).raw = some bytes)
    (hlen : bytes.length = (m._uniforms uniform.toNat).size.toNat)
    (hsize : (m._uniforms uniform.toNat).size =
      ((uniform_type_to_declaration (m._uniforms uniform.toNat).uniform_type).number_of_entries *
        (uniform_type_to_declaration (m._uniforms uniform.toNat).uniform_type).size_of_entry *
        (m._uniforms uniform.toNat).num : Nat))
    (hnum : (m._uniforms uniform.toNat).num < 65536) :
    (render_context_metal.bind_uniform m program uniform)._raw_uniforms =
      bytes ++ List.replicate
        ((uniform_type_to_alignment (m._uniforms uniform.toNat).uniform_type).size *
          (m._uniforms uniform.toNat).num - (m._uniforms uniform.toNat).size.toNat) 0 := by
  have hpr : ¬ (program < 0 ∨ program ≥ (MAX_SHADER_PROGRAM : Nat)) := by
    simp only [MAX_SHADER_PROGRAM]; omega
  have hur : ¬ (uniform < 0 ∨ uniform ≥ (MAX_UNIFORMS : Nat)) := by
    simp only [MAX_UNIFORMS]; omega
  have hpad : render_context_metal.pad
      (uniform_type_to_alignment (m._uniforms uniform.toNat).uniform_type).align
      (uniform_type_to_alignment (m._uniforms uniform.toNat).uniform_type).align
      m._raw_uniforms = [] := by
    rw [hempty]
    have := pad_append (uniform_type_to_alignment (m._uniforms uniform.toNat).uniform_type).align
      0 (uniform_type_to_alignment (m._uniforms uniform.toNat).uniform_type).align []
      (Nat.zero_le _) (by simp) (fun j hj => absurd hj (Nat.not_lt_zero j))
    simpa using this
  have hmod : (m._uniforms uniform.toNat).size % 2 ^ 32 = (m._uniforms uniform.toNat).size := by
    apply Int.emod_eq_of_lt
    · rw [hsize]; exact Int.natCast_nonneg _
    · rw [hsize]; exact_mod_cast declared_size_lt _ _ hnum
  simp only [render_context_metal.bind_uniform, hpr, hur, hlinked, if_false, hpad, hraw,
    Option.getD_some, read_block bytes _ hlen, hmod, List.nil_append]

/-- C22: in the command-buffer backend `renderpass_begin`, for a render or a
compute pass whose descriptor names targets that exist, returns and leaves the
packed blob empty and the inherited tables as they were; so for any two prior
states with the same uniform and program tables, whatever their blobs and their
descriptors, the same run of `bind_uniform` calls after `renderpass_begin` packs
the same blob, and the first uniform bound in the pass (linked program, slot in
use with its block of `size` bytes) lands at offset 0: the blob is its bytes
followed by the zeros that fill its packed size. -/
theorem renderpass_begin_scopes_blob (m1 m2 : render_context_metal)
    (d1 d2 : renderpass_descriptor) (calls : List (Int × Int))
    (hu : m1._uniforms = m2._uniforms) (hp : m1._shader_programs = m2._shader_programs)
    (h1 : render_context_metal.renderpass_targets_exist m1 d1)
    (h2 : render_context_metal.renderpass_targets_exist m2 d2) :
    (render_context_metal.renderpass_begin m1 d1).1 = .ok ∧
    (render_context_metal.renderpass_begin m2 d2).1 = .ok ∧
    (render_context_metal.renderpass_begin m1 d1).2._raw_uniforms = [] ∧
    (render_context_metal.renderpass_begin m1 d1).2.torender_context = m1.torender_context ∧
    (render_context_metal.bind_uniforms (render_context_metal.renderpass_begin m1 d1).2
        calls)._raw_uniforms =
      (render_context_metal.bind_uniforms (render_context_metal.renderpass_begin m2 d2).2
        calls)._raw_uniforms ∧
    ∀ (program uniform : Int) (bytes : List Nat),
      0 ≤ program → program < 1024 → (m1._shader_programs program.toNat).linked ≠ 0 →
      0 ≤ uniform → uniform < 1024 → (m1._uniforms uniform.toNat).raw = some bytes →
      bytes.length = (m1._uniforms uniform.toNat).size.toNat →
      (m1._uniforms uniform.toNat).size =
        ((uniform_type_to_declaration
            (m1._uniforms uniform.toNat).uniform_type).number_of_entries *
          (uniform_type_to_declaration (m1._uniforms uniform.toNat).uniform_type).size_of_entry *
          (m1._uniforms uniform.toNat).num : Nat) →
      (m1._uniforms uniform.toNat).num < 65536 →
      (render_context_metal.bind_uniform (render_context_metal.renderpass_begin m1 d1).2
          program uniform)._raw_uniforms =
        bytes ++ List.replicate
          ((uniform_type_to_alignment (m1._uniforms uniform.toNat).uniform_type).size *
            (m1._uniforms uniform.toNat).num - (m1._uniforms uniform.toNat).size.toNat) 0 := by
  have ok1 := (renderpass_begin_ok_iff m1 d1).2 h1
  have ok2 := (renderpass_begin_ok_iff m2 d2).2 h2
  obtain ⟨e1, t1, -⟩ := renderpass_begin_ok_state m1 d1 ok1
  obtain ⟨e2, t2, -⟩ := renderpass_begin_ok_state m2 d2 ok2
  have tu : (render_context_metal.renderpass_begin m1 d1).2._uniforms = m1._uniforms :=
    congrArg render_context._uniforms t1
  have tp : (render_context_metal.renderpass_begin m1 d1).2._shader_programs =
      m1._shader_programs := congrArg render_context._shader_programs t1
  refine ⟨ok1, ok2, e1, t1, ?_, ?_⟩
  · exact metal_bind_uniforms_congr calls _ _
      (tu.trans (hu.trans (congrArg render_context._uniforms t2).symm))
      (tp.trans (hp.trans (congrArg render_context._shader_programs t2).symm))
      (e1.trans e2.symm)
  · intro program uniform bytes hp0 hp1 hlinked hu0 hu1 hraw hlen hsize hnum
    have := metal_bind_uniform_first (render_context_metal.renderpass_begin m1 d1).2
      program uniform bytes e1 hp0 hp1 (by rw [tp]; exact hlinked) hu0 hu1
      (by rw [tu]; exact hraw) (by rw [tu]; exact hlen) (by rw [tu]; exact hsize)
      (by rw [tu]; exact hnum)
    rw [tu] at this
    exact this

theorem renderpass_begin_scopes_blob_witness :
    (render_context_metal.renderpass_begin
      (render_context_metal.with_linked_program
        ((render_context.blank.init.add_uniform [88] .vec3 1).2.set_uniform 551
          [1, 2, 3, 4, 5, 6, 7, 8, 9, 10, 11, 12]) [255, 254, 253, 252])
      ⟨-1, 0, 0, -1, -1, 0, 0, -1, false⟩).1 = .ok ∧
    (render_context_metal.bind_uniforms (render_context_metal.renderpass_begin
      (render_context_metal.with_linked_program
        ((render_context.blank.init.add_uniform [88] .vec3 1).2.set_uniform 551
          [1, 2, 3, 4, 5, 6, 7, 8, 9, 10, 11, 12]) [255, 254, 253, 252])
      ⟨-1, 0, 0, -1, -1, 0, 0, -1, false⟩).2 [(0, 551), (0, 551)])._raw_uniforms =
    (render_context_metal.bind_uniforms (render_context_metal.renderpass_begin
      (render_context_metal.with_linked_program
        ((render_context.blank.init.add_uniform [88] .vec3 1).2.set_uniform 551
          [1, 2, 3, 4, 5, 6, 7, 8, 9, 10, 11, 12]) [77])
      ⟨-1, 0, 0, -1, -1, 0, 0, -1, true⟩).2 [(0, 551), (0, 551)])._raw_uniforms ∧
    (render_context_metal.bind_uniform (render_context_metal.renderpass_begin
      (render_context_metal.with_linked_program
        ((render_context.blank.init.add_uniform [88] .vec3 1).2.set_uniform 551
          [1, 2, 3, 4, 5, 6, 7, 8, 9, 10, 11, 12]) [255, 254, 253, 252])
      ⟨-1, 0, 0, -1, -1, 0, 0, -1, false⟩).2 0 551)._raw_uniforms =
      [1, 2, 3, 4, 5, 6, 7, 8, 9, 10, 11, 12] ++ List.replicate (16 * 1 - 12) 0 :=
  ⟨(renderpass_begin_scopes_blob
      (render_context_metal.with_linked_program
        ((render_context.blank.init.add_uniform [88] .vec3 1).2.set_uniform 551
          [1, 2, 3, 4, 5, 6, 7, 8, 9, 10, 11, 12]) [255, 254, 253, 252])
      (render_context_metal.with_linked_program
        ((render_context.blank.init.add_uniform [88] .vec3 1).2.set_uniform 551
          [1, 2, 3, 4, 5, 6, 7, 8, 9, 10, 11, 12]) [77])
      ⟨-1, 0, 0, -1, -1, 0, 0, -1, false⟩ ⟨-1, 0, 0, -1, -1, 0, 0, -1, true⟩
      [(0, 551), (0, 551)] rfl rfl (Or.inr (Or.inl ⟨by decide, by decide⟩)) (Or.inl rfl)).1,
    (renderpass_begin_scopes_blob
      (render_context_metal.with_linked_program
        ((render_context.blank.init.add_uniform [88] .vec3 1).2.set_uniform 551
          [1, 2, 3, 4, 5, 6, 7, 8, 9, 10, 11, 12]) [255, 254, 253, 252])
      (render_context_metal.with_linked_program
        ((render_context.blank.init.add_uniform [88] .vec3 1).2.set_uniform 551
          [1, 2, 3, 4, 5, 6, 7, 8, 9, 10, 11, 12]) [77])
      ⟨-1, 0, 0, -1, -1, 0, 0, -1, false⟩ ⟨-1, 0, 0, -1, -1, 0, 0, -1, true⟩
      [(0, 551), (0, 551)] rfl rfl (Or.inr (Or.inl ⟨by decide, by decide⟩))
      (Or.inl rfl)).2.2.2.2.1,
    (renderpass_begin_scopes_blob
      (render_context_metal.with_linked_program
        ((render_context.blank.init.add_uniform [88] .vec3 1).2.set_uniform 551
          [1, 2, 3, 4, 5, 6, 7, 8, 9, 10, 11, 12]) [255, 254, 253, 252])
      (render_context_metal.with_linked_program
        ((render_context.blank.init.add_uniform [88] .vec3 1).2.set_uniform 551
          [1, 2, 3, 4, 5, 6, 7, 8, 9, 10, 11, 12]) [77])
      ⟨-1, 0, 0, -1, -1, 0, 0, -1, false⟩ ⟨-1, 0, 0, -1, -1, 0, 0, -1, true⟩
      [(0, 551), (0, 551)] rfl rfl (Or.inr (Or.inl ⟨by decide, by decide⟩))
      (Or.inl rfl)).2.2.2.2.2 0 551 [1, 2, 3, 4, 5, 6, 7, 8, 9, 10, 11, 12]
      (by decide) (by decide) (by decide) (by decide) (by decide) (by decide) (by decide)
      (by decide) (by decide)⟩

/-! ## The view-projection matrix -/

theorem invert_orthonormal_identity : invert_orthonormal get_identity = get_identity := by
  simp [invert_orthonormal, get_identity, transpose, unpacklo, unpackhi, float4.neg,
    float4.add, float4.scale, float4.mul, float4.splat]

theorem matrix_matrix_multiply_identity (left : float4x4) :
    matrix_matrix_multiply left get_identity = left := by
  obtain ⟨⟨a0, a1, a2, a3⟩, ⟨b0, b1, b2, b3⟩, ⟨c0, c1, c2, c3⟩, ⟨d0, d1, d2, d3⟩⟩ := left
  simp [matrix_matrix_multiply, get_identity, transpose, unpacklo, unpackhi, dot4]

/-- C23: for every view-state whose camera matrix is the identity,
`set_model_view_properties` stores as view-projection matrix the matrix that
`make_projection_matrix` builds, entry for entry, in exact arithmetic; the stored
camera matrix is the identity.  When `orthogonal` is 0 the projection is the
frustum matrix and the last row of the view-projection matrix is that of the
frustum matrix, `(0, 0, -1, 0)`.  The function reads no member of a backend. -/
theorem set_model_view_properties_identity_camera (props : model_view_properties)
    (hcamera : props.camera_space = get_identity) :
    (render_engine.set_model_view_properties props)._last_view_project =
      props.make_projection_matrix ∧
    (render_engine.set_model_view_properties props)._last_projection =
      props.make_projection_matrix ∧
    (render_engine.set_model_view_properties props)._last_camera = get_identity ∧
    (props.orthogonal = 0 →
      props.make_projection_matrix =
        frustum (-(props.zoom_x * props.near_clip)) (props.zoom_x * props.near_clip)
          (props.zoom_y * props.near_clip) (-(props.zoom_y * props.near_clip))
          props.near_clip props.far_clip ∧
      (render_engine.set_model_view_properties props)._last_view_project.last_row =
        ⟨0, 0, -1, 0⟩ ∧
      (frustum (-(props.zoom_x * props.near_clip)) (props.zoom_x * props.near_clip)
          (props.zoom_y * props.near_clip) (-(props.zoom_y * props.near_clip))
          props.near_clip props.far_clip).last_row = ⟨0, 0, -1, 0⟩) := by
  have hvp : (render_engine.set_model_view_properties props)._last_view_project =
      props.make_projection_matrix := by
    show matrix_matrix_multiply props.make_projection_matrix
      (invert_orthonormal props.camera_space) = props.make_projection_matrix
    rw [hcamera, invert_orthonormal_identity, matrix_matrix_multiply_identity]
  refine ⟨hvp, rfl, ?_, ?_⟩
  · show invert_orthonormal props.camera_space = get_identity
    rw [hcamera, invert_orthonormal_identity]
  · intro ho
    have hproj : props.make_projection_matrix =
        frustum (-(props.zoom_x * props.near_clip)) (props.zoom_x * props.near_clip)
          (props.zoom_y * props.near_clip) (-(props.zoom_y * props.near_clip))
          props.near_clip props.far_clip := by
      unfold model_view_properties.make_projection_matrix
      dsimp only
      rw [if_neg (not_not.mpr ho)]
    refine ⟨hproj, ?_, rfl⟩
    rw [hvp, hproj]
    rfl

/-- C23 on the view-state `init` sets up (identity camera, `orthogonal` 0, near
1/8, far 4096, zoom 1, 1): the view-projection matrix is the projection matrix
and its last row is `(0, 0, -1, 0)`. -/
theorem set_model_view_properties_identity_camera_witness :
    (render_engine.set_model_view_properties
        (model_view_properties.init 800 600))._last_view_project =
      (model_view_properties.init 800 600).make_projection_matrix ∧
    (render_engine.set_model_view_properties
        (model_view_properties.init 800 600))._last_view_project.last_row = ⟨0, 0, -1, 0⟩ :=
  ⟨(set_model_view_properties_identity_camera (model_view_properties.init 800 600) rfl).1,
    ((set_model_view_properties_identity_camera (model_view_properties.init 800 600)
      rfl).2.2.2 rfl).2.1⟩

/-! ## Frame pacing -/

theorem metal_frame_step_paced (s s1 : metal_frames) (call : frame_call)
    (hstep : render_context_metal.frame_step s call = some s1)
    (hinv : s.context._semaphore + render_context_metal.outstanding s = 1) :
    s1.context._semaphore + render_context_metal.outstanding s1 = 1 := by
  cases call with
  | frame_begin =>
    unfold render_context_metal.frame_step render_context_metal.frame_begin at hstep
    by_cases h0 : s.context._semaphore = 0
    · rw [if_pos h0] at hstep; cases hstep
    · rw [if_neg h0] at hstep
      simp only [Option.map_some', Option.some.injEq] at hstep
      subst hstep
      unfold render_context_metal.outstanding at hinv ⊢
      dsimp only at hinv ⊢
      by_cases hb : s.context.mp_command_buffer = true
      · rw [if_pos hb] at hinv; omega
      · rw [if_neg hb] at hinv; simp only [if_true]; omega
  | frame_end w =>
    unfold render_context_metal.frame_step at hstep
    simp only [Option.some.injEq] at hstep
    subst hstep
    unfold render_context_metal.outstanding render_context_metal.frame_end at *
    dsimp only at hinv ⊢
    by_cases hb : s.context.mp_command_buffer = true
    · rw [if_pos hb] at hinv ⊢; simp only [Bool.false_eq_true, if_false]; omega
    · rw [if_neg hb] at hinv ⊢; simp only [Bool.false_eq_true, if_false]; omega
  | completed =>
    unfold render_context_metal.frame_step at hstep
    simp only [Option.some.injEq] at hstep
    subst hstep
    unfold render_context_metal.completed_handler
    by_cases h0 : s.in_flight = 0
    · rw [if_pos h0]; exact hinv
    · rw [if_neg h0]
      unfold render_context_metal.outstanding at hinv ⊢
      dsimp only at hinv ⊢
      omega

theorem metal_frame_run_paced (calls : List frame_call) :
    ∀ (s s1 : metal_frames), render_context_metal.frame_run s calls = some s1 →
      s.context._semaphore + render_context_metal.outstanding s = 1 →
      s1.context._semaphore + render_context_metal.outstanding s1 = 1 := by
  induction calls with
  | nil =>
    intro s s1 hrun hinv
    simp only [render_context_metal.frame_run, Option.some.injEq] at hrun
    subst hrun
    exact hinv
  | cons call rest ih =>
    intro s s1 hrun hinv
    unfold render_context_metal.frame_run at hrun
    cases hstep : render_context_metal.frame_step s call with
    | none => rw [hstep] at hrun; cases hrun
    | some s2 =>
      rw [hstep] at hrun
      exact ih s2 s1 hrun (metal_frame_step_paced s s2 call hstep hinv)

theorem metal_second_frame_begin_blocks (mid : List frame_call)
    (hmid : ∀ w, frame_call.frame_end w ∉ mid) :
    ∀ (s : metal_frames), s.context._semaphore = 0 → s.in_flight = 0 →
      render_context_metal.frame_run s (mid ++ [frame_call.frame_begin]) = none := by
  induction mid with
  | nil =>
    intro s h0 _
    simp [render_context_metal.frame_run, render_context_metal.frame_step,
      render_context_metal.frame_begin, h0]
  | cons call rest ih =>
    intro s h0 hf
    have hrest : ∀ w, frame_call.frame_end w ∉ rest := fun w h =>
      hmid w (List.mem_cons_of_mem _ h)
    cases call with
    | frame_begin =>
      simp [render_context_metal.frame_run, render_context_metal.frame_step,
        render_context_metal.frame_begin, h0]
    | frame_end w => exact absurd (List.mem_cons_self _ _) (hmid w)
    | completed =>
      have hsame : render_context_metal.completed_handler s = s := by
        unfold render_context_metal.completed_handler
        rw [if_pos hf]
      simp only [List.cons_append, render_context_metal.frame_run,
        render_context_metal.frame_step, hsame]
      exact ih hrest s h0 hf

theorem gl_second_frame_begin_blocks (mid : List frame_call)
    (hmid : ∀ w, frame_call.frame_end w ∉ mid) :
    ∀ (g : render_context_gl), g._semaphore = true →
      render_context_gl.frame_run g (mid ++ [frame_call.frame_begin]) = none := by
  induction mid with
  | nil =>
    intro g h0
    simp [render_context_gl.frame_run, render_context_gl.frame_step,
      render_context_gl.frame_begin, h0]
  | cons call rest ih =>
    intro g h0
    have hrest : ∀ w, frame_call.frame_end w ∉ rest := fun w h =>
      hmid w (List.mem_cons_of_mem _ h)
    cases call with
    | frame_begin =>
      simp [render_context_gl.frame_run, render_context_gl.frame_step,
        render_context_gl.frame_begin, h0]
    | frame_end w => exact absurd (List.mem_cons_self _ _) (hmid w)
    | completed =>
      simp only [List.cons_append, render_context_gl.frame_run,
        render_context_gl.frame_step]
      exact ih hrest g h0

/-- C24: frame pacing.  Command-buffer backend, in every state `s` reached from
the constructed context by calls of `frame_begin`, `frame_end` and completions
that all return: the semaphore plus the number of outstanding frames is 1, so at
most one frame is outstanding; with none outstanding `frame_begin` returns, takes
the semaphore to 0, and from there a second `frame_begin` does not return
whatever calls other than `frame_end` come in between; with one outstanding
`frame_begin` does not return; `frame_end` leaves the semaphore alone and the
completion of the command buffer in flight gives it back.  Direct-state backend:
`frame_begin` on the unlocked mutex returns and locks it, from there a second
`frame_begin` does not return whatever calls other than `frame_end` come in
between, `frame_end` unlocks it and `frame_begin` then returns again; on the
locked mutex `frame_begin` does not return. -/
theorem frame_pacing_single_frame (c : render_context) (one add : Int)
    (calls mid : List frame_call) (s : metal_frames) (g : render_context_gl)
    (hs : render_context_metal.frame_run ⟨render_context_metal.construct c one add, 0⟩ calls =
      some s)
    (hmid : ∀ w, frame_call.frame_end w ∉ mid) :
    s.context._semaphore + render_context_metal.outstanding s = 1 ∧
    render_context_metal.outstanding s ≤ 1 ∧
    (render_context_metal.outstanding s = 0 →
      ∃ m1, render_context_metal.frame_begin s.context = some m1 ∧ m1._semaphore = 0 ∧
        render_context_metal.outstanding ⟨m1, s.in_flight⟩ = 1 ∧
        render_context_metal.frame_run ⟨m1, s.in_flight⟩ (mid ++ [frame_call.frame_begin]) =
          none) ∧
    (render_context_metal.outstanding s = 1 →
      render_context_metal.frame_begin s.context = none) ∧
    (∀ w, (render_context_metal.frame_end s w).context._semaphore = s.context._semaphore ∧
      render_context_metal.outstanding (render_context_metal.frame_end s w) =
        render_context_metal.outstanding s) ∧
    (s.in_flight = 1 →
      (render_context_metal.completed_handler s).context._semaphore = 1 ∧
      render_context_metal.outstanding (render_context_metal.completed_handler s) = 0) ∧
    (g._semaphore = false →
      ∃ g1, render_context_gl.frame_begin g = some g1 ∧ g1._semaphore = true ∧
        render_context_gl.frame_run g1 (mid ++ [frame_call.frame_begin]) = none ∧
        (render_context_gl.frame_end g1)._semaphore = false ∧
        (render_context_gl.frame_begin (render_context_gl.frame_end g1)).isSome = true) ∧
    (g._semaphore = true → render_context_gl.frame_begin g = none) := by
  have hinv : s.context._semaphore + render_context_metal.outstanding s = 1 :=
    metal_frame_run_paced calls _ s hs rfl
  refine ⟨hinv, by omega, ?_, ?_, ?_, ?_, ?_, ?_⟩
  · intro h0
    have hsem : s.context._semaphore = 1 := by omega
    have hne : ¬ s.context._semaphore = 0 := by omega
    have hout := h0
    unfold render_context_metal.outstanding at hout
    have hfl : s.in_flight = 0 := by omega
    refine ⟨{ s.context with _semaphore := s.context._semaphore - 1, mp_command_buffer := true },
      ?_, ?_, ?_, ?_⟩
    · unfold render_context_metal.frame_begin
      rw [if_neg hne]
    · show s.context._semaphore - 1 = 0
      omega
    · unfold render_context_metal.outstanding
      dsimp only
      rw [if_pos rfl, hfl]
    · exact metal_second_frame_begin_blocks mid hmid _
        (show s.context._semaphore - 1 = 0 by omega) hfl
  · intro h1
    have hsem : s.context._semaphore = 0 := by omega
    unfold render_context_metal.frame_begin
    rw [if_pos hsem]
  · intro w
    refine ⟨rfl, ?_⟩
    unfold render_context_metal.outstanding render_context_metal.frame_end
    dsimp only
    by_cases hb : s.context.mp_command_buffer = true
    · simp only [hb, if_true, Bool.false_eq_true, if_false]; omega
    · simp only [hb, Bool.false_eq_true, if_false]
  · intro h1
    have hne : ¬ s.in_flight = 0 := by omega
    have hout : render_context_metal.outstanding s = 1 := by
      have : 1 ≤ render_context_metal.outstanding s := by
        unfold render_context_metal.outstanding; omega
      omega
    have hsem : s.context._semaphore = 0 := by omega
    have hb : ¬ s.context.mp_command_buffer = true := by
      intro hb
      unfold render_context_metal.outstanding at hout
      rw [if_pos hb] at hout
      omega
    unfold render_context_metal.completed_handler
    rw [if_neg hne]
    refine ⟨by show s.context._semaphore + 1 = 1; omega, ?_⟩
    unfold render_context_metal.outstanding
    dsimp only
    rw [if_neg hb]
    omega
  · intro hg
    refine ⟨{ g with _semaphore := true }, ?_, rfl, ?_, rfl, ?_⟩
    · unfold render_context_gl.frame_begin
      rw [hg]
      rfl
    · exact gl_second_frame_begin_blocks mid hmid _ rfl
    · rfl
  · intro hg
    unfold render_context_gl.frame_begin
    rw [hg]
    rfl

/-- C24 on an example: after `frame_begin`, `frame_end`, the completion, and a
second `frame_begin`, one frame is outstanding and a third `frame_begin` does not
return. -/
theorem frame_pacing_single_frame_witness :
    render_context_metal.outstanding
      ⟨{ render_context_metal.construct render_context.blank.init 1 0 with
          _semaphore := 0, mp_command_buffer := true }, 0⟩ ≤ 1 ∧
    render_context_metal.frame_begin
      { render_context_metal.construct render_context.blank.init 1 0 with
          _semaphore := 0, mp_command_buffer := true } = none :=
  ⟨(frame_pacing_single_frame render_context.blank.init 1 0
      [.frame_begin, .frame_end false, .completed, .frame_begin] [.completed, .completed]
      ⟨{ render_context_metal.construct render_context.blank.init 1 0 with
          _semaphore := 0, mp_command_buffer := true }, 0⟩
      ⟨render_context.blank.init, false⟩ rfl (by decide)).2.1,
    (frame_pacing_single_frame render_context.blank.init 1 0
      [.frame_begin, .frame_end false, .completed, .frame_begin] [.completed, .completed]
      ⟨{ render_context_metal.construct render_context.blank.init 1 0 with
          _semaphore := 0, mp_command_buffer := true }, 0⟩
      ⟨render_context.blank.init, false⟩ rfl (by decide)).2.2.2.1 rfl⟩

/-! ## The probe of `add_uniform` -/

theorem uniform_probe_none {p : Nat → Bool} {n s : Nat}
    (h : render_context.add_uniform.probe p n s = none) (hs : s < MAX_UNIFORMS) :
    ∀ k, k < n → p ((s + k) % MAX_UNIFORMS) = false := by
  induction n generalizing s with
  | zero => intro k hk; omega
  | succ n ih =>
    unfold render_context.add_uniform.probe at h
    by_cases hp : p s = true
    · simp only [hp, if_true] at h
      cases h
    · simp only [hp, Bool.false_eq_true, if_false] at h
      intro k hk
      cases k with
      | zero =>
        rw [Nat.add_zero, Nat.mod_eq_of_lt hs]
        simpa using hp
      | succ k =>
        have := ih h (Nat.mod_lt _ (by decide)) k (by omega)
        rw [Nat.mod_add_mod] at this
        rw [show s + (k + 1) = s + 1 + k by omega]
        exact this

theorem uniform_probe_first {p : Nat → Bool} {n s b : Nat}
    (h : render_context.add_uniform.probe p n s = some b) (hs : s < MAX_UNIFORMS) :
    ∃ k, k < n ∧ b = (s + k) % MAX_UNIFORMS ∧ p b = true ∧
      ∀ i, i < k → p ((s + i) % MAX_UNIFORMS) = false := by
  induction n generalizing s with
  | zero => simp [render_context.add_uniform.probe] at h
  | succ n ih =>
    unfold render_context.add_uniform.probe at h
    by_cases hp : p s = true
    · simp only [hp, if_true, Option.some.injEq] at h
      subst h
      exact ⟨0, Nat.succ_pos n, by rw [Nat.add_zero, Nat.mod_eq_of_lt hs], hp,
        fun i hi => absurd hi (Nat.not_lt_zero i)⟩
    · simp only [hp, Bool.false_eq_true, if_false] at h
      obtain ⟨k, hk, hb, hpb, hmin⟩ := ih h (Nat.mod_lt _ (by decide))
      refine ⟨k + 1, by omega, ?_, hpb, ?_⟩
      · rw [hb, Nat.mod_add_mod, show s + (k + 1) = s + 1 + k by omega]
      · intro i hi
        cases i with
        | zero =>
          rw [Nat.add_zero, Nat.mod_eq_of_lt hs]
          simpa using hp
        | succ i =>
          have := hmin i (by omega)
          rw [Nat.mod_add_mod] at this
          rw [show s + (i + 1) = s + 1 + i by omega]
          exact this

theorem uniform_probe_all_false {p : Nat → Bool} {s : Nat}
    (h : render_context.add_uniform.probe p MAX_UNIFORMS s = none) (hs : s < MAX_UNIFORMS) :
    ∀ j, j < MAX_UNIFORMS → p j = false := by
  intro j hj
  have hk := uniform_probe_none h hs ((j + MAX_UNIFORMS - s) % MAX_UNIFORMS)
    (Nat.mod_lt _ (by decide))
  have e : (s + (j + MAX_UNIFORMS - s) % MAX_UNIFORMS) % MAX_UNIFORMS = j := by
    simp only [MAX_UNIFORMS] at hs hj ⊢
    omega
  rw [e] at hk
  exact hk

theorem add_uniform_fails (c : render_context) (name : List Nat) (ty : uniform_type)
    (num : Nat) :
    ((c.add_uniform name ty num).1 = -1 ↔
      num = 0 ∨ ∀ j, j < MAX_UNIFORMS →
        (c._uniforms j).num ≠ 0 ∧ (c._uniforms j).name ≠ some name) ∧
    ((c.add_uniform name ty num).1 = -1 → (c.add_uniform name ty num).2 = c) := by
  by_cases hn : num ≤ 0
  · have h0 : num = 0 := by omega
    simp [render_context.add_uniform, h0]
  · cases hb : render_context.add_uniform.probe
        (fun b => (c._uniforms b).num == 0 || (c._uniforms b).name == some name)
        MAX_UNIFORMS (render_context.add_uniform.hash name % MAX_UNIFORMS) with
    | none =>
      have hall := uniform_probe_all_false hb (hash_bucket_lt name)
      have hres : c.add_uniform name ty num = (-1, c) := by
        simp only [render_context.add_uniform, hn, if_false, hb]
      rw [hres]
      refine ⟨⟨fun _ => Or.inr ?_, fun _ => rfl⟩, fun _ => rfl⟩
      intro j hj
      have := hall j hj
      simp only [Bool.or_eq_false_iff, beq_eq_false_iff_ne, ne_eq] at this
      exact this
    | some b =>
      have hpb := (probe_some hb (hash_bucket_lt name))
      rw [add_uniform_at c name ty num b (by omega) hb]
      have hne : ¬ ((b : Int) = -1) := by omega
      refine ⟨⟨fun h => absurd h hne, ?_⟩, fun h => absurd h hne⟩
      intro h
      rcases h with h | h
      · omega
      · have h1 := h b hpb.1
        have h2 := hpb.2
        simp only [Bool.or_eq_true, beq_iff_eq] at h2
        rcases h2 with h2 | h2
        · exact absurd h2 h1.1
        · exact absurd h2 h1.2

/-- C25: `add_uniform(name, type, num)` with `num > 0`.  The hash starts from
2166136261 and takes each character by `(hash xor ch) * 16777619` modulo `2^32`;
the bucket is the hash modulo 1024.  When some slot among the 1024 is free
(`num = 0`) or holds `name`, the call returns the first such slot in cyclic order
from the bucket: slot `(bucket + k) mod 1024` with no such slot at a smaller `k`;
that slot then holds `name`, `type`, `num`, the size
`entries(type) * entry_size(type) * num` and a block of that many bytes (36, 12
and 4 bytes per element for mat3, vec3 and real), and every other slot is as it
was.  The call returns -1 exactly when every one of the 1024 slots is in use by
another name, and then changes nothing; with `num = 0` it returns -1 and changes
nothing. -/
theorem add_uniform_probes_cyclically (c : render_context) (name : List Nat)
    (ty : uniform_type) (num : Nat) (hnum : 0 < num) :
    ((∃ j, j < MAX_UNIFORMS ∧
        ((c._uniforms j).num = 0 ∨ (c._uniforms j).name = some name)) →
      ∃ k, k < MAX_UNIFORMS ∧
        (c.add_uniform name ty num).1 =
          (((render_context.add_uniform.hash name % MAX_UNIFORMS + k) % MAX_UNIFORMS : Nat) :
            Int) ∧
        ((c._uniforms
            ((render_context.add_uniform.hash name % MAX_UNIFORMS + k) % MAX_UNIFORMS)).num = 0 ∨
          (c._uniforms
            ((render_context.add_uniform.hash name % MAX_UNIFORMS + k) % MAX_UNIFORMS)).name =
              some name) ∧
        (∀ i, i < k →
          (c._uniforms
            ((render_context.add_uniform.hash name % MAX_UNIFORMS + i) % MAX_UNIFORMS)).num ≠ 0 ∧
          (c._uniforms
            ((render_context.add_uniform.hash name % MAX_UNIFORMS + i) % MAX_UNIFORMS)).name ≠
              some name) ∧
        (c.add_uniform name ty num).2._uniforms
            ((render_context.add_uniform.hash name % MAX_UNIFORMS + k) % MAX_UNIFORMS) =
          { name := some name
            raw := some (new_uint8_array
              ((uniform_type_to_declaration ty).number_of_entries *
                (uniform_type_to_declaration ty).size_of_entry * num))
            size := ((uniform_type_to_declaration ty).number_of_entries *
                (uniform_type_to_declaration ty).size_of_entry * num : Nat)
            num := num
            uniform_type := ty } ∧
        (new_uint8_array
            ((uniform_type_to_declaration ty).number_of_entries *
              (uniform_type_to_declaration ty).size_of_entry * num)).length =
          (uniform_type_to_declaration ty).number_of_entries *
            (uniform_type_to_declaration ty).size_of_entry * num ∧
        ∀ j, j ≠ (render_context.add_uniform.hash name % MAX_UNIFORMS + k) % MAX_UNIFORMS →
          (c.add_uniform name ty num).2._uniforms j = c._uniforms j) ∧
    ((c.add_uniform name ty num).1 = -1 ↔
      ∀ j, j < MAX_UNIFORMS → (c._uniforms j).num ≠ 0 ∧ (c._uniforms j).name ≠ some name) ∧
    ((c.add_uniform name ty num).1 = -1 → (c.add_uniform name ty num).2 = c) ∧
    c.add_uniform name ty 0 = (-1, c) ∧
    (uniform_type_to_declaration .mat3).number_of_entries *
      (uniform_type_to_declaration .mat3).size_of_entry * num = 36 * num ∧
    (uniform_type_to_declaration .vec3).number_of_entries *
      (uniform_type_to_declaration .vec3).size_of_entry * num = 12 * num ∧
    (uniform_type_to_declaration .real).number_of_entries *
      (uniform_type_to_declaration .real).size_of_entry * num = 4 * num ∧
    render_context.add_uniform.hash [] = 2166136261 ∧
    ∀ (s : List Nat) (ch : Nat), render_context.add_uniform.hash (s ++ [ch]) =
      (render_context.add_uniform.hash s ^^^ ch) * 16777619 % 2 ^ 32 := by
  refine ⟨?_, ?_, (add_uniform_fails c name ty num).2, ?_, ?_, ?_, ?_, rfl, ?_⟩
  · rintro ⟨j, hj, hfree⟩
    cases hb : render_context.add_uniform.probe
        (fun b => (c._uniforms b).num == 0 || (c._uniforms b).name == some name)
        MAX_UNIFORMS (render_context.add_uniform.hash name % MAX_UNIFORMS) with
    | none =>
      have hall := uniform_probe_all_false hb (hash_bucket_lt name) j hj
      simp only [Bool.or_eq_false_iff, beq_eq_false_iff_ne, ne_eq] at hall
      rcases hfree with h | h
      · exact absurd h hall.1
      · exact absurd h hall.2
    | some b =>
      obtain ⟨k, hk, hbk, hpb, hmin⟩ := uniform_probe_first hb (hash_bucket_lt name)
      rw [add_uniform_at c name ty num b hnum hb]
      subst hbk
      refine ⟨k, hk, rfl, ?_, ?_, ?_, ?_, ?_⟩
      · simpa only [Bool.or_eq_true, beq_iff_eq] using hpb
      · intro i hi
        have := hmin i hi
        simpa only [Bool.or_eq_false_iff, beq_eq_false_iff_ne, ne_eq] using this
      · exact Function.update_same _ _ _
      · exact List.length_replicate _ _
      · intro j hj
        exact Function.update_noteq hj _ _
  · have h := (add_uniform_fails c name ty num).1
    constructor
    · intro h1
      rcases h.1 h1 with h2 | h2
      · omega
      · exact h2
    · intro h1
      exact h.2 (Or.inr h1)
  · simp [render_context.add_uniform]
  · simp only [uniform_type_to_declaration]
  · simp only [uniform_type_to_declaration]
  · simp only [uniform_type_to_declaration]
  · intro s ch
    simp only [render_context.add_uniform.hash, List.foldl_append, List.foldl_cons,
      List.foldl_nil]

/-- C25 on an example: on the table `init` leaves, `add_uniform("X", mat3, 2)`
returns slot `(bucket + k) mod 1024` for some `k` below 1024. -/
theorem add_uniform_probes_cyclically_witness :
    ∃ k, k < MAX_UNIFORMS ∧
      (render_context.blank.init.add_uniform [88] .mat3 2).1 =
        (((render_context.add_uniform.hash [88] % MAX_UNIFORMS + k) % MAX_UNIFORMS : Nat) :
          Int) :=
  ((add_uniform_probes_cyclically render_context.blank.init [88] .mat3 2 (by decide)).1
    ⟨551, by decide, Or.inl (by decide)⟩).imp fun _ h => ⟨h.1, h.2.1⟩

/-! ## Handles that reach the shader table -/

/-- C26, on the code: after `init` and one `add_shader` (a fragment shader, handle
0), `add_program(-1, 0, -1)` passes both handle tests, since the first one asks
for `compute_shader_handle < -1`; it takes program slot 0, stores the triple
`(-1, 0, -1)` and, having no compute shader, goes on to `&_shaders[-1]` and reads
`compiled` there, in both backends.  With the compute handle -2 instead the first
test returns -1. -/
theorem add_program_indexes_shader_minus_one :
    (render_context_gl.add_shader render_context.blank.init SHADER_FRAGMENT [70] 1).1 = 0 ∧
    (render_context_gl.add_program
      (render_context_gl.add_shader render_context.blank.init SHADER_FRAGMENT [70] 1).2
      (-1) 0 (-1) 1).status = .out_of_range ∧
    (render_context_gl.add_program
      (render_context_gl.add_shader render_context.blank.init SHADER_FRAGMENT [70] 1).2
      (-1) 0 (-1) 1).handle = 0 ∧
    ((render_context_gl.add_program
      (render_context_gl.add_shader render_context.blank.init SHADER_FRAGMENT [70] 1).2
      (-1) 0 (-1) 1).context._shader_programs 0) = ⟨-1, 0, -1, 0⟩ ∧
    (render_context_gl.add_program
      (render_context_gl.add_shader render_context.blank.init SHADER_FRAGMENT [70] 1).2
      (-1) 0 (-2) 1).status = .ok ∧
    (render_context_gl.add_program
      (render_context_gl.add_shader render_context.blank.init SHADER_FRAGMENT [70] 1).2
      (-1) 0 (-2) 1).handle = -1 ∧
    (render_context_metal.add_program
      (render_context_metal.add_shaders render_context.blank.init [SHADER_FRAGMENT])
      (-1) 0 (-1)).status = .out_of_range ∧
    (render_context_metal.add_program
      (render_context_metal.add_shaders render_context.blank.init [SHADER_FRAGMENT])
      (-1) 0 (-1)).handle = 0 ∧
    ((render_context_metal.add_program
      (render_context_metal.add_shaders render_context.blank.init [SHADER_FRAGMENT])
      (-1) 0 (-1)).context._shader_programs 0) = ⟨-1, 0, -1, 0⟩ ∧
    (render_context_metal.add_program
      (render_context_metal.add_shaders render_context.blank.init [SHADER_FRAGMENT])
      (-1) 0 (-2)).handle = -1 := by
  decide

/-! ## Buffer slots of a geometry with no elements -/

/-- C27, on the code: after `init` and `add_geometry` (handle 0),
`geometry_begin(0, 0, 3, .., GEOMETRY_VERTEX | GEOMETRY_INDEX)` returns; the vertex
stream takes buffer slot 0 and leaves it with size 0, so the scan for the index
stream takes slot 0 again: both refs of geometry 0 name slot 0, which ends as an
index buffer of 12 bytes.  With the vertex stream alone and no vertices the
geometry refers to slot 0, whose size is 0, and `add_buffer_object(.., 64)` then
returns 0 as well.  On the same tables `geometry_begin` and `add_buffer_object`
of the command-buffer backend do the same. -/
theorem geometry_begin_zero_count_shares_slot :
    (render_context_gl.add_geometry render_context.blank.init 1).1 = 0 ∧
    (render_context_gl.geometry_begin (render_context_gl.add_geometry render_context.blank.init 1).2
      0 0 3 (some none) (some none) 3).status = .ok ∧
    ((render_context_gl.geometry_begin
      (render_context_gl.add_geometry render_context.blank.init 1).2
      0 0 3 (some none) (some none) 3).context._geometry_handles 0) =
      ⟨1, 32, 1, 3, ⟨0, 0⟩, ⟨0, 3⟩⟩ ∧
    ((render_context_gl.geometry_begin
      (render_context_gl.add_geometry render_context.blank.init 1).2
      0 0 3 (some none) (some none) 3).context._buffer_objects 0) =
      ⟨GEOMETRY_INDEX, 12, some [0, 0, 0, 0, 0, 0, 0, 0, 0, 0, 0, 0]⟩ ∧
    ((render_context_gl.geometry_begin
      (render_context_gl.add_geometry render_context.blank.init 1).2
      0 0 0 (some none) (some none) 1).context._geometry_handles 0) =
      ⟨1, 32, 1, 1, ⟨0, 0⟩, ⟨-1, 0⟩⟩ ∧
    ((render_context_gl.geometry_begin
      (render_context_gl.add_geometry render_context.blank.init 1).2
      0 0 0 (some none) (some none) 1).context._buffer_objects 0) =
      ⟨GEOMETRY_VERTEX, 0, some []⟩ ∧
    (render_context_gl.add_buffer_object
      (render_context_gl.geometry_begin
        (render_context_gl.add_geometry render_context.blank.init 1).2
        0 0 0 (some none) (some none) 1).context 64).1 = 0 ∧
    ((render_context_metal.geometry_begin
      (render_context_gl.add_geometry render_context.blank.init 1).2
      0 0 3 (some none) (some none) 3).context._geometry_handles 0) =
      ⟨1, 32, 1, 3, ⟨0, 0⟩, ⟨0, 3⟩⟩ ∧
    (render_context_metal.add_buffer_object
      (render_context_metal.geometry_begin
        (render_context_gl.add_geometry render_context.blank.init 1).2
        0 0 0 (some none) (some none) 1).context 64).1 = 0 := by
  decide

/-! ## Blending and the cached pipeline -/

/-- C28, on the code: a vertex and a fragment shader (handles 0 and 1), the
program `add_program(0, 1, -1)` (handle 0, linked), a newly constructed
command-buffer context.  `bind_program(0)` builds the pipeline object 100 with
blending off and stores it under the key of the program.  After
`set_blending_enabled(true)`, `set_blending_function` and `set_blending_equation`
(the enumerators are stood for by the numbers 2, 3 and 4) `bind_program(0)`
finds the key in the cache and selects object 100 again, built with blending off
and the old factors and equation; no pipeline is built.  On an empty cache the
same bind builds a pipeline with blending on and the new factors and equation. -/
theorem bind_program_cached_pipeline_old_blending :
    (render_context_metal.add_program
      (render_context_metal.add_shaders render_context.blank.init
        [SHADER_VERTEX, SHADER_FRAGMENT]) 0 1 (-1)).handle = 0 ∧
    (render_context_metal.bind_program
      (render_context_metal.construct
        (render_context_metal.add_program
          (render_context_metal.add_shaders render_context.blank.init
            [SHADER_VERTEX, SHADER_FRAGMENT]) 0 1 (-1)).context 1 0)
      0 100).render_pipeline = some ⟨100, false, 0, 1, 1⟩ ∧
    (render_context_metal.set_blending_equation
      (render_context_metal.set_blending_function
        (render_context_metal.set_blending_enabled
          (render_context_metal.bind_program
            (render_context_metal.construct
              (render_context_metal.add_program
                (render_context_metal.add_shaders render_context.blank.init
                  [SHADER_VERTEX, SHADER_FRAGMENT]) 0 1 (-1)).context 1 0)
            0 100).context true) 2 3) 4)._enable_blending = true ∧
    (render_context_metal.bind_program
      (render_context_metal.set_blending_equation
        (render_context_metal.set_blending_function
          (render_context_metal.set_blending_enabled
            (render_context_metal.bind_program
              (render_context_metal.construct
                (render_context_metal.add_program
                  (render_context_metal.add_shaders render_context.blank.init
                    [SHADER_VERTEX, SHADER_FRAGMENT]) 0 1 (-1)).context 1 0)
              0 100).context true) 2 3) 4)
      0 101).status = .ok ∧
    (render_context_metal.bind_program
      (render_context_metal.set_blending_equation
        (render_context_metal.set_blending_function
          (render_context_metal.set_blending_enabled
            (render_context_metal.bind_program
              (render_context_metal.construct
                (render_context_metal.add_program
                  (render_context_metal.add_shaders render_context.blank.init
                    [SHADER_VERTEX, SHADER_FRAGMENT]) 0 1 (-1)).context 1 0)
              0 100).context true) 2 3) 4)
      0 101).render_pipeline = some ⟨100, false, 0, 1, 1⟩ ∧
    (render_context_metal.bind_program
      (render_context_metal.set_blending_equation
        (render_context_metal.set_blending_function
          (render_context_metal.set_blending_enabled
            (render_context_metal.construct
              (render_context_metal.add_program
                (render_context_metal.add_shaders render_context.blank.init
                  [SHADER_VERTEX, SHADER_FRAGMENT]) 0 1 (-1)).context 1 0)
            true) 2 3) 4)
      0 101).render_pipeline = some ⟨101, true, 4, 2, 3⟩ := by
  decide

/-! ## Copies between buffer objects -/

/-- C29, on the code: after `init` and two `add_buffer_object` calls of 8192
bytes (handles 0 and 1), `copy_buffer_object_data(0, 1, 4096, 0, 16)` issues no
copy although both handles are in use and both ranges lie inside the buffers: the
second test compares `read_offset`, not `destination_handle`, with
`MAX_BUFFER_OBJECT`.  With `read_offset` 0 the copy is issued.  The destination
handle is not tested: with -1 or 2048 the code forms `&_buffer_objects[-1]` or
`&_buffer_objects[2048]` and reads the device buffer there.  Neither the sizes
nor the in-use state of the slots are read: the copy from the free slot 5 to the
free slot 6 is issued, and so is a copy of 16384 bytes between the two buffers of
8192 bytes.  Both backends run the same tests. -/
theorem copy_buffer_object_data_tests_read_offset :
    (render_context_gl.add_buffer_object
      (render_context_gl.add_buffer_object render_context.blank.init 8192).2 8192).1 = 1 ∧
    ((render_context_gl.add_buffer_object
      (render_context_gl.add_buffer_object render_context.blank.init 8192).2
        8192).2._buffer_objects 0).size = 8192 ∧
    ((render_context_gl.add_buffer_object
      (render_context_gl.add_buffer_object render_context.blank.init 8192).2
        8192).2._buffer_objects 1).size = 8192 ∧
    ((render_context_gl.add_buffer_object
      (render_context_gl.add_buffer_object render_context.blank.init 8192).2
        8192).2._buffer_objects 5).size = 0 ∧
    ((render_context_gl.add_buffer_object
      (render_context_gl.add_buffer_object render_context.blank.init 8192).2
        8192).2._buffer_objects 6).size = 0 ∧
    render_context_gl.copy_buffer_object_data 0 1 4096 0 16 = (.ok, none) ∧
    render_context_gl.copy_buffer_object_data 0 1 0 0 16 = (.ok, some ⟨0, 1, 0, 0, 16⟩) ∧
    render_context_gl.copy_buffer_object_data 0 (-1) 0 0 16 = (.out_of_range, none) ∧
    render_context_gl.copy_buffer_object_data 0 2048 0 0 16 = (.out_of_range, none) ∧
    render_context_gl.copy_buffer_object_data 5 6 0 0 16 = (.ok, some ⟨5, 6, 0, 0, 16⟩) ∧
    render_context_gl.copy_buffer_object_data 0 1 0 0 16384 =
      (.ok, some ⟨0, 1, 0, 0, 16384⟩) ∧
    render_context_metal.copy_buffer_object_data 0 1 4096 0 16 = (.ok, none) ∧
    render_context_metal.copy_buffer_object_data 0 (-1) 0 0 16 = (.out_of_range, none) ∧
    render_context_metal.copy_buffer_object_data 5 6 0 0 16 = (.ok, some ⟨5, 6, 0, 0, 16⟩) := by
  decide

/-- Where the two tests let a copy through: in both backends
`copy_buffer_object_data` issues no copy and returns when the source handle is out of range; when the source and the
destination handle are both in `[0, 2048)` and `read_offset` is below 2048 it
returns and issues the copy of `size` bytes from `read_offset` of the source to
`write_offset` of the destination, whatever `write_offset` and `size` are: the
sizes of the two buffers are not read. -/
theorem copy_buffer_object_data_issues (source_handle destination_handle : Int)
    (read_offset write_offset size : Nat) :
    ((source_handle < 0 ∨ source_handle ≥ MAX_BUFFER_OBJECT) →
      render_context_gl.copy_buffer_object_data source_handle destination_handle
        read_offset write_offset size = (.ok, none) ∧
      render_context_metal.copy_buffer_object_data source_handle destination_handle
        read_offset write_offset size = (.ok, none)) ∧
    (0 ≤ source_handle → source_handle < MAX_BUFFER_OBJECT →
      0 ≤ destination_handle → destination_handle < MAX_BUFFER_OBJECT →
      read_offset < MAX_BUFFER_OBJECT →
      render_context_gl.copy_buffer_object_data source_handle destination_handle
          read_offset write_offset size =
        (.ok, some ⟨source_handle.toNat, destination_handle.toNat, read_offset, write_offset,
          size⟩) ∧
      render_context_metal.copy_buffer_object_data source_handle destination_handle
          read_offset write_offset size =
        (.ok, some ⟨source_handle.toNat, destination_handle.toNat, read_offset, write_offset,
          size⟩)) := by
  constructor
  · intro h
    unfold render_context_gl.copy_buffer_object_data
      render_context_metal.copy_buffer_object_data
    rw [if_pos h]
    exact ⟨rfl, rfl⟩
  · intro h0 h1 h2 h3 h4
    have e1 : ¬ (source_handle < 0 ∨ source_handle ≥ (MAX_BUFFER_OBJECT : Nat)) := by omega
    have e2 : ¬ ((read_offset : Int) < 0 ∨ read_offset ≥ MAX_BUFFER_OBJECT) := by omega
    have e3 : ¬ (destination_handle < 0 ∨ destination_handle ≥ (MAX_BUFFER_OBJECT : Nat)) := by
      omega
    unfold render_context_gl.copy_buffer_object_data
      render_context_metal.copy_buffer_object_data
    rw [if_neg e1, if_neg e2, if_neg e3]
    exact ⟨rfl, rfl⟩

/-- On an example: the copy of 16 bytes from offset 64 of buffer 0
to offset 128 of buffer 1 is issued; with the source handle 2048 none is. -/
theorem copy_buffer_object_data_issues_witness :
    render_context_gl.copy_buffer_object_data 0 1 64 128 16 =
      (.ok, some ⟨0, 1, 64, 128, 16⟩) ∧
    render_context_metal.copy_buffer_object_data 2048 1 64 128 16 = (.ok, none) :=
  ⟨((copy_buffer_object_data_issues 0 1 64 128 16).2 (by decide) (by decide) (by decide)
      (by decide) (by decide)).1,
    ((copy_buffer_object_data_issues 2048 1 64 128 16).1 (Or.inr (by decide))).2⟩

/-! ## Padding the blob for a draw or a dispatch -/

theorem metal_bind_uniform_extends (m : render_context_metal) (program uniform : Int) :
    List.IsPrefix m._raw_uniforms
      (render_context_metal.bind_uniform m program uniform)._raw_uniforms := by
  unfold render_context_metal.bind_uniform
  dsimp only
  split_ifs
  · exact List.prefix_refl _
  · exact List.prefix_refl _
  · exact List.prefix_refl _
  · obtain ⟨k, -, -, -, hpad⟩ := pad_aligned
      (uniform_type_to_alignment (m._uniforms uniform.toNat).uniform_type).align
      (alignment_pos _) m._raw_uniforms
    rw [hpad]
    exact ((List.prefix_append _ _).trans (List.prefix_append _ _)).trans
      (List.prefix_append _ _)

/-- C30: in the command-buffer backend let `k` be the least number with
`|B| + k` a multiple of 16, where `B` is the packed blob (`k` is below 16, and 0
when `|B|` is a multiple of 16 already).  `geometry_draw` with an open render
encoder and an allocated geometry, and `dispatch_compute` with an open compute
encoder, leave the blob `B ++ zeros(k)` and the inherited tables as they were;
`geometry_draw` hands these bytes to the encoder.  So `B` is a prefix of the new
blob, a blob of aligned length is unchanged, and the blob after any
`bind_uniform` that follows starts with `B ++ zeros(k)`. -/
theorem draw_pads_blob (m : render_context_metal) (handle instance_count : Int) :
    ∃ k, k < 16 ∧ (m._raw_uniforms.length + k) % 16 = 0 ∧
      (∀ j, j < k → (m._raw_uniforms.length + j) % 16 ≠ 0) ∧
      (m._raw_uniforms.length % 16 = 0 → k = 0) ∧
      List.IsPrefix m._raw_uniforms (m._raw_uniforms ++ List.replicate k 0) ∧
      (m.mp_render_command_encoder = true → 0 ≤ handle → handle < MAX_GEOMETRY →
        (m._geometry_handles handle.toNat).mode ≠ 0 →
        (render_context_metal.geometry_draw m handle instance_count).context._raw_uniforms =
          m._raw_uniforms ++ List.replicate k 0 ∧
        (render_context_metal.geometry_draw m handle instance_count).uniform_bytes =
          some (m._raw_uniforms ++ List.replicate k 0) ∧
        (render_context_metal.geometry_draw m handle instance_count).context.torender_context =
          m.torender_context ∧
        (m._raw_uniforms.length % 16 = 0 →
          (render_context_metal.geometry_draw m handle instance_count).context._raw_uniforms =
            m._raw_uniforms) ∧
        ∀ program uniform : Int,
          List.IsPrefix (m._raw_uniforms ++ List.replicate k 0)
            (render_context_metal.bind_uniform
              (render_context_metal.geometry_draw m handle instance_count).context
              program uniform)._raw_uniforms) ∧
      (m.mp_compute_command_encoder = true →
        (render_context_metal.dispatch_compute m)._raw_uniforms =
          m._raw_uniforms ++ List.replicate k 0 ∧
        (render_context_metal.dispatch_compute m).torender_context = m.torender_context ∧
        (m._raw_uniforms.length % 16 = 0 →
          (render_context_metal.dispatch_compute m)._raw_uniforms = m._raw_uniforms) ∧
        ∀ program uniform : Int,
          List.IsPrefix (m._raw_uniforms ++ List.replicate k 0)
            (render_context_metal.bind_uniform (render_context_metal.dispatch_compute m)
              program uniform)._raw_uniforms) := by
  obtain ⟨k, hk, hmod, hmin, hpad⟩ := pad_aligned 16 (by decide) m._raw_uniforms
  have hzero : m._raw_uniforms.length % 16 = 0 → k = 0 := by
    intro h
    by_contra hne
    exact hmin 0 (Nat.pos_of_ne_zero hne) (by rw [Nat.add_zero]; exact h)
  refine ⟨k, hk, hmod, hmin, hzero, List.prefix_append _ _, ?_, ?_⟩
  · intro hr h0 h1 hmode
    have e1 : ¬ ¬ m.mp_render_command_encoder = true := not_not.mpr hr
    have e2 : ¬ (handle < 0 ∨ handle ≥ (MAX_GEOMETRY : Nat)) := by omega
    have hdraw : (render_context_metal.geometry_draw m handle instance_count).context =
        { m with _raw_uniforms := m._raw_uniforms ++ List.replicate k 0 } := by
      unfold render_context_metal.geometry_draw
      rw [if_neg e1, if_neg e2]
      dsimp only
      rw [if_neg hmode, hpad]
    have hbytes : (render_context_metal.geometry_draw m handle instance_count).uniform_bytes =
        some (m._raw_uniforms ++ List.replicate k 0) := by
      unfold render_context_metal.geometry_draw
      rw [if_neg e1, if_neg e2]
      dsimp only
      rw [if_neg hmode, hpad]
    refine ⟨by rw [hdraw], hbytes, by rw [hdraw], ?_, ?_⟩
    · intro h
      rw [hdraw, hzero h]
      exact List.append_nil _
    · intro program uniform
      have := metal_bind_uniform_extends
        (render_context_metal.geometry_draw m handle instance_count).context program uniform
      rw [hdraw] at this ⊢
      exact this
  · intro hc
    have hdisp : render_context_metal.dispatch_compute m =
        { m with _raw_uniforms := m._raw_uniforms ++ List.replicate k 0 } := by
      unfold render_context_metal.dispatch_compute
      rw [if_pos hc, hpad]
    refine ⟨by rw [hdisp], by rw [hdisp], ?_, ?_⟩
    · intro h
      rw [hdisp, hzero h]
      exact List.append_nil _
    · intro program uniform
      have := metal_bind_uniform_extends (render_context_metal.dispatch_compute m)
        program uniform
      rw [hdisp] at this ⊢
      exact this

/-- C30 on an example: a blob of 4 bytes, an open render encoder and the geometry
at handle 0.  `geometry_draw` leaves the 4 bytes followed by `k` zeros with
`4 + k` a multiple of 16. -/
theorem draw_pads_blob_witness :
    ∃ k, k < 16 ∧ (4 + k) % 16 = 0 ∧
      (render_context_metal.geometry_draw
        { render_context_metal.with_linked_program
            (render_context_gl.add_geometry render_context.blank.init 1).2
            [255, 254, 253, 252] with mp_render_command_encoder := true } 0 1).context._raw_uniforms =
        [255, 254, 253, 252] ++ List.replicate k 0 :=
  (draw_pads_blob
    { render_context_metal.with_linked_program
        (render_context_gl.add_geometry render_context.blank.init 1).2
        [255, 254, 253, 252] with mp_render_command_encoder := true } 0 1).imp
    fun _ h => ⟨h.1, h.2.1, (h.2.2.2.2.2.1 rfl (by decide) (by decide) (by decide)).1⟩

end RenderDoos
